import Mathlib

/-!
# OpenBCSim Qt5 GUI: the simulation session controller

A shallow embedding of the controller logic of `src/qt5gui/MainWindow.cpp`:
`newScansequence`, `doSimulation` (color-Doppler packet loop and B-mode
acquisition), `onSaveIqBufferAs`, `onResetIqBuffer`, `onLoadSimulatedData`,
`loadScatterers`, `createNewSimulator` and `onCreateNewSimulator`.

Conventions of the embedding.

* The member variables that the controller mutates form the record `MainWindow`;
  every slot is a function from the old record to the new one together with
  an outcome that tells how the slot was left.
* The simulation engine, the widgets and the settings store are external.
  What a slot reads from them during one call is collected in a request
  record; the engine answers a `simulate_lines` call through an arbitrary
  function of the call counter and the installed scan sequence, and it keeps
  the list of calls it received.
* A `float` the controller computes with (scan line timestamps, the PRF) is a
  value of `F32`: a finite value, negative zero, an infinity or NaN.
  Arithmetic follows IEEE 754 binary32 (24 significant bits, round to
  nearest, ties to even, gradual underflow, overflow to infinity, NaN for
  `0 * inf`, `inf - inf`, `0 / 0` and `inf / inf`).  A `float` that the
  controller only copies (coordinates, IQ samples, times put into the
  buffer) is carried as a rational.
* `operator[]` on a `std::vector` does not check its index.  An index that is
  out of range is reported as the outcome `out_of_bounds` and the slot is
  taken to stop there.
-/

namespace OpenBCSim

/-! ## binary32 arithmetic -/

/-- Nearest integer of a rational, a tie going to the even neighbour. -/
def roundNearestEven (r : ℚ) : ℤ :=
  let n := ⌊r⌋
  if r - n < 1 / 2 then n
  else if 1 / 2 < r - n then n + 1
  else if n % 2 = 0 then n else n + 1

/-- Binary exponent of `x` in binary32: the exponent of its binade, not below
the smallest normal exponent `-126`, which is also the exponent at zero. -/
def f32exp (x : ℚ) : ℤ := if x = 0 then -126 else max (Int.log 2 |x|) (-126)

/-- Spacing of the binary32 grid around `x`: `2 ^ (e - 23)` where `e` is the
binary exponent of `x`. -/
def f32ulp (x : ℚ) : ℚ := (2 : ℚ) ^ (f32exp x - 23)

/-- Rounding of a rational to the binary32 grid, the exponent range taken as
unbounded above: the first step of an IEEE operation, before the overflow
test of `F32.round`. -/
def f32round (x : ℚ) : ℚ := roundNearestEven (x / f32ulp x) * f32ulp x

/-- The largest finite `float`, `(2 ^ 24 - 1) * 2 ^ 104`. -/
def FLT_MAX : ℚ := (2 ^ 24 - 1) * 2 ^ 104

/-- A `float`: a finite value given by the rational it denotes (`finite 0` is
`+0`), negative zero, an infinity with its sign, or NaN. -/
inductive F32
  | finite (q : ℚ)
  | negzero
  | inf (negative : Bool)
  | nan
deriving DecidableEq

/-- The zero with the given sign. -/
def F32.zero (negative : Bool) : F32 :=
  if negative then F32.negzero else F32.finite 0

/-- The `float` result of an operation whose exact result is `x`, `x` not
zero: the grid value next to `x`, an infinity when that value lies beyond
`FLT_MAX`, a zero with the sign of `x` when it is zero. -/
def F32.round (x : ℚ) : F32 :=
  if FLT_MAX < |f32round x| then F32.inf (decide (x < 0))
  else if f32round x = 0 then F32.zero (decide (x < 0))
  else F32.finite (f32round x)

/-- The `float` sum `a + b`. -/
def f32add (a b : F32) : F32 :=
  match a, b with
  | F32.nan, _ => F32.nan
  | _, F32.nan => F32.nan
  | F32.inf s, F32.inf t => if s = t then F32.inf s else F32.nan
  | F32.inf s, _ => F32.inf s
  | _, F32.inf t => F32.inf t
  | F32.negzero, F32.negzero => F32.negzero
  | F32.negzero, F32.finite y => if y = 0 then F32.finite 0 else F32.round y
  | F32.finite x, F32.negzero => if x = 0 then F32.finite 0 else F32.round x
  | F32.finite x, F32.finite y => if x + y = 0 then F32.finite 0 else F32.round (x + y)

/-- The `float` product `a * b`. -/
def f32mul (a b : F32) : F32 :=
  match a, b with
  | F32.nan, _ => F32.nan
  | _, F32.nan => F32.nan
  | F32.inf s, F32.inf t => F32.inf (xor s t)
  | F32.inf _, F32.negzero => F32.nan
  | F32.inf s, F32.finite y => if y = 0 then F32.nan else F32.inf (xor s (decide (y < 0)))
  | F32.negzero, F32.inf _ => F32.nan
  | F32.finite x, F32.inf t => if x = 0 then F32.nan else F32.inf (xor (decide (x < 0)) t)
  | F32.negzero, F32.negzero => F32.finite 0
  | F32.negzero, F32.finite y => F32.zero (!(decide (y < 0)))
  | F32.finite x, F32.negzero => F32.zero (!(decide (x < 0)))
  | F32.finite x, F32.finite y =>
    if x * y = 0 then F32.zero (xor (decide (x < 0)) (decide (y < 0))) else F32.round (x * y)

/-- The `float` quotient `a / b`. -/
def f32div (a b : F32) : F32 :=
  match a, b with
  | F32.nan, _ => F32.nan
  | _, F32.nan => F32.nan
  | F32.inf _, F32.inf _ => F32.nan
  | F32.inf s, F32.negzero => F32.inf (!s)
  | F32.inf s, F32.finite y => F32.inf (xor s (decide (y < 0)))
  | F32.negzero, F32.inf t => F32.zero (!t)
  | F32.finite x, F32.inf t => F32.zero (xor (decide (x < 0)) t)
  | F32.negzero, F32.negzero => F32.nan
  | F32.negzero, F32.finite y => if y = 0 then F32.nan else F32.zero (!(decide (y < 0)))
  | F32.finite x, F32.negzero => if x = 0 then F32.nan else F32.inf (!(decide (x < 0)))
  | F32.finite x, F32.finite y =>
    if y = 0 then (if x = 0 then F32.nan else F32.inf (decide (x < 0)))
    else if x = 0 then F32.zero (decide (y < 0))
    else F32.round (x / y)

/-- Conversion of an `int` to `float`. -/
def f32ofInt (n : ℤ) : F32 := if n = 0 then F32.finite 0 else F32.round n

/-- The comparison `a <= b` of two `float` values; false when one is NaN. -/
def F32.le (a b : F32) : Bool :=
  match a, b with
  | F32.nan, _ => false
  | _, F32.nan => false
  | F32.inf s, F32.inf t => s || !t
  | F32.inf s, _ => s
  | _, F32.inf t => !t
  | F32.negzero, F32.negzero => true
  | F32.negzero, F32.finite y => decide (0 ≤ y)
  | F32.finite x, F32.negzero => decide (x ≤ 0)
  | F32.finite x, F32.finite y => decide (x ≤ y)

/-! ## data model -/

/-- The type `bcsim::vector3`. -/
structure vector3 where
  x : ℚ
  y : ℚ
  z : ℚ
deriving DecidableEq

/-- The type `bcsim::Scanline`: origin, direction, lateral direction, timestamp. -/
structure Scanline where
  origin : vector3
  direction : vector3
  lateral_dir : vector3
  timestamp : F32
deriving DecidableEq

/-- The type `bcsim::ScanSequence`. -/
structure ScanSequence where
  line_length : ℚ
  all_timestamps_equal : Bool
  scanlines : List Scanline
deriving DecidableEq

/-- An opaque scan geometry descriptor (`bcsim::ScanGeometry::ptr`). -/
structure ScanGeometry where
  id : Nat
deriving DecidableEq

/-- One `std::complex<float>` sample: real part, imaginary part. -/
abbrev IQ_Sample := ℚ × ℚ

/-- The samples of one scan line. -/
abbrev IQ_Line := List IQ_Sample

/-- The local typedef `IQ_Frame` of `doSimulation`: line index to samples. -/
abbrev IQ_Frame := List IQ_Line

/-- What a call into the engine can throw. -/
inductive Thrown
  | runtime_error (what : String)
  | other_exception
deriving DecidableEq

/-- Result of one blocking `simulate_lines` call. -/
abbrev SimResult := Except Thrown IQ_Frame

/-- One call received by the engine. -/
inductive EngineCall
  | set_scan_sequence (seq : ScanSequence)
  | simulate_lines (installed : ScanSequence)
deriving DecidableEq

/-- The engine `m_sim` as far as the controller can observe it: the installed
scan sequence, the number of `simulate_lines` calls made so far and the list
of all calls in the order they were made. -/
structure Simulator where
  scan_sequence : ScanSequence
  num_simulate_calls : Nat
  calls : List EngineCall
deriving DecidableEq

/-- The call `m_sim->set_scan_sequence(seq)`. -/
def Simulator.set_scan_sequence (sim : Simulator) (seq : ScanSequence) : Simulator :=
  { sim with
    scan_sequence := seq
    calls := sim.calls ++ [EngineCall.set_scan_sequence seq] }

/-- The call `m_sim->simulate_lines(frame)`: the engine answers through
`respond`, applied to the call counter and the installed sequence. -/
def Simulator.simulate_lines (sim : Simulator) (respond : Nat → ScanSequence → SimResult) :
    Simulator × SimResult :=
  ({ sim with
     num_simulate_calls := sim.num_simulate_calls + 1
     calls := sim.calls ++ [EngineCall.simulate_lines sim.scan_sequence] },
   respond sim.num_simulate_calls sim.scan_sequence)

/-- The tasks of `refresh_worker`, as filled in by the controller. -/
inductive WorkTask
  | BMode (geometry : ScanGeometry) (data : IQ_Frame) (normalize_const : ℚ)
      (auto_normalize : Bool) (dots_per_meter : ℚ) (dyn_range : ℚ) (gain : ℚ)
  | ColorDoppler (geometry : ScanGeometry) (data : List IQ_Frame) (dots_per_meter : ℚ)
deriving DecidableEq

/-- Whether a task is a color-Doppler task. -/
def WorkTask.isColor : WorkTask → Bool
  | WorkTask.ColorDoppler _ _ _ => true
  | WorkTask.BMode _ _ _ _ _ _ _ => false

/-- Severity of a log line (`bcsim::ILog`). -/
inductive LogLevel
  | DEBUG
  | INFO
  | WARNING
deriving DecidableEq

/-- The mutable members of a constructed `MainWindow`.  `m_refresh_worker` is
the queue of the worker: the tasks passed to `process_data`, oldest first.
`m_log_widget` keeps the WARNING lines the slots write; their INFO and DEBUG
lines are left out. -/
structure MainWindow where
  m_sim : Simulator
  m_scan_geometry : ScanGeometry
  m_cur_scanseq : ScanSequence
  m_iq_buffer : List IQ_Frame
  m_iq_buffer_timestamps : List ℚ
  m_refresh_worker : List WorkTask
  m_log_widget : List (LogLevel × String)
deriving DecidableEq

/-- How a slot was left. -/
inductive Outcome
  | returned
  | escaped_exception
  | out_of_bounds
deriving DecidableEq

/-- Values of `GrayscaleTransformWidget::get_values`. -/
structure GrayscaleSettings where
  normalization_const : ℚ
  auto_normalize : Bool
  dyn_range : ℚ
  gain : ℚ
deriving DecidableEq

/-- Everything one `doSimulation` call reads from its collaborators: the time
manager, the probe and scan-sequence widgets, the menu check boxes, the
settings store, the scan-sequence library and the engine. -/
structure SimRequest where
  cur_time : ℚ
  get_origin : ℚ → vector3
  get_rot_angles : ℚ → vector3
  geometry : ScanGeometry
  num_lines : Int
  all_timestamps_equal : Bool
  CreateScanSequence : ScanGeometry → Int → ℚ → ScanSequence
  OrientScanSequence : ScanSequence → vector3 → vector3 → ScanSequence
  ctor_all_timestamps_equal : Bool
  enable_color : Bool
  enable_bmode : Bool
  save_iq : Bool
  color_packet_size : Int
  color_prf : F32
  grayscale : GrayscaleSettings
  qimage_dots_per_meter : ℚ
  simulate_lines : Nat → ScanSequence → SimResult

/-! ## `newScansequence` and `doSimulation` -/

/-- The function `MainWindow::newScansequence`. -/
def newScansequence (rq : SimRequest) (st : MainWindow) (new_geometry : ScanGeometry)
    (new_num_lines : Int) (equal_timestamps : Bool) : MainWindow :=
  let cur_time := rq.cur_time
  let probe_origin := rq.get_origin cur_time
  let rot_angles := rq.get_rot_angles cur_time
  let oriented :=
    rq.OrientScanSequence (rq.CreateScanSequence new_geometry new_num_lines cur_time)
      rot_angles probe_origin
  let new_scanseq : ScanSequence := { oriented with all_timestamps_equal := equal_timestamps }
  { st with
    m_scan_geometry := new_geometry
    m_sim := st.m_sim.set_scan_sequence new_scanseq
    m_cur_scanseq := new_scanseq }

/-- Body of the packet loop up to `set_scan_sequence`: the copy `temp_scanseq`
of the current sequence with every timestamp moved by `packet_no * color_prt`.
`ctor_flag` is the value the `ScanSequence` constructor gives
`all_timestamps_equal`. -/
def temp_scanseq (ctor_flag : Bool) (cur : ScanSequence) (color_prt : F32) (packet_no : Nat) :
    ScanSequence :=
  { line_length := cur.line_length
    all_timestamps_equal := ctor_flag
    scanlines := cur.scanlines.map fun scanline =>
      { origin := scanline.origin
        direction := scanline.direction
        lateral_dir := scanline.lateral_dir
        timestamp := f32add scanline.timestamp (f32mul (f32ofInt packet_no) color_prt) } }

/-- The packet loop of the color path: `n` further iterations starting at
`packet_no`, with the frames collected so far.  It stops at the first
`simulate_lines` call that throws. -/
def colorLoop (rq : SimRequest) (cur : ScanSequence) (color_prt : F32) :
    Nat → Nat → Simulator → List IQ_Frame → Simulator × Except Thrown (List IQ_Frame)
  | 0, _, sim, iq_frames_complex => (sim, Except.ok iq_frames_complex)
  | n + 1, packet_no, sim, iq_frames_complex =>
    let sim1 := sim.set_scan_sequence
      (temp_scanseq rq.ctor_all_timestamps_equal cur color_prt packet_no)
    match sim1.simulate_lines rq.simulate_lines with
    | (sim2, Except.ok iq_frame) =>
      colorLoop rq cur color_prt n (packet_no + 1) sim2 (iq_frames_complex ++ [iq_frame])
    | (sim2, Except.error e) => (sim2, Except.error e)

/-- The color-Doppler branch of `doSimulation`.  The catch clause takes a
`std::runtime_error` only; any other exception leaves `doSimulation`. -/
def colorPath (rq : SimRequest) (st : MainWindow) : MainWindow × Outcome :=
  let color_prt := f32div (F32.finite 1) rq.color_prf
  match colorLoop rq st.m_cur_scanseq color_prt rq.color_packet_size.toNat 0 st.m_sim [] with
  | (sim, Except.ok iq_frames_complex) =>
    ({ st with
       m_sim := sim
       m_refresh_worker := st.m_refresh_worker ++
         [WorkTask.ColorDoppler st.m_scan_geometry iq_frames_complex rq.qimage_dots_per_meter] },
     Outcome.returned)
  | (sim, Except.error (Thrown.runtime_error what)) =>
    ({ st with
       m_sim := sim
       m_log_widget := st.m_log_widget ++
         [(LogLevel.WARNING, "Caught exception simulating color Doppler: " ++ what)] },
     Outcome.returned)
  | (sim, Except.error Thrown.other_exception) =>
    ({ st with m_sim := sim }, Outcome.escaped_exception)

/-- The B-mode branch of `doSimulation`.  The read `rf_lines_complex[0]` is
unchecked: a frame without lines ends the branch with `out_of_bounds`. -/
def bmodePath (rq : SimRequest) (st : MainWindow) : MainWindow × Outcome :=
  match st.m_sim.simulate_lines rq.simulate_lines with
  | (sim, Except.ok rf_lines_complex) =>
    match rf_lines_complex.get? 0 with
    | none => ({ st with m_sim := sim }, Outcome.out_of_bounds)
    | some _ =>
      let m_iq_buffer :=
        if rq.save_iq then st.m_iq_buffer ++ [rf_lines_complex] else st.m_iq_buffer
      let m_iq_buffer_timestamps :=
        if rq.save_iq then st.m_iq_buffer_timestamps ++ [rq.cur_time]
        else st.m_iq_buffer_timestamps
      let bmode_task := WorkTask.BMode st.m_scan_geometry rf_lines_complex
        rq.grayscale.normalization_const rq.grayscale.auto_normalize
        rq.qimage_dots_per_meter rq.grayscale.dyn_range rq.grayscale.gain
      ({ st with
         m_sim := sim
         m_iq_buffer := m_iq_buffer
         m_iq_buffer_timestamps := m_iq_buffer_timestamps
         m_refresh_worker := st.m_refresh_worker ++ [bmode_task] },
       Outcome.returned)
  | (sim, Except.error (Thrown.runtime_error what)) =>
    ({ st with
       m_sim := sim
       m_log_widget := st.m_log_widget ++
         [(LogLevel.WARNING, "Caught exception while simulating B-mode: " ++ what)] },
     Outcome.returned)
  | (sim, Except.error Thrown.other_exception) =>
    ({ st with
       m_sim := sim
       m_log_widget := st.m_log_widget ++ [(LogLevel.WARNING, "Caught unknown error")] },
     Outcome.returned)

/-- The statement `if (m_enable_color_act->isChecked()) ...` of `doSimulation`. -/
def colorStage (rq : SimRequest) (st : MainWindow) : MainWindow × Outcome :=
  if rq.enable_color then colorPath rq st else (st, Outcome.returned)

/-- The statement `if (m_enable_bmode_act->isChecked()) ...` of `doSimulation`. -/
def bmodeStage (rq : SimRequest) (st : MainWindow) : MainWindow × Outcome :=
  if rq.enable_bmode then bmodePath rq st else (st, Outcome.returned)

/-- The function `MainWindow::doSimulation`: rebuild the scan sequence, then
the color-Doppler statement, then the B-mode statement.  The B-mode statement
is reached only when the color statement was left normally. -/
def doSimulation (rq : SimRequest) (st : MainWindow) : MainWindow × Outcome :=
  let st0 := newScansequence rq st rq.geometry rq.num_lines rq.all_timestamps_equal
  match colorStage rq st0 with
  | (st1, Outcome.returned) => bmodeStage rq st1
  | (st1, o) => (st1, o)

/-! ## the IQ buffer: `onSaveIqBufferAs`, `onResetIqBuffer` -/

/-- An HDF5 dataset of floats: its extents and its element at a multi-index. -/
structure H5Dataset where
  dims : List Nat
  elem : List Nat → ℚ

/-- An HDF5 container: datasets by name. -/
abbrev H5File := List (String × H5Dataset)

/-- How `onSaveIqBufferAs` was left. -/
inductive SaveOutcome
  | mismatch_aborted
  | no_frames
  | no_file_name
  | out_of_bounds
  | h5_exception
  | written (path : String) (file : H5File)

/-- Whether the slot created a file. -/
def SaveOutcome.wroteFile : SaveOutcome → Bool
  | SaveOutcome.written _ _ => true
  | _ => false

/-- The function `MainWindow::onResetIqBuffer`. -/
def onResetIqBuffer (st : MainWindow) : MainWindow :=
  { st with m_iq_buffer := [], m_iq_buffer_timestamps := [] }

/-- The unchecked read `m_iq_buffer[frame_no][line_no][sample_no]`;
`none` when one of the three indices is out of range. -/
def read_iq (buf : List IQ_Frame) (frame_no line_no sample_no : Nat) : Option IQ_Sample :=
  match buf.get? frame_no with
  | none => none
  | some frame =>
    match frame.get? line_no with
    | none => none
    | some line => line.get? sample_no

/-- All values of a list of reads, `none` as soon as one read failed. -/
def allSome {α : Type} : List (Option α) → Option (List α)
  | [] => some []
  | none :: _ => none
  | some a :: rest =>
    match allSome rest with
    | none => none
    | some as => some (a :: as)

/-- The three nested conversion loops of `onSaveIqBufferAs`: the samples read
at every index below `num_frames`, `num_lines`, `num_samples`. -/
def convert_iq (buf : List IQ_Frame) (num_frames num_lines num_samples : Nat) :
    Option (List (List (List IQ_Sample))) :=
  allSome ((List.range num_frames).map fun frame_no =>
    allSome ((List.range num_lines).map fun line_no =>
      allSome ((List.range num_samples).map fun sample_no =>
        read_iq buf frame_no line_no sample_no)))

/-- Element of a nested list at a three-dimensional index (zero outside). -/
def elem3 (a : List (List (List ℚ))) : List Nat → ℚ
  | [i, j, k] => ((a.getD i []).getD j []).getD k 0
  | _ => 0

/-- Element of a list at a one-dimensional index (zero outside). -/
def elem1 (a : List ℚ) : List Nat → ℚ
  | [i] => a.getD i 0
  | _ => 0

/-- The function `MainWindow::onSaveIqBufferAs`.  `h5_file` is the answer of the
file dialog (empty when cancelled) and `h5_ok` tells whether the HDF5 library
can create and write the file. -/
def onSaveIqBufferAs (h5_file : String) (h5_ok : Bool) (st : MainWindow) :
    MainWindow × SaveOutcome :=
  let num_frames := st.m_iq_buffer.length
  let num_timestamps := st.m_iq_buffer_timestamps.length
  if num_timestamps ≠ num_frames then
    (onResetIqBuffer { st with m_log_widget := st.m_log_widget ++
        [(LogLevel.WARNING, "Mismatch in number of samples. Aborting")] },
      SaveOutcome.mismatch_aborted)
  else if num_frames = 0 then
    ({ st with m_log_widget := st.m_log_widget ++
        [(LogLevel.WARNING, "No frames in buffer. Skipping")] },
      SaveOutcome.no_frames)
  else if h5_file = "" then
    ({ st with m_log_widget := st.m_log_widget ++
        [(LogLevel.WARNING, "Ignoring IQ buffer save")] },
      SaveOutcome.no_file_name)
  else
    match st.m_iq_buffer.get? 0 with
    | none => (st, SaveOutcome.out_of_bounds)
    | some frame =>
      let num_lines := frame.length
      match frame.get? 0 with
      | none => (st, SaveOutcome.out_of_bounds)
      | some line0 =>
        let num_samples := line0.length
        match convert_iq st.m_iq_buffer num_frames num_lines num_samples with
        | none => (st, SaveOutcome.out_of_bounds)
        | some iq =>
          if h5_ok then
            let dspace := [num_frames, num_lines, num_samples]
            let iq_real : H5Dataset :=
              { dims := dspace, elem := elem3 (iq.map fun fr => fr.map fun ln => ln.map Prod.fst) }
            let iq_imag : H5Dataset :=
              { dims := dspace, elem := elem3 (iq.map fun fr => fr.map fun ln => ln.map Prod.snd) }
            let frame_times : H5Dataset :=
              { dims := [num_frames], elem := elem1 st.m_iq_buffer_timestamps }
            (onResetIqBuffer st,
              SaveOutcome.written h5_file
                [("iq_real", iq_real), ("iq_imag", iq_imag), ("frame_times", frame_times)])
          else (st, SaveOutcome.h5_exception)

/-! ## `onLoadSimulatedData` -/

/-- How `onLoadSimulatedData` was left. -/
inductive LoadOutcome
  | no_file_selected
  | raised (what : String)
  | loaded (iq_frames : List IQ_Frame)
deriving DecidableEq

/-- The call `hdf_reader.getDimensions(name)`: the extents of a dataset, an
exception when the container has no dataset of that name. -/
def getDimensions (container : H5File) (name : String) : Except String (List Nat) :=
  match container.lookup name with
  | none => Except.error ("no dataset " ++ name)
  | some d => Except.ok d.dims

/-- The call `hdf_reader.readMultiArray(name)`. -/
def readMultiArray (container : H5File) (name : String) : Except String H5Dataset :=
  match container.lookup name with
  | none => Except.error ("no dataset " ++ name)
  | some d => Except.ok d

/-- The data conversion of `onLoadSimulatedData` up to the task loop: the
frames read from the container, or the message of the exception raised. -/
def load_iq_frames (container : H5File) : Except String (List IQ_Frame) := do
  let sim_data_dims ← getDimensions container "sim_data_real"
  let sim_data_rank := sim_data_dims.length
  let imag_dims ← getDimensions container "sim_data_imag"
  if imag_dims.length ≠ sim_data_rank then
    throw "real/imag rank mismatch"
  let temp_real ← readMultiArray container "sim_data_real"
  let temp_imag ← readMultiArray container "sim_data_imag"
  if sim_data_rank = 3 then
    let num_frames := temp_real.dims.getD 0 0
    let num_samples := temp_real.dims.getD 1 0
    let num_lines := temp_real.dims.getD 2 0
    if temp_imag.dims.getD 0 0 ≠ num_frames then throw "real/imag mismatch in dimension 0"
    if temp_imag.dims.getD 1 0 ≠ num_samples then throw "real/imag mismatch in dimension 1"
    if temp_imag.dims.getD 2 0 ≠ num_lines then throw "real/imag mismatch in dimension 2"
    return (List.range num_frames).map fun frame_no =>
      (List.range num_lines).map fun i =>
        (List.range num_samples).map fun n =>
          (temp_real.elem [frame_no, n, i], temp_imag.elem [frame_no, n, i])
  else if sim_data_rank = 2 then
    let num_samples := temp_real.dims.getD 0 0
    let num_lines := temp_real.dims.getD 1 0
    if temp_imag.dims.getD 0 0 ≠ num_samples then throw "real/imag mismatch in dimension 0"
    if temp_imag.dims.getD 1 0 ≠ num_lines then throw "real/imag mismatch in dimension 1"
    return [(List.range num_lines).map fun i =>
      (List.range num_samples).map fun n => (temp_real.elem [n, i], temp_imag.elem [n, i])]
  else
    throw "sim_data must have rank 2 or 3"

/-- The function `MainWindow::onLoadSimulatedData`.  `h5_file` is the answer of
the file dialog and `container` the content of that file.  A constructed
`MainWindow` has an engine, so the `!m_sim` guard does not fire. -/
def onLoadSimulatedData (grayscale : GrayscaleSettings) (qimage_dots_per_meter : ℚ)
    (h5_file : String) (container : H5File) (st : MainWindow) : MainWindow × LoadOutcome :=
  let st0 := { st with m_log_widget := st.m_log_widget ++
    [(LogLevel.WARNING, "!!! Warning: THIS ONLY WORKS WITH B-MODE DATA !!!")] }
  if h5_file = "" then
    ({ st0 with m_log_widget := st0.m_log_widget ++
        [(LogLevel.WARNING, "No file selected. Ignoring.")] },
      LoadOutcome.no_file_selected)
  else
    match load_iq_frames container with
    | Except.error what => (st0, LoadOutcome.raised what)
    | Except.ok iq_frames =>
      let bmode_tasks := iq_frames.map fun frame =>
        WorkTask.BMode st0.m_scan_geometry frame grayscale.normalization_const
          grayscale.auto_normalize qimage_dots_per_meter grayscale.dyn_range grayscale.gain
      ({ st0 with m_refresh_worker := st0.m_refresh_worker ++ bmode_tasks },
        LoadOutcome.loaded iq_frames)

/-! ## `loadScatterers` -/

/-- A fixed-scatterer collection (`bcsim::FixedScatterers::s_ptr`). -/
structure FixedScatterers where
  id : Nat
deriving DecidableEq

/-- A spline-scatterer collection (`bcsim::SplineScatterers::s_ptr`) with the
time limits its `get_time_limits` reports. -/
structure SplineScatterers where
  id : Nat
  min_time : ℚ
  max_time : ℚ
deriving DecidableEq

/-- The members `loadScatterers` acts on: the scatterer collections the engine
`m_sim` holds, the values of the simulation time manager, and the WARNING lines
of the log. -/
structure ScattererWindow where
  fixed_scatterers : List FixedScatterers
  spline_scatterers : List SplineScatterers
  min_time : ℚ
  max_time : ℚ
  time : ℚ
  m_log_widget : List (LogLevel × String)
deriving DecidableEq

/-- What `loadScatterers` gets from its collaborators: the file name, the
results of the two HDF5 loaders, and whether the two OpenGL initialisations
succeed. -/
structure ScattererFile where
  h5_file : String
  loadFixedScatterersFromHdf : Except Thrown FixedScatterers
  loadSplineScatterersFromHdf : Except Thrown SplineScatterers
  initializeFixedVisualization_ok : Bool
  initializeSplineVisualization_ok : Bool

/-- The call `m_sim->clear_fixed_scatterers()`. -/
def clear_fixed_scatterers (w : ScattererWindow) : ScattererWindow :=
  { w with fixed_scatterers := [] }

/-- The call `m_sim->clear_spline_scatterers()`. -/
def clear_spline_scatterers (w : ScattererWindow) : ScattererWindow :=
  { w with spline_scatterers := [] }

/-- Modelled from the spec: `SimTimeManager::set_min_time` is not among the
sources.  The minimum is stored and the current time is clamped again. -/
def set_min_time (t : ℚ) (w : ScattererWindow) : ScattererWindow :=
  { w with min_time := t, time := if w.time < t then t else w.time }

/-- Modelled from the spec: `SimTimeManager::set_max_time` is not among the
sources.  The maximum is stored and the current time is clamped again. -/
def set_max_time (t : ℚ) (w : ScattererWindow) : ScattererWindow :=
  { w with max_time := t, time := if t < w.time then t else w.time }

/-- Modelled from the spec: `SimTimeManager::reset` is not among the sources.
The current time becomes the minimum. -/
def reset (w : ScattererWindow) : ScattererWindow :=
  { w with time := w.min_time }

/-- The function `MainWindow::updateWithNewFixedScatterers`. -/
def updateWithNewFixedScatterers (file : ScattererFile) (fixed_scatterers : FixedScatterers)
    (w : ScattererWindow) : ScattererWindow :=
  let w1 := { w with fixed_scatterers := w.fixed_scatterers ++ [fixed_scatterers] }
  if file.initializeFixedVisualization_ok then w1
  else
    { w1 with m_log_widget := w1.m_log_widget ++
        [(LogLevel.WARNING, "Failed to initialize visualization of fixed scatterers")] }

/-- The function `MainWindow::updateWithNewSplineScatterers`. -/
def updateWithNewSplineScatterers (file : ScattererFile) (spline_scatterers : SplineScatterers)
    (w : ScattererWindow) : ScattererWindow :=
  let w1 := { w with spline_scatterers := w.spline_scatterers ++ [spline_scatterers] }
  let w2 :=
    if file.initializeSplineVisualization_ok then w1
    else
      { w1 with m_log_widget := w1.m_log_widget ++
          [(LogLevel.WARNING, "Failed to initialize visualization of spline scatterers")] }
  reset (set_max_time spline_scatterers.max_time (set_min_time spline_scatterers.min_time w2))

/-- The second `try` statement of `loadScatterers`: the spline scatterers. -/
def loadSplinePart (file : ScattererFile) (w : ScattererWindow) : ScattererWindow × Outcome :=
  match file.loadSplineScatterersFromHdf with
  | Except.ok spline_scatterers =>
    (updateWithNewSplineScatterers file spline_scatterers w, Outcome.returned)
  | Except.error (Thrown.runtime_error _) =>
    ({ w with m_log_widget := w.m_log_widget ++
        [(LogLevel.WARNING, "Could not read spline scatterers from file")] },
      Outcome.returned)
  | Except.error Thrown.other_exception => (w, Outcome.escaped_exception)

/-- The function `MainWindow::loadScatterers`.  Both catch clauses take a
`std::runtime_error` only. -/
def loadScatterers (file : ScattererFile) (w : ScattererWindow) : ScattererWindow × Outcome :=
  if file.h5_file = "" then
    ({ w with m_log_widget := w.m_log_widget ++
        [(LogLevel.WARNING, "Invalid scatterer file. Skipping")] },
      Outcome.returned)
  else
    let w1 := clear_spline_scatterers (clear_fixed_scatterers w)
    match file.loadFixedScatterersFromHdf with
    | Except.ok fixed_scatterers =>
      loadSplinePart file (updateWithNewFixedScatterers file fixed_scatterers w1)
    | Except.error (Thrown.runtime_error _) =>
      loadSplinePart file
        { w1 with m_log_widget := w1.m_log_widget ++
            [(LogLevel.WARNING, "Could not read fixed scatterers from file")] }
    | Except.error Thrown.other_exception => (w1, Outcome.escaped_exception)

/-! ## `createNewSimulator` and `onCreateNewSimulator` -/

/-- The two engines `bcsim::Create` can build. -/
inductive SimKind
  | gpu
  | cpu
deriving DecidableEq

/-- The members `createNewSimulator` and `onCreateNewSimulator` act on: which
engine `m_sim` points to (`none` for the null pointer), whether
`QApplication::quit` was called, and the log lines that report a problem. -/
structure SimulatorWindow where
  m_sim : Option SimKind
  quit_requested : Bool
  m_log_widget : List (LogLevel × String)
deriving DecidableEq

/-- What `createNewSimulator` gets from its collaborators: the hardware
detector, the result of `bcsim::Create`, the result of the `set_parameter`
call that follows it, and the result of the configuration that follows the
null check (logger, default phantom, parameters, scan sequence, beam
profile). -/
structure CreateRequest where
  built_with_gpu_support : Bool
  get_gpu_name : Except Thrown String
  Create : SimKind → Except Thrown Unit
  set_parameter : SimKind → Except Thrown Unit
  configure : SimKind → Except Thrown Unit

/-- The statements of `createNewSimulator` from the engine creation on, once
the backend choice `force_gpu`, `force_cpu` is made. -/
def createBackend (sim_type : String) (force_gpu force_cpu : Bool) (cr : CreateRequest)
    (w : SimulatorWindow) : SimulatorWindow × Except Thrown Unit :=
  let created : SimulatorWindow × Except Thrown Unit :=
    if sim_type = "gpu" ∨ force_gpu = true then
      match cr.Create SimKind.gpu with
      | Except.error e => (w, Except.error e)
      | Except.ok _ => ({ w with m_sim := some SimKind.gpu }, cr.set_parameter SimKind.gpu)
    else if sim_type = "cpu" ∨ force_cpu = true then
      match cr.Create SimKind.cpu with
      | Except.error e => (w, Except.error e)
      | Except.ok _ => ({ w with m_sim := some SimKind.cpu }, cr.set_parameter SimKind.cpu)
    else (w, Except.ok ())
  match created with
  | (w1, Except.error e) => (w1, Except.error e)
  | (w1, Except.ok _) =>
    match w1.m_sim with
    | none =>
      (w1, Except.error
        (Thrown.runtime_error "This should never happen - simulator was not created!"))
    | some kind => (w1, cr.configure kind)

/-- The function `MainWindow::createNewSimulator`. -/
def createNewSimulator (sim_type : String) (cr : CreateRequest) (w : SimulatorWindow) :
    SimulatorWindow × Except Thrown Unit :=
  let w0 := { w with m_sim := none }
  if sim_type = "auto" then
    if cr.built_with_gpu_support then
      match cr.get_gpu_name with
      | Except.error e => (w0, Except.error e)
      | Except.ok _ => createBackend sim_type true false cr w0
    else createBackend sim_type false true cr w0
  else createBackend sim_type false false cr w0

/-- The function `MainWindow::onCreateNewSimulator`.  `ok` and `sim_type` are
the answer of the input dialog. -/
def onCreateNewSimulator (ok : Bool) (sim_type : String) (cr : CreateRequest)
    (w : SimulatorWindow) : SimulatorWindow × Outcome :=
  if ok then
    match createNewSimulator sim_type cr w with
    | (w1, Except.ok _) => (w1, Outcome.returned)
    | (w1, Except.error (Thrown.runtime_error what)) =>
      ({ w1 with
         m_log_widget := w1.m_log_widget ++
           [(LogLevel.INFO, "onCreateNewSimulator: caught exception: " ++ what)]
         quit_requested := true },
       Outcome.returned)
    | (w1, Except.error Thrown.other_exception) => (w1, Outcome.escaped_exception)
  else (w, Outcome.returned)

/-! ## observables used in the statements -/

/-- The scan sequences passed to `set_scan_sequence` in a list of engine calls,
in call order. -/
def installedSequences (calls : List EngineCall) : List ScanSequence :=
  calls.filterMap fun c =>
    match c with
    | EngineCall.set_scan_sequence seq => some seq
    | EngineCall.simulate_lines _ => none

/-- The scan sequences on which `simulate_lines` ran in a list of engine calls,
in call order. -/
def simulatedSequences (calls : List EngineCall) : List ScanSequence :=
  calls.filterMap fun c =>
    match c with
    | EngineCall.set_scan_sequence _ => none
    | EngineCall.simulate_lines seq => some seq

/-- The engine calls made during one `doSimulation` request. -/
def requestCalls (rq : SimRequest) (st : MainWindow) : List EngineCall :=
  (doSimulation rq st).1.m_sim.calls.drop st.m_sim.calls.length

/-- The tasks handed to the worker during one `doSimulation` request. -/
def requestTasks (rq : SimRequest) (st : MainWindow) : List WorkTask :=
  (doSimulation rq st).1.m_refresh_worker.drop st.m_refresh_worker.length

/-- The scan sequence rebuilt at the start of a request (`m_cur_scanseq`). -/
def baseSequence (rq : SimRequest) (st : MainWindow) : ScanSequence :=
  (newScansequence rq st rq.geometry rq.num_lines rq.all_timestamps_equal).m_cur_scanseq

/-- The sequence the color loop builds for packet `packet_no` of a request. -/
def packetSequence (rq : SimRequest) (st : MainWindow) (packet_no : Nat) : ScanSequence :=
  temp_scanseq rq.ctor_all_timestamps_equal (baseSequence rq st) (f32div (F32.finite 1) rq.color_prf) packet_no

/-- The calls of `m` consecutive packets starting at packet `p`. -/
def packetCalls (temp : Nat → ScanSequence) : Nat → Nat → List EngineCall
  | 0, _ => []
  | m + 1, p =>
    EngineCall.set_scan_sequence (temp p) :: EngineCall.simulate_lines (temp p) ::
      packetCalls temp m (p + 1)

/-- The engine after one packet of the color loop: sequence installed, one
more simulate call counted, both calls recorded. -/
def afterPacket (sim : Simulator) (seq : ScanSequence) : Simulator :=
  { scan_sequence := seq
    num_simulate_calls := sim.num_simulate_calls + 1
    calls := sim.calls ++
      [EngineCall.set_scan_sequence seq, EngineCall.simulate_lines seq] }

/-- The engine after `m` packets of the color loop starting at packet `p`. -/
def afterPackets (sim : Simulator) (temp : Nat → ScanSequence) (m p : Nat) : Simulator :=
  { scan_sequence := if m = 0 then sim.scan_sequence else temp (p + m - 1)
    num_simulate_calls := sim.num_simulate_calls + m
    calls := sim.calls ++ packetCalls temp m p }

/-- The state in which the B-mode statement of a request starts. -/
def stateBeforeBmode (rq : SimRequest) (st : MainWindow) : MainWindow :=
  (colorStage rq (newScansequence rq st rq.geometry rq.num_lines rq.all_timestamps_equal)).1

/-- The `float` value of `packet_no * color_prt` where `color_prt = 1.0f / prf`. -/
def packetOffset (prf : F32) (packet_no : Nat) : F32 :=
  f32mul (f32ofInt packet_no) (f32div (F32.finite 1) prf)

/-- The frame the B-mode statement acquires in state `st`: the answer of the
engine when the mode is on, the call succeeds and the frame has a line 0. -/
def bmodeFrame (rq : SimRequest) (st : MainWindow) : Option IQ_Frame :=
  if rq.enable_bmode then
    match rq.simulate_lines st.m_sim.num_simulate_calls st.m_sim.scan_sequence with
    | Except.ok (line :: lines) => some (line :: lines)
    | _ => none
  else none

/-- The B-mode task built from a frame in state `st`. -/
def bmodeTask (rq : SimRequest) (st : MainWindow) (frame : IQ_Frame) : WorkTask :=
  WorkTask.BMode st.m_scan_geometry frame rq.grayscale.normalization_const
    rq.grayscale.auto_normalize rq.qimage_dots_per_meter rq.grayscale.dyn_range
    rq.grayscale.gain

/-- The operations of a session that touch the IQ buffer. -/
inductive SessionOp
  | simulate (rq : SimRequest)
  | saveIqBufferAs (h5_file : String) (h5_ok : Bool)
  | resetIqBuffer

/-- The window after one operation. -/
def SessionOp.run : SessionOp → MainWindow → MainWindow
  | SessionOp.simulate rq, st => (doSimulation rq st).1
  | SessionOp.saveIqBufferAs h5_file h5_ok, st => (onSaveIqBufferAs h5_file h5_ok st).1
  | SessionOp.resetIqBuffer, st => onResetIqBuffer st

/-- The window after a list of operations, first operation first. -/
def runSession (ops : List SessionOp) (st : MainWindow) : MainWindow :=
  ops.foldl (fun s op => op.run s) st

/-- The samples of a buffer at all indices below the given extents, an index
outside the buffer giving the zero sample. -/
def cube (buf : List IQ_Frame) (num_frames num_lines num_samples : Nat) :
    List (List (List IQ_Sample)) :=
  (List.range num_frames).map fun frame_no =>
    (List.range num_lines).map fun line_no =>
      (List.range num_samples).map fun sample_no =>
        ((buf.getD frame_no []).getD line_no []).getD sample_no (0, 0)

/-- The container `onSaveIqBufferAs` writes for a buffer of the given extents. -/
def savedContainer (st : MainWindow) (L S : Nat) : H5File :=
  [("iq_real",
      { dims := [st.m_iq_buffer.length, L, S]
        elem := elem3 ((cube st.m_iq_buffer st.m_iq_buffer.length L S).map fun fr =>
          fr.map fun ln => ln.map Prod.fst) }),
    ("iq_imag",
      { dims := [st.m_iq_buffer.length, L, S]
        elem := elem3 ((cube st.m_iq_buffer st.m_iq_buffer.length L S).map fun fr =>
          fr.map fun ln => ln.map Prod.snd) }),
    ("frame_times",
      { dims := [st.m_iq_buffer.length], elem := elem1 st.m_iq_buffer_timestamps })]

/-- The engine calls made by the color statement of a request: those after
the `set_scan_sequence` call of `newScansequence` and before the B-mode
statement. -/
def colorCalls (rq : SimRequest) (st : MainWindow) : List EngineCall :=
  (stateBeforeBmode rq st).m_sim.calls.drop (st.m_sim.calls.length + 1)

/-- The tasks handed to the worker by the color statement of a request. -/
def colorTasks (rq : SimRequest) (st : MainWindow) : List WorkTask :=
  (stateBeforeBmode rq st).m_refresh_worker.drop st.m_refresh_worker.length

/-- The messages of the `throw std::runtime_error(...)` statements of
`onLoadSimulatedData`. -/
def load_runtime_errors : List String :=
  ["real/imag rank mismatch",
   "real/imag mismatch in dimension 0",
   "real/imag mismatch in dimension 1",
   "real/imag mismatch in dimension 2",
   "sim_data must have rank 2 or 3"]

/-- The value of `packet_no * color_prt` for a PRF `f` when none of the three
operations (`1.0f / f`, the conversion of `packet_no`, the product) leaves
the finite range. -/
def offsetValue (f : ℚ) (packet_no : Nat) : ℚ :=
  f32round (f32round packet_no * f32round (1 / f))

/-! ## example inputs -/

/-- A scan line along the z axis with the given timestamp. -/
def exampleLine (t : ℚ) : Scanline :=
  { origin := { x := 0, y := 0, z := 0 }
    direction := { x := 0, y := 0, z := 1 }
    lateral_dir := { x := 1, y := 0, z := 0 }
    timestamp := F32.finite t }

/-- A window whose buffer and worker queue are empty and whose engine has
received no call yet. -/
def exampleWindow : MainWindow :=
  { m_sim :=
      { scan_sequence := { line_length := 1 / 10, all_timestamps_equal := false, scanlines := [] }
        num_simulate_calls := 0
        calls := [] }
    m_scan_geometry := { id := 0 }
    m_cur_scanseq := { line_length := 1 / 10, all_timestamps_equal := false, scanlines := [] }
    m_iq_buffer := []
    m_iq_buffer_timestamps := []
    m_refresh_worker := []
    m_log_widget := [] }

/-- A request at simulation time 0 with both modes on, recording on, packet
size 4, PRF 2500, a sequence of `num_lines` lines stamped with the current
time, and an engine that answers every call with a frame of one line of one
sample. -/
def exampleRequest : SimRequest :=
  { cur_time := 0
    get_origin := fun _ => { x := 0, y := 0, z := 0 }
    get_rot_angles := fun _ => { x := 0, y := 0, z := 0 }
    geometry := { id := 7 }
    num_lines := 2
    all_timestamps_equal := true
    CreateScanSequence := fun _ n t =>
      { line_length := 1 / 10
        all_timestamps_equal := false
        scanlines := List.replicate n.toNat (exampleLine t) }
    OrientScanSequence := fun seq _ _ => seq
    ctor_all_timestamps_equal := false
    enable_color := true
    enable_bmode := true
    save_iq := true
    color_packet_size := 4
    color_prf := F32.finite 2500
    grayscale := { normalization_const := 1, auto_normalize := false, dyn_range := 60, gain := 0 }
    qimage_dots_per_meter := 6000
    simulate_lines := fun _ _ => Except.ok [[(1, 2)]] }

/-- A request like `exampleRequest` whose engine throws a runtime error on its
second `simulate_lines` call, the call of packet 1. -/
def failingRequest : SimRequest :=
  { exampleRequest with
    simulate_lines := fun c _ =>
      if c = 1 then Except.error (Thrown.runtime_error "simulation failed")
      else Except.ok [[(1, 2)]] }

/-- A request like `exampleRequest` with the color mode off whose engine
throws on every `simulate_lines` call. -/
def bmodeFailingRequest : SimRequest :=
  { exampleRequest with
    enable_color := false
    simulate_lines := fun _ _ => Except.error (Thrown.runtime_error "simulation failed") }

/-- A buffer of two frames of different shape, the second one larger: one line
of one sample, then two lines of one sample. -/
def mixedShapeWindow : MainWindow :=
  { exampleWindow with
    m_iq_buffer := [[[(1, 2)]], [[(3, 4)], [(5, 6)]]]
    m_iq_buffer_timestamps := [5, 6] }

/-- A buffer of two frames of different shape, the second one without lines. -/
def shortFrameWindow : MainWindow :=
  { exampleWindow with
    m_iq_buffer := [[[(1, 2)]], []]
    m_iq_buffer_timestamps := [5, 6] }

/-- A buffer with one frame and no timestamp. -/
def mismatchWindow : MainWindow :=
  { exampleWindow with
    m_iq_buffer := [[[(1, 2)]]]
    m_iq_buffer_timestamps := [] }

/-- The request `exampleRequest` issued at simulation time 8192 s. -/
def lateRequest : SimRequest :=
  { exampleRequest with cur_time := 8192 }

/-- A buffer of one frame of one line of two samples, with its timestamp. -/
def rectWindow : MainWindow :=
  { exampleWindow with
    m_iq_buffer := [[[(1, 2), (3, 4)]]]
    m_iq_buffer_timestamps := [5] }

/-- A request like `exampleRequest` whose engine throws something that is not a
`std::runtime_error` on its first `simulate_lines` call, the call of packet 0. -/
def unknownErrorRequest : SimRequest :=
  { exampleRequest with
    simulate_lines := fun c _ =>
      if c = 0 then Except.error Thrown.other_exception else Except.ok [[(1, 2)]] }

/-- The request `unknownErrorRequest` with the color mode off: its first
`simulate_lines` call is the B-mode call. -/
def unknownErrorBmodeRequest : SimRequest :=
  { unknownErrorRequest with enable_color := false }

/-- The request `exampleRequest` with both modes off. -/
def idleRequest : SimRequest :=
  { exampleRequest with enable_color := false, enable_bmode := false }

/-- The request `exampleRequest` with packet size 0. -/
def zeroPacketRequest : SimRequest :=
  { exampleRequest with color_packet_size := 0 }

/-- The request `exampleRequest` with a probe that moves: origin and rotation
depend on the time at which they are sampled, and at time 0 they are those of
`exampleRequest`. -/
def movingProbeRequest : SimRequest :=
  { exampleRequest with
    get_origin := fun t => { x := t, y := 0, z := 0 }
    get_rot_angles := fun t => { x := 0, y := t, z := 0 } }

/-- A window whose engine holds one fixed and one spline collection, with the
time axis of the spline collection and the current time in its middle. -/
def exampleScattererWindow : ScattererWindow :=
  { fixed_scatterers := [{ id := 1 }]
    spline_scatterers := [{ id := 2, min_time := 0, max_time := 1 }]
    min_time := 0
    max_time := 1
    time := 1 / 2
    m_log_widget := [] }

/-- A container with neither kind of scatterer: both loaders throw a
`std::runtime_error`. -/
def emptyContainer : ScattererFile :=
  { h5_file := "phantom.h5"
    loadFixedScatterersFromHdf := Except.error (Thrown.runtime_error "no fixed scatterers")
    loadSplineScatterersFromHdf := Except.error (Thrown.runtime_error "no spline scatterers")
    initializeFixedVisualization_ok := true
    initializeSplineVisualization_ok := true }

/-- A container with spline scatterers only. -/
def splineContainer : ScattererFile :=
  { h5_file := "phantom.h5"
    loadFixedScatterersFromHdf := Except.error (Thrown.runtime_error "no fixed scatterers")
    loadSplineScatterersFromHdf := Except.ok { id := 3, min_time := 0, max_time := 2 }
    initializeFixedVisualization_ok := true
    initializeSplineVisualization_ok := true }

/-- A window without an engine, before any quit request. -/
def exampleSimulatorWindow : SimulatorWindow :=
  { m_sim := none
    quit_requested := false
    m_log_widget := [] }

/-- Collaborators on a machine where the GPU engine cannot be created:
`bcsim::Create("gpu")` throws a `std::runtime_error`, everything else
succeeds. -/
def gpuFailingCreate : CreateRequest :=
  { built_with_gpu_support := true
    get_gpu_name := Except.ok "device 0"
    Create := fun kind =>
      match kind with
      | SimKind.gpu => Except.error (Thrown.runtime_error "no CUDA device")
      | SimKind.cpu => Except.ok ()
    set_parameter := fun _ => Except.ok ()
    configure := fun _ => Except.ok () }

/-- A B-mode request (color mode off) whose engine answers every call with a
frame that has no line. -/
def emptyFrameRequest : SimRequest :=
  { exampleRequest with
    enable_color := false
    simulate_lines := fun _ _ => Except.ok [] }

/-- The request `exampleRequest` with the color mode off. -/
def bmodeOnlyRequest : SimRequest :=
  { exampleRequest with enable_color := false }

/-- A dataset of the given extents whose element at an index is made of the
index: `100 f + 10 n + i + base` at `[f, n, i]` and `10 n + i + base` at
`[n, i]`. -/
def indexDataset (dims : List Nat) (base : Nat) : H5Dataset :=
  { dims := dims
    elem := fun idx =>
      match idx with
      | [f, n, i] => ((100 * f + 10 * n + i + base : Nat) : ℚ)
      | [n, i] => ((10 * n + i + base : Nat) : ℚ)
      | _ => 0 }

/-- A replay container of rank 3: two frames of three samples and one line. -/
def replayContainer : H5File :=
  [("sim_data_real", indexDataset [2, 3, 1] 0), ("sim_data_imag", indexDataset [2, 3, 1] 1000)]

/-- A replay container of rank 2: three samples and one line. -/
def singleFrameContainer : H5File :=
  [("sim_data_real", indexDataset [3, 1] 0), ("sim_data_imag", indexDataset [3, 1] 1000)]

/-- A replay container whose real part has rank 3 and whose imaginary part has
rank 2. -/
def rankMismatchContainer : H5File :=
  [("sim_data_real", indexDataset [2, 3, 1] 0), ("sim_data_imag", indexDataset [3, 1] 1000)]

/-- A replay container whose two rank-3 datasets differ in the size of
dimension 2. -/
def sizeMismatchContainer : H5File :=
  [("sim_data_real", indexDataset [2, 3, 1] 0), ("sim_data_imag", indexDataset [2, 3, 2] 1000)]

/-- A replay container whose two datasets have rank 4. -/
def rankFourContainer : H5File :=
  [("sim_data_real", indexDataset [1, 1, 1, 1] 0),
   ("sim_data_imag", indexDataset [1, 1, 1, 1] 1000)]

/-- Collaborators on a machine where everything succeeds, built with GPU
support. -/
def workingCreate : CreateRequest :=
  { built_with_gpu_support := true
    get_gpu_name := Except.ok "device 0"
    Create := fun _ => Except.ok ()
    set_parameter := fun _ => Except.ok ()
    configure := fun _ => Except.ok () }

/-- The collaborators `workingCreate` on a build without GPU support. -/
def cpuOnlyCreate : CreateRequest :=
  { workingCreate with built_with_gpu_support := false }

/-- Collaborators on a build with GPU support where the name query of the
hardware detector throws a `std::runtime_error`, everything else succeeds. -/
def gpuNameFailingCreate : CreateRequest :=
  { workingCreate with
    get_gpu_name := Except.error (Thrown.runtime_error "invalid device ordinal") }

/-- Collaborators on a machine where `bcsim::Create("cpu")` throws something
that is not a `std::runtime_error`, everything else succeeds. -/
def cpuFailingCreate : CreateRequest :=
  { workingCreate with
    Create := fun kind =>
      match kind with
      | SimKind.gpu => Except.ok ()
      | SimKind.cpu => Except.error Thrown.other_exception }

/-- The request `exampleRequest` with the smallest positive `float` as PRF,
`2 ^ (-149)`. -/
def tinyPrfRequest : SimRequest :=
  { exampleRequest with color_prf := F32.finite (1 / 2 ^ 149) }

/-! ## binary32 rounding: basic facts -/

theorem floor_le_roundNearestEven (r : ℚ) : ⌊r⌋ ≤ roundNearestEven r := by
  unfold roundNearestEven
  simp only
  split_ifs <;> omega

theorem roundNearestEven_le_floor_succ (r : ℚ) : roundNearestEven r ≤ ⌊r⌋ + 1 := by
  unfold roundNearestEven
  simp only
  split_ifs <;> omega

theorem roundNearestEven_intCast (z : ℤ) : roundNearestEven (z : ℚ) = z := by
  unfold roundNearestEven
  simp

theorem intCast_le_roundNearestEven {a : ℤ} {r : ℚ} (h : (a : ℚ) ≤ r) :
    a ≤ roundNearestEven r :=
  le_trans (Int.le_floor.mpr h) (floor_le_roundNearestEven r)

theorem roundNearestEven_le_intCast {b : ℤ} {r : ℚ} (h : r ≤ (b : ℚ)) :
    roundNearestEven r ≤ b := by
  rcases lt_or_eq_of_le h with hlt | heq
  · have : ⌊r⌋ < b := Int.floor_lt.mpr hlt
    have := roundNearestEven_le_floor_succ r
    omega
  · rw [heq, roundNearestEven_intCast]

theorem roundNearestEven_mono {r s : ℚ} (h : r ≤ s) :
    roundNearestEven r ≤ roundNearestEven s := by
  rcases lt_or_eq_of_le (Int.floor_le_floor h) with hlt | heq
  · have h1 := roundNearestEven_le_floor_succ r
    have h2 := floor_le_roundNearestEven s
    omega
  · unfold roundNearestEven
    simp only
    rw [← heq]
    split_ifs <;> first | omega | (exfalso; linarith)

theorem roundNearestEven_eq_of_abs_lt {r : ℚ} {m : ℤ} (h : |r - m| < 1 / 2) :
    roundNearestEven r = m := by
  rw [abs_lt] at h
  obtain ⟨h1, h2⟩ := h
  have hfl := Int.floor_le r
  have hfl2 := Int.lt_floor_add_one r
  unfold roundNearestEven
  simp only
  split_ifs with c1 c2 c3
  · have a1 : ((⌊r⌋ : ℤ) : ℚ) < (m : ℚ) + 1 := by linarith
    have a2 : (m : ℚ) < (⌊r⌋ : ℚ) + 1 := by linarith
    have b1 : ⌊r⌋ < m + 1 := by exact_mod_cast a1
    have b2 : m < ⌊r⌋ + 1 := by exact_mod_cast a2
    omega
  · have a1 : ((⌊r⌋ : ℤ) : ℚ) < (m : ℚ) := by linarith
    have a2 : (m : ℚ) < (⌊r⌋ : ℚ) + 2 := by linarith
    have b1 : ⌊r⌋ < m := by exact_mod_cast a1
    have b2 : m < ⌊r⌋ + 2 := by exact_mod_cast a2
    omega
  · exfalso
    have e : r - ⌊r⌋ = 1 / 2 := le_antisymm (not_lt.mp c2) (not_lt.mp c1)
    have a1 : ((⌊r⌋ : ℤ) : ℚ) < (m : ℚ) := by linarith
    have a2 : (m : ℚ) < (⌊r⌋ : ℚ) + 1 := by linarith
    have b1 : ⌊r⌋ < m := by exact_mod_cast a1
    have b2 : m < ⌊r⌋ + 1 := by exact_mod_cast a2
    omega
  · exfalso
    have e : r - ⌊r⌋ = 1 / 2 := le_antisymm (not_lt.mp c2) (not_lt.mp c1)
    have a1 : ((⌊r⌋ : ℤ) : ℚ) < (m : ℚ) := by linarith
    have a2 : (m : ℚ) < (⌊r⌋ : ℚ) + 1 := by linarith
    have b1 : ⌊r⌋ < m := by exact_mod_cast a1
    have b2 : m < ⌊r⌋ + 1 := by exact_mod_cast a2
    omega

theorem roundNearestEven_neg (r : ℚ) : roundNearestEven (-r) = -roundNearestEven r := by
  by_cases hint : (⌊r⌋ : ℚ) = r
  · rw [← hint, ← Int.cast_neg, roundNearestEven_intCast, roundNearestEven_intCast]
  · have hlt : (⌊r⌋ : ℚ) < r := lt_of_le_of_ne (Int.floor_le r) hint
    have hfl2 := Int.lt_floor_add_one r
    have hneg : ⌊-r⌋ = -⌊r⌋ - 1 := by
      rw [Int.floor_eq_iff]
      push_cast
      constructor <;> linarith
    unfold roundNearestEven
    simp only
    rw [hneg]
    push_cast
    split_ifs <;> first | omega | (exfalso; linarith)

theorem f32ulp_eq_zpow (x : ℚ) : f32ulp x = (2 : ℚ) ^ (f32exp x - 23) := rfl

theorem f32ulp_pos (x : ℚ) : 0 < f32ulp x := by
  unfold f32ulp
  positivity

theorem f32ulp_neg (x : ℚ) : f32ulp (-x) = f32ulp x := by
  unfold f32ulp f32exp
  rw [abs_neg]
  simp only [neg_eq_zero]

theorem f32round_zero : f32round 0 = 0 := by
  unfold f32round
  rw [zero_div]
  have : roundNearestEven 0 = 0 := by
    have := roundNearestEven_intCast 0
    simpa using this
  rw [this]
  simp

theorem f32round_neg (x : ℚ) : f32round (-x) = -f32round x := by
  unfold f32round
  rw [f32ulp_neg, neg_div, roundNearestEven_neg]
  push_cast
  ring

theorem f32round_nonneg {x : ℚ} (h : 0 ≤ x) : 0 ≤ f32round x := by
  unfold f32round
  have hu := f32ulp_pos x
  have h0 : ((0 : ℤ) : ℚ) ≤ x / f32ulp x := by
    rw [Int.cast_zero]
    positivity
  have := intCast_le_roundNearestEven h0
  have : (0 : ℚ) ≤ (roundNearestEven (x / f32ulp x) : ℚ) := by exact_mod_cast this
  positivity

theorem f32exp_of_ne_zero {x : ℚ} (hx : x ≠ 0) : f32exp x = max (Int.log 2 |x|) (-126) := by
  unfold f32exp
  rw [if_neg hx]

theorem f32exp_zero : f32exp 0 = -126 := by
  unfold f32exp
  rw [if_pos rfl]

theorem f32exp_ge (x : ℚ) : -126 ≤ f32exp x := by
  by_cases hx : x = 0
  · rw [hx, f32exp_zero]
  · rw [f32exp_of_ne_zero hx]
    exact le_max_right _ _

theorem lt_two_zpow_f32exp_succ (x : ℚ) : |x| < (2 : ℚ) ^ (f32exp x + 1) := by
  by_cases hx : x = 0
  · rw [hx, abs_zero]
    positivity
  · have h1 : |x| < ((2 : ℕ) : ℚ) ^ (Int.log 2 |x| + 1) :=
      Int.lt_zpow_succ_log_self (by norm_num) |x|
    have h2 : ((2 : ℕ) : ℚ) ^ (Int.log 2 |x| + 1) ≤ (2 : ℚ) ^ (f32exp x + 1) := by
      rw [Nat.cast_ofNat]
      apply zpow_le_zpow_right₀ (by norm_num)
      rw [f32exp_of_ne_zero hx]
      have := le_max_left (Int.log 2 |x|) (-126)
      omega
    exact lt_of_lt_of_le h1 h2

theorem two_zpow_f32exp_le {x : ℚ} (hx0 : x ≠ 0) (h : -126 < f32exp x) :
    (2 : ℚ) ^ (f32exp x) ≤ |x| := by
  have hlog : f32exp x = Int.log 2 |x| := by
    rw [f32exp_of_ne_zero hx0] at h ⊢
    rcases max_cases (Int.log 2 |x|) (-126) with ⟨h1, _⟩ | ⟨h1, _⟩
    · exact h1
    · rw [h1] at h
      exact absurd h (lt_irrefl _)
  have hx : 0 < |x| := abs_pos.mpr hx0
  rw [hlog]
  have := Int.zpow_log_le_self (b := 2) (by norm_num) hx
  rwa [Nat.cast_ofNat] at this

theorem f32exp_mono {x y : ℚ} (hx : 0 < |x|) (h : |x| ≤ |y|) : f32exp x ≤ f32exp y := by
  have hx0 : x ≠ 0 := abs_pos.mp hx
  have hy0 : y ≠ 0 := abs_pos.mp (lt_of_lt_of_le hx h)
  rw [f32exp_of_ne_zero hx0, f32exp_of_ne_zero hy0]
  exact max_le_max (Int.log_mono_right hx h) le_rfl

/-- Rounding on the grid of exponent `E` does not cross the upper end of the binade. -/
theorem round_grid_le (x : ℚ) (E : ℤ) (h : x ≤ (2 : ℚ) ^ (E + 1)) :
    (roundNearestEven (x / (2 : ℚ) ^ (E - 23)) : ℚ) * (2 : ℚ) ^ (E - 23) ≤ (2 : ℚ) ^ (E + 1) := by
  have hu : (0 : ℚ) < (2 : ℚ) ^ (E - 23) := by positivity
  have e1 : (2 : ℚ) ^ (E + 1) = ((2 ^ 24 : ℤ) : ℚ) * (2 : ℚ) ^ (E - 23) := by
    have : E + 1 = 24 + (E - 23) := by ring
    rw [this, zpow_add₀ (by norm_num)]
    norm_num
  have h1 : x / (2 : ℚ) ^ (E - 23) ≤ ((2 ^ 24 : ℤ) : ℚ) := by
    rw [div_le_iff₀ hu, ← e1]
    exact h
  have h2 := roundNearestEven_le_intCast h1
  have h3 : (roundNearestEven (x / (2 : ℚ) ^ (E - 23)) : ℚ) ≤ ((2 ^ 24 : ℤ) : ℚ) := by
    exact_mod_cast h2
  rw [e1]
  exact mul_le_mul_of_nonneg_right h3 hu.le

/-- Rounding on the grid of exponent `E` does not cross the lower end of the binade. -/
theorem le_round_grid (x : ℚ) (E : ℤ) (h : (2 : ℚ) ^ E ≤ x) :
    (2 : ℚ) ^ E ≤ (roundNearestEven (x / (2 : ℚ) ^ (E - 23)) : ℚ) * (2 : ℚ) ^ (E - 23) := by
  have hu : (0 : ℚ) < (2 : ℚ) ^ (E - 23) := by positivity
  have e1 : (2 : ℚ) ^ E = ((2 ^ 23 : ℤ) : ℚ) * (2 : ℚ) ^ (E - 23) := by
    have : E = 23 + (E - 23) := by ring
    nth_rewrite 1 [this]
    rw [zpow_add₀ (by norm_num)]
    norm_num
  have h1 : ((2 ^ 23 : ℤ) : ℚ) ≤ x / (2 : ℚ) ^ (E - 23) := by
    rw [le_div_iff₀ hu, ← e1]
    exact h
  have h2 := intCast_le_roundNearestEven h1
  have h3 : ((2 ^ 23 : ℤ) : ℚ) ≤ (roundNearestEven (x / (2 : ℚ) ^ (E - 23)) : ℚ) := by
    exact_mod_cast h2
  rw [e1]
  exact mul_le_mul_of_nonneg_right h3 hu.le

theorem f32round_mono_of_pos {x y : ℚ} (hx : 0 < x) (h : x ≤ y) : f32round x ≤ f32round y := by
  have hy : 0 < y := lt_of_lt_of_le hx h
  have hax : |x| = x := abs_of_pos hx
  have hay : |y| = y := abs_of_pos hy
  have hE : f32exp x ≤ f32exp y := f32exp_mono (by rw [hax]; exact hx) (by rw [hax, hay]; exact h)
  unfold f32round
  rw [f32ulp_eq_zpow, f32ulp_eq_zpow]
  rcases lt_or_eq_of_le hE with hlt | heq
  · have hup := lt_two_zpow_f32exp_succ x
    rw [hax] at hup
    have hlow : (2 : ℚ) ^ (f32exp y) ≤ y := by
      have := two_zpow_f32exp_le (x := y) (ne_of_gt hy) (by have := le_max_right (Int.log 2 |x|) (-126); unfold f32exp at hlt ⊢; omega)
      rwa [hay] at this
    have hmid : (2 : ℚ) ^ (f32exp x + 1) ≤ (2 : ℚ) ^ (f32exp y) :=
      zpow_le_zpow_right₀ (by norm_num) (by omega)
    exact le_trans (round_grid_le x _ hup.le) (le_trans hmid (le_round_grid y _ hlow))
  · rw [heq]
    have hu : (0 : ℚ) < (2 : ℚ) ^ (f32exp y - 23) := by positivity
    have h1 : x / (2 : ℚ) ^ (f32exp y - 23) ≤ y / (2 : ℚ) ^ (f32exp y - 23) :=
      div_le_div_of_nonneg_right h hu.le
    have h2 := roundNearestEven_mono h1
    have h3 : (roundNearestEven (x / (2 : ℚ) ^ (f32exp y - 23)) : ℚ) ≤
        (roundNearestEven (y / (2 : ℚ) ^ (f32exp y - 23)) : ℚ) := by exact_mod_cast h2
    exact mul_le_mul_of_nonneg_right h3 hu.le

/-- Rounding to binary32 is monotone. -/
theorem f32round_mono {x y : ℚ} (h : x ≤ y) : f32round x ≤ f32round y := by
  rcases lt_trichotomy 0 x with hx | hx | hx
  · exact f32round_mono_of_pos hx h
  · rw [← hx, f32round_zero]
    exact f32round_nonneg (by rw [hx]; exact h)
  · rcases le_or_lt 0 y with hy | hy
    · have h1 : f32round x ≤ 0 := by
        have := f32round_nonneg (x := -x) (by linarith)
        rw [f32round_neg] at this
        linarith
      exact le_trans h1 (f32round_nonneg hy)
    · have := f32round_mono_of_pos (x := -y) (y := -x) (by linarith) (by linarith)
      rw [f32round_neg, f32round_neg] at this
      linarith

/-- Evaluation of `f32round` on a rational whose binade is known. -/
theorem f32round_eq_of_binade {x : ℚ} (E m : ℤ) (hE : -126 ≤ E) (h1 : (2 : ℚ) ^ E ≤ |x|)
    (h2 : |x| < (2 : ℚ) ^ (E + 1)) (hm : |x / (2 : ℚ) ^ (E - 23) - m| < 1 / 2) :
    f32round x = m * (2 : ℚ) ^ (E - 23) := by
  have hx : 0 < |x| := lt_of_lt_of_le (by positivity) h1
  have hlog : Int.log 2 |x| = E := by
    apply le_antisymm
    · have : Int.log 2 |x| < E + 1 := by
        rw [← Int.lt_zpow_iff_log_lt (by norm_num) hx, Nat.cast_ofNat]
        exact h2
      omega
    · rw [← Int.zpow_le_iff_le_log (by norm_num) hx, Nat.cast_ofNat]
      exact h1
  have hu : f32ulp x = (2 : ℚ) ^ (E - 23) := by
    unfold f32ulp
    rw [f32exp_of_ne_zero (abs_pos.mp hx), hlog, max_eq_left hE]
  unfold f32round
  rw [hu, roundNearestEven_eq_of_abs_lt hm]

/-! ## binary32 rounding: error bounds and exact values -/

/-- Rounding to the nearest integer moves a rational by at most one half. -/
theorem abs_roundNearestEven_sub_le (r : ℚ) : |(roundNearestEven r : ℚ) - r| ≤ 1 / 2 := by
  have h1 : (⌊r⌋ : ℚ) ≤ r := Int.floor_le r
  have h2 : r < (⌊r⌋ : ℚ) + 1 := Int.lt_floor_add_one r
  unfold roundNearestEven
  simp only
  rw [abs_le]
  split_ifs with ha hb hc
  · constructor <;> linarith
  · push_cast
    constructor <;> linarith
  · constructor <;> linarith
  · push_cast
    constructor <;> linarith

/-- Rounding to binary32 moves a rational by at most half the grid spacing. -/
theorem abs_f32round_sub_le (x : ℚ) : |f32round x - x| ≤ f32ulp x / 2 := by
  have hu := f32ulp_pos x
  have h := abs_roundNearestEven_sub_le (x / f32ulp x)
  unfold f32round
  have e : (roundNearestEven (x / f32ulp x) : ℚ) * f32ulp x - x =
      ((roundNearestEven (x / f32ulp x) : ℚ) - x / f32ulp x) * f32ulp x := by
    field_simp
  rw [e, abs_mul, abs_of_pos hu]
  calc |(roundNearestEven (x / f32ulp x) : ℚ) - x / f32ulp x| * f32ulp x
      ≤ 1 / 2 * f32ulp x := mul_le_mul_of_nonneg_right h hu.le
    _ = f32ulp x / 2 := by ring

/-- In the normal range the grid spacing is at most `2 ^ (-23)` of the
magnitude. -/
theorem f32ulp_le_mul {x : ℚ} (h : (2 : ℚ) ^ (-126 : ℤ) ≤ |x|) :
    f32ulp x ≤ |x| * (2 : ℚ) ^ (-23 : ℤ) := by
  have hx : 0 < |x| := lt_of_lt_of_le (by positivity) h
  have hx0 : x ≠ 0 := abs_pos.mp hx
  have hle : (2 : ℚ) ^ (f32exp x) ≤ |x| := by
    rcases lt_or_eq_of_le (f32exp_ge x) with hlt | heq
    · exact two_zpow_f32exp_le hx0 hlt
    · rw [← heq]
      exact h
  unfold f32ulp
  have e : (2 : ℚ) ^ (f32exp x - 23) = (2 : ℚ) ^ (f32exp x) * (2 : ℚ) ^ (-23 : ℤ) := by
    rw [← zpow_add₀ (by norm_num)]
    rfl
  rw [e]
  exact mul_le_mul_of_nonneg_right hle (by positivity)

/-- In the normal range rounding to binary32 has relative error at most
`2 ^ (-24)`. -/
theorem abs_f32round_sub_le_rel {x : ℚ} (h : (2 : ℚ) ^ (-126 : ℤ) ≤ |x|) :
    |f32round x - x| ≤ |x| * (2 : ℚ) ^ (-24 : ℤ) := by
  have h1 := abs_f32round_sub_le x
  have h2 := f32ulp_le_mul h
  have e : |x| * (2 : ℚ) ^ (-24 : ℤ) = |x| * (2 : ℚ) ^ (-23 : ℤ) / 2 := by
    have : (2 : ℚ) ^ (-24 : ℤ) = (2 : ℚ) ^ (-23 : ℤ) / 2 := by norm_num
    rw [this]
    ring
  rw [e]
  exact le_trans h1 (div_le_div_of_nonneg_right h2 (by norm_num))

/-- A grid value of exponent `E` is its own rounding. -/
theorem f32round_of_grid (E m : ℤ) (hE : -126 ≤ E) (h1 : 2 ^ 23 ≤ |m|) (h2 : |m| < 2 ^ 24) :
    f32round ((m : ℚ) * (2 : ℚ) ^ (E - 23)) = (m : ℚ) * (2 : ℚ) ^ (E - 23) := by
  have hu : (0 : ℚ) < (2 : ℚ) ^ (E - 23) := by positivity
  have eE : (2 : ℚ) ^ E = (2 ^ 23 : ℚ) * (2 : ℚ) ^ (E - 23) := by
    have : E = 23 + (E - 23) := by ring
    nth_rewrite 1 [this]
    rw [zpow_add₀ (by norm_num)]
    norm_num
  have eE1 : (2 : ℚ) ^ (E + 1) = (2 ^ 24 : ℚ) * (2 : ℚ) ^ (E - 23) := by
    have : E + 1 = 24 + (E - 23) := by ring
    rw [this, zpow_add₀ (by norm_num)]
    norm_num
  have hm1 : (2 ^ 23 : ℚ) ≤ |(m : ℚ)| := by
    rw [← Int.cast_abs]
    exact_mod_cast h1
  have hm2 : |(m : ℚ)| < (2 ^ 24 : ℚ) := by
    rw [← Int.cast_abs]
    exact_mod_cast h2
  apply f32round_eq_of_binade E m hE
  · rw [abs_mul, abs_of_pos hu, eE]
    exact mul_le_mul_of_nonneg_right hm1 hu.le
  · rw [abs_mul, abs_of_pos hu, eE1]
    exact mul_lt_mul_of_pos_right hm2 hu
  · rw [mul_div_assoc, div_self (ne_of_gt hu), mul_one, sub_self, abs_zero]
    norm_num

/-- A power of two in the normal range is its own rounding. -/
theorem f32round_two_zpow (E : ℤ) (hE : -126 ≤ E) : f32round ((2 : ℚ) ^ E) = (2 : ℚ) ^ E := by
  have e : (2 : ℚ) ^ E = ((2 ^ 23 : ℤ) : ℚ) * (2 : ℚ) ^ (E - 23) := by
    have : E = 23 + (E - 23) := by ring
    nth_rewrite 1 [this]
    rw [zpow_add₀ (by norm_num)]
    norm_num
  rw [e]
  exact f32round_of_grid E (2 ^ 23) hE (by norm_num) (by norm_num)

/-- A natural number below `2 ^ 24` is its own rounding: the conversion of
such an `int` to `float` is exact. -/
theorem f32round_natCast (i : ℕ) (hi : i < 2 ^ 24) : f32round (i : ℚ) = i := by
  rcases Nat.eq_zero_or_pos i with h0 | hpos
  · rw [h0, Nat.cast_zero, f32round_zero]
  · have hk : Nat.log 2 i < 24 := by
      apply Nat.log_lt_of_lt_pow (by omega)
      exact hi
    have hlo : 2 ^ Nat.log 2 i ≤ i := Nat.pow_log_le_self 2 (by omega)
    have hhi : i < 2 ^ (Nat.log 2 i + 1) := Nat.lt_pow_succ_log_self (by norm_num) i
    obtain ⟨d, hd⟩ : ∃ d, Nat.log 2 i + d = 23 := ⟨23 - Nat.log 2 i, by omega⟩
    have e : (i : ℚ) = ((i * 2 ^ d : ℕ) : ℤ) * (2 : ℚ) ^ (((Nat.log 2 i : ℕ) : ℤ) - 23) := by
      have hexp : ((Nat.log 2 i : ℕ) : ℤ) - 23 = -(d : ℤ) := by omega
      rw [hexp, zpow_neg, zpow_natCast]
      push_cast
      field_simp
    have hm1 : 2 ^ 23 ≤ i * 2 ^ d := by
      calc 2 ^ 23 = 2 ^ Nat.log 2 i * 2 ^ d := by rw [← pow_add, hd]
        _ ≤ i * 2 ^ d := Nat.mul_le_mul_right _ hlo
    have hm2 : i * 2 ^ d < 2 ^ 24 := by
      calc i * 2 ^ d < 2 ^ (Nat.log 2 i + 1) * 2 ^ d :=
            Nat.mul_lt_mul_of_pos_right hhi (by positivity)
        _ = 2 ^ 24 := by
            rw [← pow_add]
            congr 1
            omega
    have h := f32round_of_grid ((Nat.log 2 i : ℕ) : ℤ) ((i * 2 ^ d : ℕ) : ℤ) (by omega)
      (by rw [abs_of_nonneg (by positivity)]; exact_mod_cast hm1)
      (by rw [abs_of_nonneg (by positivity)]; exact_mod_cast hm2)
    rw [← e] at h
    exact h

/-! ## binary32 operations on finite values -/

theorem FLT_MAX_pos : 0 < FLT_MAX := by
  unfold FLT_MAX
  norm_num

/-- The `float` result of an operation whose exact result is not negative. -/
theorem F32.round_of_nonneg {x : ℚ} (hx : 0 ≤ x) :
    F32.round x =
      if FLT_MAX < f32round x then F32.inf false else F32.finite (f32round x) := by
  have hr := f32round_nonneg hx
  have hneg : ¬ x < 0 := not_lt.mpr hx
  unfold F32.round
  rw [abs_of_nonneg hr]
  split_ifs with h1 h2
  · simp [hneg]
  · simp [F32.zero, hneg, h2]
  · rfl

/-- The quotient `1.0f / f` for a positive finite `f`. -/
theorem f32div_one_of_pos {f : ℚ} (hf : 0 < f) :
    f32div (F32.finite 1) (F32.finite f) =
      if FLT_MAX < f32round (1 / f) then F32.inf false else F32.finite (f32round (1 / f)) := by
  have e : f32div (F32.finite 1) (F32.finite f) = F32.round (1 / f) := by
    show (if f = 0 then (if (1 : ℚ) = 0 then F32.nan else F32.inf (decide ((1 : ℚ) < 0)))
      else if (1 : ℚ) = 0 then F32.zero (decide (f < 0)) else F32.round (1 / f)) = _
    rw [if_neg (ne_of_gt hf), if_neg one_ne_zero]
  rw [e, F32.round_of_nonneg (by positivity)]

/-- The conversion of a packet number to `float`. -/
theorem f32ofInt_natCast (i : Nat) :
    f32ofInt (i : ℤ) =
      if FLT_MAX < f32round (i : ℚ) then F32.inf false else F32.finite (f32round (i : ℚ)) := by
  unfold f32ofInt
  by_cases h0 : (i : ℤ) = 0
  · have hi : i = 0 := by exact_mod_cast h0
    subst hi
    simp [f32round_zero, not_lt.mpr FLT_MAX_pos.le]
  · rw [if_neg h0]
    have := F32.round_of_nonneg (x := ((i : ℤ) : ℚ)) (by positivity)
    simpa using this

/-- The product of two finite values that are not negative. -/
theorem f32mul_finite_of_nonneg {x y : ℚ} (hx : 0 ≤ x) (hy : 0 ≤ y) :
    f32mul (F32.finite x) (F32.finite y) =
      if FLT_MAX < f32round (x * y) then F32.inf false
      else F32.finite (f32round (x * y)) := by
  have e : f32mul (F32.finite x) (F32.finite y) =
      if x * y = 0 then F32.zero (xor (decide (x < 0)) (decide (y < 0)))
      else F32.round (x * y) := rfl
  rw [e]
  by_cases h0 : x * y = 0
  · rw [if_pos h0, h0, f32round_zero, if_neg (not_lt.mpr FLT_MAX_pos.le)]
    simp [F32.zero, not_lt.mpr hx, not_lt.mpr hy]
  · rw [if_neg h0, F32.round_of_nonneg (mul_nonneg hx hy)]

theorem offsetValue_zero (f : ℚ) : offsetValue f 0 = 0 := by
  simp [offsetValue, f32round_zero]

/-- The offset `packet_no * color_prt` when `1.0f / f` and the converted packet
number are finite: the rounded product, or `+inf` when it overflows. -/
theorem packetOffset_of_finite {f : ℚ} (hf : 0 < f) (hp : f32round (1 / f) ≤ FLT_MAX)
    (i : Nat) (hi : f32round (i : ℚ) ≤ FLT_MAX) :
    packetOffset (F32.finite f) i =
      if FLT_MAX < offsetValue f i then F32.inf false else F32.finite (offsetValue f i) := by
  unfold packetOffset offsetValue
  rw [f32div_one_of_pos hf, if_neg (not_lt.mpr hp), f32ofInt_natCast, if_neg (not_lt.mpr hi)]
  exact f32mul_finite_of_nonneg (f32round_nonneg (by positivity))
    (f32round_nonneg (by positivity))

theorem F32.round_zero : F32.round 0 = F32.finite 0 := by
  unfold F32.round
  rw [f32round_zero, abs_zero, if_neg (not_lt.mpr FLT_MAX_pos.le), if_pos rfl]
  simp [F32.zero]

/-- The sum of two finite values is the rounding of the exact sum. -/
theorem f32add_finite (x y : ℚ) :
    f32add (F32.finite x) (F32.finite y) = F32.round (x + y) := by
  have e : f32add (F32.finite x) (F32.finite y) =
      if x + y = 0 then F32.finite 0 else F32.round (x + y) := rfl
  rw [e]
  by_cases h0 : x + y = 0
  · rw [if_pos h0, h0, F32.round_zero]
  · rw [if_neg h0]

/-- A rounding that is a finite value: the grid value, within `FLT_MAX`. -/
theorem F32.round_eq_finite {x t : ℚ} (h : F32.round x = F32.finite t) :
    t = f32round x ∧ |f32round x| ≤ FLT_MAX := by
  unfold F32.round at h
  split_ifs at h with h1 h2
  · unfold F32.zero at h
    split_ifs at h
    rw [h2, abs_zero]
    exact ⟨(F32.finite.inj h).symm, FLT_MAX_pos.le⟩
  · exact ⟨(F32.finite.inj h).symm, not_lt.mp h1⟩

/-- The timestamp `base + packet_no * color_prt` for a finite base, when
`1.0f / f` and the converted packet number are finite. -/
theorem packetTimestamp_of_finite {f : ℚ} (b : ℚ) (hf : 0 < f)
    (hp : f32round (1 / f) ≤ FLT_MAX) (i : Nat) (hi : f32round (i : ℚ) ≤ FLT_MAX) :
    f32add (F32.finite b) (packetOffset (F32.finite f) i) =
      if FLT_MAX < offsetValue f i then F32.inf false
      else F32.round (b + offsetValue f i) := by
  rw [packetOffset_of_finite hf hp i hi]
  split_ifs
  · rfl
  · exact f32add_finite b _

/-- A finite packet timestamp is the rounding of `base + offset`, and none of
the operations before it left the finite range. -/
theorem packetTimestamp_eq_finite {f b t : ℚ} (hf : 0 < f) (i : Nat)
    (h : f32add (F32.finite b) (packetOffset (F32.finite f) i) = F32.finite t) :
    f32round (1 / f) ≤ FLT_MAX ∧ f32round (i : ℚ) ≤ FLT_MAX ∧ offsetValue f i ≤ FLT_MAX ∧
    t = f32round (b + offsetValue f i) := by
  have hp : f32round (1 / f) ≤ FLT_MAX := by
    by_contra hc
    unfold packetOffset at h
    rw [f32div_one_of_pos hf, if_pos (not_le.mp hc), f32ofInt_natCast] at h
    split_ifs at h
    · exact F32.noConfusion h
    · have e : f32mul (F32.finite (f32round (i : ℚ))) (F32.inf false) =
          if f32round (i : ℚ) = 0 then F32.nan
          else F32.inf (xor (decide (f32round (i : ℚ) < 0)) false) := rfl
      rw [e] at h
      split_ifs at h
      · exact F32.noConfusion h
      · exact F32.noConfusion h
  have hi : f32round (i : ℚ) ≤ FLT_MAX := by
    by_contra hc
    unfold packetOffset at h
    rw [f32div_one_of_pos hf, if_neg (not_lt.mpr hp), f32ofInt_natCast,
      if_pos (not_le.mp hc)] at h
    have e : f32mul (F32.inf false) (F32.finite (f32round (1 / f))) =
        if f32round (1 / f) = 0 then F32.nan
        else F32.inf (xor false (decide (f32round (1 / f) < 0))) := rfl
    rw [e] at h
    split_ifs at h
    · exact F32.noConfusion h
    · exact F32.noConfusion h
  rw [packetTimestamp_of_finite b hf hp i hi] at h
  split_ifs at h with h1
  exact ⟨hp, hi, not_lt.mp h1, (F32.round_eq_finite h).1⟩

/-- For a PRF `f` with `2 ^ (-126) ≤ f ≤ 2 ^ 126` the value of `1.0f / f` is
finite, in the normal range, and within relative error `2 ^ (-24)` of `1 / f`. -/
theorem prt_bounds {f : ℚ} (h1 : (2 : ℚ) ^ (-126 : ℤ) ≤ f) (h2 : f ≤ (2 : ℚ) ^ (126 : ℤ)) :
    (2 : ℚ) ^ (-126 : ℤ) ≤ f32round (1 / f) ∧ f32round (1 / f) ≤ (2 : ℚ) ^ (126 : ℤ) ∧
    |f32round (1 / f) - 1 / f| ≤ 1 / f * (2 : ℚ) ^ (-24 : ℤ) := by
  have hf : 0 < f := lt_of_lt_of_le (by positivity) h1
  have hq : 0 < 1 / f := by positivity
  have hlo : (2 : ℚ) ^ (-126 : ℤ) ≤ 1 / f := by
    rw [le_div_iff₀ hf]
    calc (2 : ℚ) ^ (-126 : ℤ) * f ≤ (2 : ℚ) ^ (-126 : ℤ) * (2 : ℚ) ^ (126 : ℤ) :=
          mul_le_mul_of_nonneg_left h2 (by positivity)
      _ = 1 := by
          rw [← zpow_add₀ (by norm_num)]
          norm_num
  have hhi : 1 / f ≤ (2 : ℚ) ^ (126 : ℤ) := by
    rw [div_le_iff₀ hf]
    calc (1 : ℚ) = (2 : ℚ) ^ (126 : ℤ) * (2 : ℚ) ^ (-126 : ℤ) := by
          rw [← zpow_add₀ (by norm_num)]
          norm_num
      _ ≤ (2 : ℚ) ^ (126 : ℤ) * f := mul_le_mul_of_nonneg_left h1 (by positivity)
  refine ⟨?_, ?_, ?_⟩
  · have := f32round_mono hlo
    rwa [f32round_two_zpow (-126) (by norm_num)] at this
  · have := f32round_mono hhi
    rwa [f32round_two_zpow 126 (by norm_num)] at this
  · have := abs_f32round_sub_le_rel (x := 1 / f) (by rw [abs_of_pos hq]; exact hlo)
    rwa [abs_of_pos hq] at this

/-- For a packet number below `2 ^ 24` the offset is within relative error
`2 ^ (-24)` of the exact product of the packet number and `1.0f / f`. -/
theorem offsetValue_sub_le {f : ℚ} (h1 : (2 : ℚ) ^ (-126 : ℤ) ≤ f)
    (h2 : f ≤ (2 : ℚ) ^ (126 : ℤ)) (i : Nat) (hi : i < 2 ^ 24) :
    |offsetValue f i - i * f32round (1 / f)| ≤ i * f32round (1 / f) * (2 : ℚ) ^ (-24 : ℤ) := by
  obtain ⟨hp1, _, _⟩ := prt_bounds h1 h2
  have hp0 : 0 < f32round (1 / f) := lt_of_lt_of_le (by positivity) hp1
  unfold offsetValue
  rw [f32round_natCast i hi]
  rcases Nat.eq_zero_or_pos i with h0 | hpos
  · subst h0
    simp [f32round_zero]
  · have hi1 : (1 : ℚ) ≤ (i : ℚ) := by exact_mod_cast hpos
    have hx : (2 : ℚ) ^ (-126 : ℤ) ≤ (i : ℚ) * f32round (1 / f) := by
      calc (2 : ℚ) ^ (-126 : ℤ) ≤ f32round (1 / f) := hp1
        _ = 1 * f32round (1 / f) := (one_mul _).symm
        _ ≤ (i : ℚ) * f32round (1 / f) := mul_le_mul_of_nonneg_right hi1 hp0.le
    have hx0 : 0 < (i : ℚ) * f32round (1 / f) := lt_of_lt_of_le (by positivity) hx
    have := abs_f32round_sub_le_rel (x := (i : ℚ) * f32round (1 / f))
      (by rw [abs_of_pos hx0]; exact hx)
    rwa [abs_of_pos hx0] at this

/-- An offset is within relative error `3 * 2 ^ (-24)` of the exact product of
packet number and `1 / f`. -/
theorem offsetValue_error {f : ℚ} (h1 : (2 : ℚ) ^ (-126 : ℤ) ≤ f)
    (h2 : f ≤ (2 : ℚ) ^ (126 : ℤ)) (i : Nat) (hi : i < 2 ^ 24) :
    |offsetValue f i - i * (1 / f)| ≤ 3 * (2 : ℚ) ^ (-24 : ℤ) * (i * (1 / f)) := by
  have hf : 0 < f := lt_of_lt_of_le (by positivity) h1
  have hq : 0 < 1 / f := by positivity
  obtain ⟨hp1, _, hpe⟩ := prt_bounds h1 h2
  have hp0 : 0 < f32round (1 / f) := lt_of_lt_of_le (by positivity) hp1
  have hei := offsetValue_sub_le h1 h2 i hi
  have he : (2 : ℚ) ^ (-24 : ℤ) = 1 / 16777216 := by norm_num
  rw [he] at hpe hei ⊢
  rw [abs_le] at hpe hei ⊢
  have hi0 : (0 : ℚ) ≤ (i : ℚ) := by positivity
  have hp_hi : f32round (1 / f) ≤ 1 / f * (1 + 1 / 16777216) := by linarith [hpe.2]
  have hp_lo : 1 / f * (1 - 1 / 16777216) ≤ f32round (1 / f) := by linarith [hpe.1]
  have h3 : (i : ℚ) * f32round (1 / f) ≤ (i : ℚ) * (1 / f * (1 + 1 / 16777216)) :=
    mul_le_mul_of_nonneg_left hp_hi hi0
  have h4 : (i : ℚ) * (1 / f * (1 - 1 / 16777216)) ≤ (i : ℚ) * f32round (1 / f) :=
    mul_le_mul_of_nonneg_left hp_lo hi0
  have h5 : 0 ≤ (i : ℚ) * (1 / f) := by positivity
  constructor
  · nlinarith [hei.1, h3, h4, h5]
  · nlinarith [hei.2, h3, h4, h5]

/-- Packet 0 keeps a base timestamp that is a finite `float`, when `1.0f / f`
is finite. -/
theorem packetTimestamp_zero {f b : ℚ} (hf : 0 < f) (hp : f32round (1 / f) ≤ FLT_MAX)
    (hb : f32round b = b) (hbM : |b| ≤ FLT_MAX) :
    f32add (F32.finite b) (packetOffset (F32.finite f) 0) = F32.finite b := by
  rw [packetTimestamp_of_finite b hf hp 0
    (by rw [Nat.cast_zero, f32round_zero]; exact FLT_MAX_pos.le), offsetValue_zero,
    if_neg (not_lt.mpr FLT_MAX_pos.le), add_zero]
  by_cases h0 : b = 0
  · rw [h0, F32.round_zero]
  · unfold F32.round
    rw [hb, if_neg (not_lt.mpr hbM), if_neg h0]

/-- A finite packet timestamp against the exact value `b + i / f`: half a grid
step at the sum plus a relative `3 * 2 ^ (-24)` of the offset. -/
theorem packetTimestamp_error {f b t : ℚ} (h1 : (2 : ℚ) ^ (-126 : ℤ) ≤ f)
    (h2 : f ≤ (2 : ℚ) ^ (126 : ℤ)) (i : Nat) (hi : i < 2 ^ 24)
    (h : f32add (F32.finite b) (packetOffset (F32.finite f) i) = F32.finite t) :
    |t - (b + i * (1 / f))| ≤
      f32ulp (b + offsetValue f i) / 2 + 3 * (2 : ℚ) ^ (-24 : ℤ) * (i * (1 / f)) := by
  have hf : 0 < f := lt_of_lt_of_le (by positivity) h1
  obtain ⟨_, _, _, ht⟩ := packetTimestamp_eq_finite hf i h
  have e1 := abs_f32round_sub_le (b + offsetValue f i)
  have e2 := offsetValue_error h1 h2 i hi
  rw [ht]
  have e : f32round (b + offsetValue f i) - (b + i * (1 / f)) =
      (f32round (b + offsetValue f i) - (b + offsetValue f i)) +
        (offsetValue f i - i * (1 / f)) := by ring
  rw [e]
  exact le_trans (abs_add _ _) (add_le_add e1 e2)

/-! ## binary32 values used in the examples -/

theorem f32round_one : f32round 1 = 1 := by
  rw [f32round_eq_of_binade 0 (2 ^ 23) (by norm_num) (by norm_num) (by norm_num)
    (by norm_num)]
  norm_num

theorem f32round_two : f32round 2 = 2 := by
  rw [f32round_eq_of_binade 1 (2 ^ 23) (by norm_num) (by norm_num) (by norm_num)
    (by norm_num)]
  norm_num

theorem f32round_three : f32round 3 = 3 := by
  rw [f32round_eq_of_binade 1 (3 * 2 ^ 22) (by norm_num) (by norm_num) (by norm_num)
    (by norm_num)]
  norm_num

/-- The grid value next to `1 / 2500`, the value of `1.0f / 2500.0f`. -/
theorem f32round_one_div_2500 : f32round (1 / 2500) = 13743895 / 34359738368 := by
  rw [f32round_eq_of_binade (-12) 13743895 (by norm_num) (by norm_num [abs_of_pos])
    (by norm_num [abs_of_pos]) (by norm_num [abs_lt])]
  norm_num

theorem f32round_prt_2500 : f32round (13743895 / 34359738368) = 13743895 / 34359738368 := by
  rw [f32round_eq_of_binade (-12) 13743895 (by norm_num) (by norm_num [abs_of_pos])
    (by norm_num [abs_of_pos]) (by norm_num [abs_lt])]
  norm_num

theorem f32round_two_prt_2500 : f32round (13743895 / 17179869184) = 13743895 / 17179869184 := by
  rw [f32round_eq_of_binade (-11) 13743895 (by norm_num) (by norm_num [abs_of_pos])
    (by norm_num [abs_of_pos]) (by norm_num [abs_lt])]
  norm_num

theorem f32round_three_prt_2500 : f32round (41231685 / 34359738368) = 10307921 / 8589934592 := by
  rw [f32round_eq_of_binade (-10) 10307921 (by norm_num) (by norm_num [abs_of_pos])
    (by norm_num [abs_of_pos]) (by norm_num [abs_lt])]
  norm_num

theorem f32round_offset3_2500 : f32round (10307921 / 8589934592) = 10307921 / 8589934592 := by
  rw [f32round_eq_of_binade (-10) 10307921 (by norm_num) (by norm_num [abs_of_pos])
    (by norm_num [abs_of_pos]) (by norm_num [abs_lt])]
  norm_num

theorem f32round_8192 : f32round 8192 = 8192 := by
  rw [f32round_eq_of_binade 13 (2 ^ 23) (by norm_num) (by norm_num) (by norm_num)
    (by norm_num)]
  norm_num

/-- At 8192 s the binary32 grid has spacing `2 ^ (-10)`: adding the pulse
repetition time of PRF 2500 does not change the value. -/
theorem f32round_8192_add_prt : f32round (8192 + 13743895 / 34359738368) = 8192 := by
  rw [f32round_eq_of_binade 13 (2 ^ 23) (by norm_num) (by norm_num [abs_of_pos])
    (by norm_num [abs_of_pos]) (by norm_num [abs_lt])]
  norm_num

theorem offsetValue_2500_one : offsetValue 2500 1 = 13743895 / 34359738368 := by
  simp only [offsetValue, Nat.cast_one, f32round_one, f32round_one_div_2500, one_mul,
    f32round_prt_2500]

theorem offsetValue_2500_two : offsetValue 2500 2 = 13743895 / 17179869184 := by
  have e : (2 : ℚ) * (13743895 / 34359738368) = 13743895 / 17179869184 := by norm_num
  simp only [offsetValue, Nat.cast_ofNat, f32round_two, f32round_one_div_2500, e,
    f32round_two_prt_2500]

theorem offsetValue_2500_three : offsetValue 2500 3 = 10307921 / 8589934592 := by
  have e : (3 : ℚ) * (13743895 / 34359738368) = 41231685 / 34359738368 := by norm_num
  simp only [offsetValue, Nat.cast_ofNat, f32round_three, f32round_one_div_2500, e,
    f32round_three_prt_2500]

/-- The `float` offsets `packet_no * (1.0f / 2500.0f)` of packets 0 to 3. -/
theorem packetOffset_2500 :
    packetOffset (F32.finite 2500) 0 = F32.finite 0 ∧
    packetOffset (F32.finite 2500) 1 = F32.finite (13743895 / 34359738368) ∧
    packetOffset (F32.finite 2500) 2 = F32.finite (13743895 / 17179869184) ∧
    packetOffset (F32.finite 2500) 3 = F32.finite (10307921 / 8589934592) := by
  have hp : f32round (1 / 2500) ≤ FLT_MAX := by
    rw [f32round_one_div_2500]
    unfold FLT_MAX
    norm_num
  refine ⟨?_, ?_, ?_, ?_⟩
  · rw [packetOffset_of_finite (by norm_num) hp 0
      (by rw [Nat.cast_zero, f32round_zero]; exact FLT_MAX_pos.le), offsetValue_zero,
      if_neg (not_lt.mpr FLT_MAX_pos.le)]
  · rw [packetOffset_of_finite (by norm_num) hp 1
      (by rw [Nat.cast_one, f32round_one]; unfold FLT_MAX; norm_num), offsetValue_2500_one,
      if_neg (by unfold FLT_MAX; norm_num)]
  · rw [packetOffset_of_finite (by norm_num) hp 2
      (by rw [Nat.cast_ofNat, f32round_two]; unfold FLT_MAX; norm_num), offsetValue_2500_two,
      if_neg (by unfold FLT_MAX; norm_num)]
  · rw [packetOffset_of_finite (by norm_num) hp 3
      (by rw [Nat.cast_ofNat, f32round_three]; unfold FLT_MAX; norm_num),
      offsetValue_2500_three, if_neg (by unfold FLT_MAX; norm_num)]

/-- The value of a rounding that is known, not zero and within `FLT_MAX`. -/
theorem F32.round_eq_of_value {x v : ℚ} (h : f32round x = v) (h0 : v ≠ 0)
    (hM : |v| ≤ FLT_MAX) : F32.round x = F32.finite v := by
  unfold F32.round
  rw [h, if_neg (not_lt.mpr hM), if_neg h0]

/-- The timestamps of packets 0 to 3 for base 0 and PRF 2500. -/
theorem packetTimestamp_0_2500 :
    f32add (F32.finite 0) (packetOffset (F32.finite 2500) 0) = F32.finite 0 ∧
    f32add (F32.finite 0) (packetOffset (F32.finite 2500) 1) =
      F32.finite (13743895 / 34359738368) ∧
    f32add (F32.finite 0) (packetOffset (F32.finite 2500) 2) =
      F32.finite (13743895 / 17179869184) ∧
    f32add (F32.finite 0) (packetOffset (F32.finite 2500) 3) =
      F32.finite (10307921 / 8589934592) := by
  obtain ⟨h0, h1, h2, h3⟩ := packetOffset_2500
  rw [h0, h1, h2, h3]
  simp only [f32add_finite, zero_add]
  refine ⟨F32.round_zero, ?_, ?_, ?_⟩
  · exact F32.round_eq_of_value f32round_prt_2500 (by norm_num)
      (by unfold FLT_MAX; norm_num [abs_of_pos])
  · exact F32.round_eq_of_value f32round_two_prt_2500 (by norm_num)
      (by unfold FLT_MAX; norm_num [abs_of_pos])
  · exact F32.round_eq_of_value f32round_offset3_2500 (by norm_num)
      (by unfold FLT_MAX; norm_num [abs_of_pos])

/-- The timestamps of packets 0 and 1 for base 8192 and PRF 2500: both 8192. -/
theorem packetTimestamp_8192_2500 :
    f32add (F32.finite 8192) (packetOffset (F32.finite 2500) 0) = F32.finite 8192 ∧
    f32add (F32.finite 8192) (packetOffset (F32.finite 2500) 1) = F32.finite 8192 := by
  obtain ⟨h0, h1, _, _⟩ := packetOffset_2500
  rw [h0, h1]
  simp only [f32add_finite, add_zero]
  refine ⟨?_, ?_⟩
  · exact F32.round_eq_of_value f32round_8192 (by norm_num)
      (by unfold FLT_MAX; norm_num [abs_of_pos])
  · exact F32.round_eq_of_value f32round_8192_add_prt (by norm_num)
      (by unfold FLT_MAX; norm_num [abs_of_pos])

/-- The quotient `1.0f / f` for the smallest positive `float` `f = 2 ^ (-149)`
is `+inf`; the offset of packet 0 is then NaN and that of packet 1 is `+inf`. -/
theorem packetOffset_tiny :
    f32div (F32.finite 1) (F32.finite (1 / 2 ^ 149)) = F32.inf false ∧
    packetOffset (F32.finite (1 / 2 ^ 149)) 0 = F32.nan ∧
    packetOffset (F32.finite (1 / 2 ^ 149)) 1 = F32.inf false := by
  have hr : f32round (1 / (1 / 2 ^ 149)) = (2 : ℚ) ^ (149 : ℤ) := by
    have e : (1 : ℚ) / (1 / 2 ^ 149) = (2 : ℚ) ^ (149 : ℤ) := by norm_num
    rw [e, f32round_two_zpow 149 (by norm_num)]
  have hd : f32div (F32.finite 1) (F32.finite (1 / 2 ^ 149)) = F32.inf false := by
    rw [f32div_one_of_pos (by positivity), hr, if_pos (by unfold FLT_MAX; norm_num)]
  have h0 : f32ofInt ((0 : Nat) : ℤ) = F32.finite 0 := rfl
  have h1 : f32ofInt ((1 : Nat) : ℤ) = F32.finite 1 := by
    rw [f32ofInt_natCast, Nat.cast_one, f32round_one, if_neg (by unfold FLT_MAX; norm_num)]
  refine ⟨hd, ?_, ?_⟩
  · unfold packetOffset
    rw [hd, h0]
    have e : f32mul (F32.finite 0) (F32.inf false) =
        if (0 : ℚ) = 0 then F32.nan else F32.inf (xor (decide ((0 : ℚ) < 0)) false) := rfl
    rw [e, if_pos rfl]
  · unfold packetOffset
    rw [hd, h1]
    have e : f32mul (F32.finite 1) (F32.inf false) =
        if (1 : ℚ) = 0 then F32.nan else F32.inf (xor (decide ((1 : ℚ) < 0)) false) := rfl
    rw [e, if_neg one_ne_zero]
    simp

/-! ## the engine calls of the packet loop -/

theorem installedSequences_append (a b : List EngineCall) :
    installedSequences (a ++ b) = installedSequences a ++ installedSequences b := by
  simp [installedSequences, List.filterMap_append]

theorem simulatedSequences_append (a b : List EngineCall) :
    simulatedSequences (a ++ b) = simulatedSequences a ++ simulatedSequences b := by
  simp [simulatedSequences, List.filterMap_append]

theorem installedSequences_packetCalls (temp : Nat → ScanSequence) (m p : Nat) :
    installedSequences (packetCalls temp m p) = (List.range' p m).map temp := by
  induction m generalizing p with
  | zero => rfl
  | succ m ih =>
    have h := ih (p + 1)
    simp only [installedSequences] at h
    simp [packetCalls, installedSequences, List.range', h]

theorem simulatedSequences_packetCalls (temp : Nat → ScanSequence) (m p : Nat) :
    simulatedSequences (packetCalls temp m p) = (List.range' p m).map temp := by
  induction m generalizing p with
  | zero => rfl
  | succ m ih =>
    have h := ih (p + 1)
    simp only [simulatedSequences] at h
    simp [packetCalls, simulatedSequences, List.range', h]

theorem colorLoop_succ_of_ok (rq : SimRequest) (cur : ScanSequence) (color_prt : F32)
    (n p : Nat) (sim : Simulator) (acc : List IQ_Frame) (fr : IQ_Frame)
    (h : rq.simulate_lines sim.num_simulate_calls
      (temp_scanseq rq.ctor_all_timestamps_equal cur color_prt p) = Except.ok fr) :
    colorLoop rq cur color_prt (n + 1) p sim acc =
      colorLoop rq cur color_prt n (p + 1)
        (afterPacket sim (temp_scanseq rq.ctor_all_timestamps_equal cur color_prt p))
        (acc ++ [fr]) := by
  simp [colorLoop, Simulator.simulate_lines, Simulator.set_scan_sequence, h, afterPacket]

theorem colorLoop_succ_of_error (rq : SimRequest) (cur : ScanSequence) (color_prt : F32)
    (n p : Nat) (sim : Simulator) (acc : List IQ_Frame) (e : Thrown)
    (h : rq.simulate_lines sim.num_simulate_calls
      (temp_scanseq rq.ctor_all_timestamps_equal cur color_prt p) = Except.error e) :
    colorLoop rq cur color_prt (n + 1) p sim acc =
      (afterPacket sim (temp_scanseq rq.ctor_all_timestamps_equal cur color_prt p),
        Except.error e) := by
  simp [colorLoop, Simulator.simulate_lines, Simulator.set_scan_sequence, h, afterPacket]

theorem afterPackets_zero (sim : Simulator) (temp : Nat → ScanSequence) (p : Nat) :
    afterPackets sim temp 0 p = sim := by
  cases sim
  simp [afterPackets, packetCalls]

theorem afterPackets_one (sim : Simulator) (temp : Nat → ScanSequence) (p : Nat) :
    afterPackets sim temp 1 p = afterPacket sim (temp p) := by
  simp [afterPackets, afterPacket, packetCalls]

theorem afterPackets_afterPacket (sim : Simulator) (temp : Nat → ScanSequence) (m p : Nat) :
    afterPackets (afterPacket sim (temp p)) temp m (p + 1) = afterPackets sim temp (m + 1) p := by
  rcases Nat.eq_zero_or_pos m with h | h
  · subst h
    simp [afterPackets, afterPacket, packetCalls]
  · have e : p + 1 + m - 1 = p + (m + 1) - 1 := by omega
    have hm : m ≠ 0 := by omega
    simp [afterPackets, afterPacket, packetCalls, hm, e, Nat.add_assoc, Nat.add_comm 1 m]

/-- The engine after the packet loop, whatever the engine answers: some number
`m` of packets was started, at most `n` and at least one when `n` is positive,
all `n` when the loop completed. -/
theorem colorLoop_engine (rq : SimRequest) (cur : ScanSequence) (color_prt : F32)
    (n p : Nat) (sim : Simulator) (acc : List IQ_Frame) :
    ∃ m, m ≤ n ∧ (0 < n → 0 < m) ∧
      (colorLoop rq cur color_prt n p sim acc).1 =
        afterPackets sim (temp_scanseq rq.ctor_all_timestamps_equal cur color_prt) m p ∧
      (∀ frames, (colorLoop rq cur color_prt n p sim acc).2 = Except.ok frames → m = n) := by
  induction n generalizing p sim acc with
  | zero =>
    refine ⟨0, le_rfl, fun h => absurd h (lt_irrefl 0), ?_, fun _ _ => rfl⟩
    rw [afterPackets_zero]
    rfl
  | succ n ih =>
    cases hr : rq.simulate_lines sim.num_simulate_calls
        (temp_scanseq rq.ctor_all_timestamps_equal cur color_prt p) with
    | error e =>
      rw [colorLoop_succ_of_error rq cur color_prt n p sim acc e hr]
      refine ⟨1, by omega, fun _ => by omega, ?_, ?_⟩
      · rw [afterPackets_one]
      · intro frames hf
        simp at hf
    | ok fr =>
      rw [colorLoop_succ_of_ok rq cur color_prt n p sim acc fr hr]
      obtain ⟨m, hm, _, hc, hf⟩ := ih (p + 1)
        (afterPacket sim (temp_scanseq rq.ctor_all_timestamps_equal cur color_prt p))
        (acc ++ [fr])
      refine ⟨m + 1, by omega, fun _ => by omega, ?_, ?_⟩
      · rw [hc, afterPackets_afterPacket]
      · intro frames hfr
        have := hf frames hfr
        omega

/-- The packet loop completes with one frame per packet when no `simulate_lines`
call of the loop throws. -/
theorem colorLoop_ok (rq : SimRequest) (cur : ScanSequence) (color_prt : F32)
    (n p : Nat) (sim : Simulator) (acc : List IQ_Frame)
    (hok : ∀ i, i < n → ∃ fr, rq.simulate_lines (sim.num_simulate_calls + i)
      (temp_scanseq rq.ctor_all_timestamps_equal cur color_prt (p + i)) = Except.ok fr) :
    ∃ frames, (colorLoop rq cur color_prt n p sim acc).2 = Except.ok (acc ++ frames) ∧
      frames.length = n ∧
      (colorLoop rq cur color_prt n p sim acc).1 =
        afterPackets sim (temp_scanseq rq.ctor_all_timestamps_equal cur color_prt) n p := by
  induction n generalizing p sim acc with
  | zero =>
    refine ⟨[], by simp [colorLoop], rfl, ?_⟩
    rw [afterPackets_zero]
    rfl
  | succ n ih =>
    obtain ⟨fr, hfr⟩ := hok 0 (by omega)
    rw [Nat.add_zero, Nat.add_zero] at hfr
    rw [colorLoop_succ_of_ok rq cur color_prt n p sim acc fr hfr]
    obtain ⟨frames, h1, h2, h3⟩ := ih (p + 1)
      (afterPacket sim (temp_scanseq rq.ctor_all_timestamps_equal cur color_prt p))
      (acc ++ [fr]) (by
        intro i hi
        obtain ⟨fr2, h⟩ := hok (i + 1) (by omega)
        refine ⟨fr2, ?_⟩
        have e1 : sim.num_simulate_calls + (i + 1) = sim.num_simulate_calls + 1 + i := by omega
        have e2 : p + (i + 1) = p + 1 + i := by omega
        rw [e1, e2] at h
        simpa [afterPacket] using h)
    refine ⟨fr :: frames, ?_, by simp [h2], ?_⟩
    · rw [h1]
      simp
    · rw [h3, afterPackets_afterPacket]

/-- The packet loop stops at packet `j` when the `simulate_lines` calls of the
packets before it succeed and the call of packet `j` throws. -/
theorem colorLoop_error (rq : SimRequest) (cur : ScanSequence) (color_prt : F32)
    (n p : Nat) (sim : Simulator) (acc : List IQ_Frame) (j : Nat) (e : Thrown) (hj : j < n)
    (hok : ∀ i, i < j → ∃ fr, rq.simulate_lines (sim.num_simulate_calls + i)
      (temp_scanseq rq.ctor_all_timestamps_equal cur color_prt (p + i)) = Except.ok fr)
    (herr : rq.simulate_lines (sim.num_simulate_calls + j)
      (temp_scanseq rq.ctor_all_timestamps_equal cur color_prt (p + j)) = Except.error e) :
    colorLoop rq cur color_prt n p sim acc =
      (afterPackets sim (temp_scanseq rq.ctor_all_timestamps_equal cur color_prt) (j + 1) p,
        Except.error e) := by
  induction j generalizing n p sim acc with
  | zero =>
    obtain ⟨n, rfl⟩ : ∃ k, n = k + 1 := ⟨n - 1, by omega⟩
    rw [Nat.add_zero, Nat.add_zero] at herr
    rw [colorLoop_succ_of_error rq cur color_prt n p sim acc e herr, afterPackets_one]
  | succ j ih =>
    obtain ⟨n, rfl⟩ : ∃ k, n = k + 1 := ⟨n - 1, by omega⟩
    obtain ⟨fr, hfr⟩ := hok 0 (by omega)
    rw [Nat.add_zero, Nat.add_zero] at hfr
    rw [colorLoop_succ_of_ok rq cur color_prt n p sim acc fr hfr]
    rw [ih n (p + 1) (afterPacket sim (temp_scanseq rq.ctor_all_timestamps_equal cur color_prt p))
      (acc ++ [fr]) (by omega) ?_ ?_, afterPackets_afterPacket]
    · intro i hi
      obtain ⟨fr2, h⟩ := hok (i + 1) (by omega)
      refine ⟨fr2, ?_⟩
      have e1 : sim.num_simulate_calls + (i + 1) = sim.num_simulate_calls + 1 + i := by omega
      have e2 : p + (i + 1) = p + 1 + i := by omega
      rw [e1, e2] at h
      simpa [afterPacket] using h
    · have e1 : sim.num_simulate_calls + (j + 1) = sim.num_simulate_calls + 1 + j := by omega
      have e2 : p + (j + 1) = p + 1 + j := by omega
      rw [e1, e2] at herr
      simpa [afterPacket] using herr

/-! ## the two acquisition statements -/

theorem newScansequence_sim (rq : SimRequest) (st : MainWindow) :
    (newScansequence rq st rq.geometry rq.num_lines rq.all_timestamps_equal).m_sim =
      { scan_sequence := baseSequence rq st
        num_simulate_calls := st.m_sim.num_simulate_calls
        calls := st.m_sim.calls ++ [EngineCall.set_scan_sequence (baseSequence rq st)] } := by
  simp [newScansequence, baseSequence, Simulator.set_scan_sequence]

theorem colorPath_frame (rq : SimRequest) (st : MainWindow) :
    (colorPath rq st).1.m_iq_buffer = st.m_iq_buffer ∧
    (colorPath rq st).1.m_iq_buffer_timestamps = st.m_iq_buffer_timestamps ∧
    (colorPath rq st).1.m_cur_scanseq = st.m_cur_scanseq ∧
    (colorPath rq st).1.m_scan_geometry = st.m_scan_geometry := by
  unfold colorPath
  simp only
  split <;> simp

theorem colorStage_frame (rq : SimRequest) (st : MainWindow) :
    (colorStage rq st).1.m_iq_buffer = st.m_iq_buffer ∧
    (colorStage rq st).1.m_iq_buffer_timestamps = st.m_iq_buffer_timestamps ∧
    (colorStage rq st).1.m_cur_scanseq = st.m_cur_scanseq ∧
    (colorStage rq st).1.m_scan_geometry = st.m_scan_geometry := by
  unfold colorStage
  split
  · exact colorPath_frame rq st
  · simp

theorem colorPath_sim (rq : SimRequest) (st : MainWindow) :
    (colorPath rq st).1.m_sim =
      (colorLoop rq st.m_cur_scanseq (f32div (F32.finite 1) rq.color_prf) rq.color_packet_size.toNat 0
        st.m_sim []).1 := by
  unfold colorPath
  simp only
  split <;> simp_all

/-- The engine after the color statement: `m` packets were started. -/
theorem colorStage_engine (rq : SimRequest) (st : MainWindow) :
    ∃ m, m ≤ rq.color_packet_size.toNat ∧ (rq.enable_color = false → m = 0) ∧
      (rq.enable_color = true → 0 < rq.color_packet_size.toNat → 0 < m) ∧
      (colorStage rq st).1.m_sim = afterPackets st.m_sim
        (temp_scanseq rq.ctor_all_timestamps_equal st.m_cur_scanseq (f32div (F32.finite 1) rq.color_prf)) m 0 := by
  unfold colorStage
  by_cases hc : rq.enable_color = true
  · obtain ⟨m, h1, h2, h3, _⟩ := colorLoop_engine rq st.m_cur_scanseq (f32div (F32.finite 1) rq.color_prf)
      rq.color_packet_size.toNat 0 st.m_sim []
    refine ⟨m, h1, fun h => ?_, fun _ => h2, ?_⟩
    · rw [hc] at h
      exact absurd h (by decide)
    · rw [if_pos hc, colorPath_sim, h3]
  · refine ⟨0, Nat.zero_le _, fun _ => rfl, fun h => absurd h hc, ?_⟩
    rw [if_neg hc, afterPackets_zero]

theorem bmodePath_sim (rq : SimRequest) (st : MainWindow) :
    (bmodePath rq st).1.m_sim =
      { scan_sequence := st.m_sim.scan_sequence
        num_simulate_calls := st.m_sim.num_simulate_calls + 1
        calls := st.m_sim.calls ++ [EngineCall.simulate_lines st.m_sim.scan_sequence] } := by
  unfold bmodePath
  simp only [Simulator.simulate_lines]
  split
  · split <;> simp_all
  · simp_all
  · simp_all

theorem bmodePath_cur_scanseq (rq : SimRequest) (st : MainWindow) :
    (bmodePath rq st).1.m_cur_scanseq = st.m_cur_scanseq := by
  unfold bmodePath
  simp only [Simulator.simulate_lines]
  split
  · split <;> simp_all
  · simp_all
  · simp_all

theorem bmodeStage_cur_scanseq (rq : SimRequest) (st : MainWindow) :
    (bmodeStage rq st).1.m_cur_scanseq = st.m_cur_scanseq := by
  unfold bmodeStage
  split
  · exact bmodePath_cur_scanseq rq st
  · rfl

/-- The engine calls of the B-mode statement: none, or one `simulate_lines` on
the sequence installed when the statement starts. -/
theorem bmodeStage_calls (rq : SimRequest) (st : MainWindow) :
    (bmodeStage rq st).1.m_sim.calls = st.m_sim.calls ++
      (if rq.enable_bmode then [EngineCall.simulate_lines st.m_sim.scan_sequence] else []) := by
  unfold bmodeStage
  split
  · rw [bmodePath_sim]
  · simp

/-- Unfolding of `doSimulation` along the outcome of the color statement. -/
theorem doSimulation_of_returned (rq : SimRequest) (st : MainWindow)
    (h : (colorStage rq
      (newScansequence rq st rq.geometry rq.num_lines rq.all_timestamps_equal)).2 =
        Outcome.returned) :
    doSimulation rq st = bmodeStage rq (stateBeforeBmode rq st) := by
  unfold doSimulation stateBeforeBmode
  simp only
  split
  · rename_i st1 heq
    rw [heq]
  · rename_i st1 o hne heq
    rw [heq] at h
    exact absurd h (hne · )

theorem doSimulation_of_not_returned (rq : SimRequest) (st : MainWindow)
    (h : (colorStage rq
      (newScansequence rq st rq.geometry rq.num_lines rq.all_timestamps_equal)).2 ≠
        Outcome.returned) :
    doSimulation rq st =
      colorStage rq (newScansequence rq st rq.geometry rq.num_lines rq.all_timestamps_equal) := by
  unfold doSimulation
  cases hcs : colorStage rq
      (newScansequence rq st rq.geometry rq.num_lines rq.all_timestamps_equal) with
  | mk st1 o =>
    rw [hcs] at h
    cases o with
    | returned => exact absurd rfl h
    | escaped_exception => simp only [hcs]
    | out_of_bounds => simp only [hcs]

/-! ## the engine calls of a request -/

/-- The engine calls of a whole request when the color statement started `m`
packets: the rebuilt sequence is installed, then come the calls of the `m`
packets, then at most one further `simulate_lines` call (the B-mode one). -/
theorem doSimulation_calls_of (rq : SimRequest) (st : MainWindow) (m : Nat)
    (hm : (colorStage rq (newScansequence rq st rq.geometry rq.num_lines
      rq.all_timestamps_equal)).1.m_sim = afterPackets
        (newScansequence rq st rq.geometry rq.num_lines rq.all_timestamps_equal).m_sim
        (packetSequence rq st) m 0) :
    ∃ tail, installedSequences tail = [] ∧
      (doSimulation rq st).1.m_sim.calls = st.m_sim.calls ++
        (EngineCall.set_scan_sequence (baseSequence rq st) ::
          packetCalls (packetSequence rq st) m 0 ++ tail) := by
  rw [newScansequence_sim] at hm
  have hcalls : (colorStage rq (newScansequence rq st rq.geometry rq.num_lines
      rq.all_timestamps_equal)).1.m_sim.calls = st.m_sim.calls ++
        (EngineCall.set_scan_sequence (baseSequence rq st) ::
          packetCalls (packetSequence rq st) m 0) := by
    rw [hm]
    simp [afterPackets]
  by_cases hret : (colorStage rq (newScansequence rq st rq.geometry rq.num_lines
      rq.all_timestamps_equal)).2 = Outcome.returned
  · refine ⟨(if rq.enable_bmode then [EngineCall.simulate_lines
      (stateBeforeBmode rq st).m_sim.scan_sequence] else []), ?_, ?_⟩
    · split <;> simp [installedSequences]
    · rw [doSimulation_of_returned rq st hret, bmodeStage_calls]
      unfold stateBeforeBmode
      rw [hcalls]
      simp
  · refine ⟨[], rfl, ?_⟩
    rw [doSimulation_of_not_returned rq st hret, hcalls]
    simp

/-- The scan sequences installed during a request in which the color statement
started `m` packets: the rebuilt base sequence, then the sequences of packets
`0`, ..., `m - 1`, in this order. -/
theorem requestCalls_installed_of (rq : SimRequest) (st : MainWindow) (m : Nat)
    (hm : (colorStage rq (newScansequence rq st rq.geometry rq.num_lines
      rq.all_timestamps_equal)).1.m_sim = afterPackets
        (newScansequence rq st rq.geometry rq.num_lines rq.all_timestamps_equal).m_sim
        (packetSequence rq st) m 0) :
    installedSequences (requestCalls rq st) =
      baseSequence rq st :: (List.range m).map (packetSequence rq st) := by
  obtain ⟨tail, h4, h5⟩ := doSimulation_calls_of rq st m hm
  unfold requestCalls
  rw [h5, List.drop_left]
  have e : EngineCall.set_scan_sequence (baseSequence rq st) ::
      packetCalls (packetSequence rq st) m 0 ++ tail =
      [EngineCall.set_scan_sequence (baseSequence rq st)] ++
        (packetCalls (packetSequence rq st) m 0 ++ tail) := rfl
  rw [e, installedSequences_append, installedSequences_append, installedSequences_packetCalls, h4,
    List.range_eq_range']
  simp [installedSequences]

/-- The scan sequences installed during a request, in order: the rebuilt base
sequence, then the sequences of packets `0`, ..., `m - 1`. -/
theorem requestCalls_installed (rq : SimRequest) (st : MainWindow) :
    ∃ m, m ≤ rq.color_packet_size.toNat ∧ (rq.enable_color = false → m = 0) ∧
      (rq.enable_color = true → 0 < rq.color_packet_size.toNat → 0 < m) ∧
      installedSequences (requestCalls rq st) =
        baseSequence rq st :: (List.range m).map (packetSequence rq st) := by
  obtain ⟨m, h1, h2, h3, h4⟩ := colorStage_engine rq
    (newScansequence rq st rq.geometry rq.num_lines rq.all_timestamps_equal)
  exact ⟨m, h1, h2, h3, requestCalls_installed_of rq st m h4⟩

/-- A sequence found at position `i + 1` of the installed sequences of a
request is the sequence of packet `i`, and `i` is below the packet size. -/
theorem installed_get (rq : SimRequest) (st : MainWindow) (i : Nat) (seq : ScanSequence)
    (h : (installedSequences (requestCalls rq st)).get? (i + 1) = some seq) :
    rq.enable_color = true ∧ i < rq.color_packet_size.toNat ∧ seq = packetSequence rq st i := by
  obtain ⟨m, h1, h2, _, h4⟩ := requestCalls_installed rq st
  rw [h4, List.get?_cons_succ, List.get?_eq_getElem?, List.getElem?_map] at h
  have hi : i < m := by
    by_contra hc
    rw [List.getElem?_eq_none (by simpa using hc)] at h
    simp at h
  rw [List.getElem?_range hi] at h
  simp only [Option.map_some', Option.some.injEq] at h
  refine ⟨?_, by omega, h.symm⟩
  by_contra hc
  have := h2 (by simpa using hc)
  omega

theorem packetSequence_timestamps (rq : SimRequest) (st : MainWindow) (i : Nat) :
    (packetSequence rq st i).scanlines.map Scanline.timestamp =
      (baseSequence rq st).scanlines.map
        (fun l => f32add l.timestamp (packetOffset rq.color_prf i)) := by
  simp [packetSequence, temp_scanseq, packetOffset, List.map_map, Function.comp_def]

theorem packetSequence_get (rq : SimRequest) (st : MainWindow) (i k : Nat) :
    ((packetSequence rq st i).scanlines.get? k).map Scanline.timestamp =
      ((baseSequence rq st).scanlines.get? k).map
        (fun l => f32add l.timestamp (packetOffset rq.color_prf i)) := by
  simp [packetSequence, temp_scanseq, packetOffset, List.get?_eq_getElem?, List.getElem?_map]
  cases (baseSequence rq st).scanlines[k]? <;> simp

/-- The packet loop starts packet `i` when the `simulate_lines` calls of the
packets before it succeed. -/
theorem colorLoop_reach (rq : SimRequest) (cur : ScanSequence) (color_prt : F32)
    (n p : Nat) (sim : Simulator) (acc : List IQ_Frame) (i : Nat) (hi : i < n)
    (hok : ∀ q, q < i → ∃ fr, rq.simulate_lines (sim.num_simulate_calls + q)
      (temp_scanseq rq.ctor_all_timestamps_equal cur color_prt (p + q)) = Except.ok fr) :
    ∃ m, i < m ∧ m ≤ n ∧ (colorLoop rq cur color_prt n p sim acc).1 =
      afterPackets sim (temp_scanseq rq.ctor_all_timestamps_equal cur color_prt) m p := by
  induction i generalizing n p sim acc with
  | zero =>
    obtain ⟨m, h1, h2, h3, _⟩ := colorLoop_engine rq cur color_prt n p sim acc
    exact ⟨m, h2 hi, h1, h3⟩
  | succ i ih =>
    obtain ⟨n, rfl⟩ : ∃ k, n = k + 1 := ⟨n - 1, by omega⟩
    obtain ⟨fr, hfr⟩ := hok 0 (by omega)
    rw [Nat.add_zero, Nat.add_zero] at hfr
    rw [colorLoop_succ_of_ok rq cur color_prt n p sim acc fr hfr]
    obtain ⟨m, h1, h2, h3⟩ := ih n (p + 1)
      (afterPacket sim (temp_scanseq rq.ctor_all_timestamps_equal cur color_prt p))
      (acc ++ [fr]) (by omega) (by
        intro q hq
        obtain ⟨fr2, h⟩ := hok (q + 1) (by omega)
        refine ⟨fr2, ?_⟩
        have e1 : sim.num_simulate_calls + (q + 1) = sim.num_simulate_calls + 1 + q := by omega
        have e2 : p + (q + 1) = p + 1 + q := by omega
        rw [e1, e2] at h
        simpa [afterPacket] using h)
    exact ⟨m + 1, by omega, by omega, by rw [h3, afterPackets_afterPacket]⟩

/-- Packet `i` of a request with the color mode on is installed at position
`i + 1` when the `simulate_lines` calls of the packets before it succeed. -/
theorem installed_reach (rq : SimRequest) (st : MainWindow) (i : Nat)
    (hcolor : rq.enable_color = true) (hi : i < rq.color_packet_size.toNat)
    (hok : ∀ q, q < i → ∃ fr, rq.simulate_lines (st.m_sim.num_simulate_calls + q)
      (packetSequence rq st q) = Except.ok fr) :
    (installedSequences (requestCalls rq st)).get? (i + 1) = some (packetSequence rq st i) := by
  obtain ⟨m, h1, _, h3⟩ := colorLoop_reach rq (baseSequence rq st) (f32div (F32.finite 1) rq.color_prf)
    rq.color_packet_size.toNat 0
    (newScansequence rq st rq.geometry rq.num_lines rq.all_timestamps_equal).m_sim [] i hi (by
      intro q hq
      obtain ⟨fr, h⟩ := hok q hq
      refine ⟨fr, ?_⟩
      rw [newScansequence_sim, Nat.zero_add]
      exact h)
  have hm : (colorStage rq (newScansequence rq st rq.geometry rq.num_lines
      rq.all_timestamps_equal)).1.m_sim = afterPackets
        (newScansequence rq st rq.geometry rq.num_lines rq.all_timestamps_equal).m_sim
        (packetSequence rq st) m 0 := by
    unfold colorStage
    rw [if_pos hcolor, colorPath_sim]
    exact h3
  rw [requestCalls_installed_of rq st m hm, List.get?_cons_succ, List.get?_eq_getElem?,
    List.getElem?_map, List.getElem?_range h1]
  rfl

/-! ## effect of a request on the queue and on the IQ buffer -/

theorem bmodeStage_effect (rq : SimRequest) (st : MainWindow) :
    (bmodeStage rq st).1.m_refresh_worker = st.m_refresh_worker ++
      (match bmodeFrame rq st with
        | some frame => [bmodeTask rq st frame]
        | none => []) ∧
    (bmodeStage rq st).1.m_iq_buffer = st.m_iq_buffer ++
      (match bmodeFrame rq st with
        | some frame => if rq.save_iq then [frame] else []
        | none => []) ∧
    (bmodeStage rq st).1.m_iq_buffer_timestamps = st.m_iq_buffer_timestamps ++
      (match bmodeFrame rq st with
        | some _ => if rq.save_iq then [rq.cur_time] else []
        | none => []) := by
  unfold bmodeStage bmodeFrame
  by_cases hb : rq.enable_bmode = true
  · simp only [hb, if_true]
    unfold bmodePath
    simp only [Simulator.simulate_lines]
    cases hr : rq.simulate_lines st.m_sim.num_simulate_calls st.m_sim.scan_sequence with
    | error e =>
      cases e <;> simp
    | ok frame =>
      cases frame with
      | nil => simp
      | cons line lines =>
        by_cases hs : rq.save_iq = true
        · simp [hs, bmodeTask]
        · simp [hs, bmodeTask]
  · simp [hb]

theorem bmodeFrame_of_error (rq : SimRequest) (st : MainWindow) (e : Thrown)
    (h : rq.simulate_lines st.m_sim.num_simulate_calls st.m_sim.scan_sequence =
      Except.error e) : bmodeFrame rq st = none := by
  unfold bmodeFrame
  rw [h]
  simp

/-- The color statement either leaves the queue as it is or appends one
color-Doppler task. -/
theorem colorStage_queue (rq : SimRequest) (st : MainWindow) :
    (colorStage rq st).1.m_refresh_worker = st.m_refresh_worker ∨
    ∃ frames, (colorStage rq st).1.m_refresh_worker = st.m_refresh_worker ++
      [WorkTask.ColorDoppler st.m_scan_geometry frames rq.qimage_dots_per_meter] := by
  unfold colorStage
  split
  · unfold colorPath
    simp only
    split
    · right
      exact ⟨_, rfl⟩
    · left
      rfl
    · left
      rfl
  · left
    rfl

/-- The color statement when the `simulate_lines` call of packet `j` throws a
runtime error after the calls of the packets before it succeeded. -/
theorem colorStage_of_runtime_error (rq : SimRequest) (st : MainWindow) (j : Nat)
    (what : String) (hcolor : rq.enable_color = true) (hj : j < rq.color_packet_size.toNat)
    (hok : ∀ i, i < j → ∃ fr, rq.simulate_lines (st.m_sim.num_simulate_calls + i)
      (temp_scanseq rq.ctor_all_timestamps_equal st.m_cur_scanseq (f32div (F32.finite 1) rq.color_prf) i) =
        Except.ok fr)
    (herr : rq.simulate_lines (st.m_sim.num_simulate_calls + j)
      (temp_scanseq rq.ctor_all_timestamps_equal st.m_cur_scanseq (f32div (F32.finite 1) rq.color_prf) j) =
        Except.error (Thrown.runtime_error what)) :
    colorStage rq st =
      ({ st with
         m_sim := afterPackets st.m_sim
           (temp_scanseq rq.ctor_all_timestamps_equal st.m_cur_scanseq (f32div (F32.finite 1) rq.color_prf))
           (j + 1) 0
         m_log_widget := st.m_log_widget ++
           [(LogLevel.WARNING, "Caught exception simulating color Doppler: " ++ what)] },
       Outcome.returned) := by
  unfold colorStage colorPath
  rw [if_pos hcolor]
  simp only
  rw [colorLoop_error rq st.m_cur_scanseq (f32div (F32.finite 1) rq.color_prf) rq.color_packet_size.toNat 0
    st.m_sim [] j (Thrown.runtime_error what) hj
    (by intro i hi; simpa using hok i hi) (by simpa using herr)]

/-- The color statement when no `simulate_lines` call of the loop throws. -/
theorem colorStage_of_ok (rq : SimRequest) (st : MainWindow) (hcolor : rq.enable_color = true)
    (hok : ∀ i, i < rq.color_packet_size.toNat →
      ∃ fr, rq.simulate_lines (st.m_sim.num_simulate_calls + i)
        (temp_scanseq rq.ctor_all_timestamps_equal st.m_cur_scanseq (f32div (F32.finite 1) rq.color_prf) i) =
          Except.ok fr) :
    ∃ frames, frames.length = rq.color_packet_size.toNat ∧ colorStage rq st =
      ({ st with
         m_sim := afterPackets st.m_sim
           (temp_scanseq rq.ctor_all_timestamps_equal st.m_cur_scanseq (f32div (F32.finite 1) rq.color_prf))
           rq.color_packet_size.toNat 0
         m_refresh_worker := st.m_refresh_worker ++
           [WorkTask.ColorDoppler st.m_scan_geometry frames rq.qimage_dots_per_meter] },
       Outcome.returned) := by
  obtain ⟨frames, h1, h2, h3⟩ := colorLoop_ok rq st.m_cur_scanseq (f32div (F32.finite 1) rq.color_prf)
    rq.color_packet_size.toNat 0 st.m_sim [] (by intro i hi; simpa using hok i hi)
  refine ⟨frames, h2, ?_⟩
  unfold colorStage colorPath
  rw [if_pos hcolor]
  simp only
  have e : colorLoop rq st.m_cur_scanseq (f32div (F32.finite 1) rq.color_prf) rq.color_packet_size.toNat 0
      st.m_sim [] = (afterPackets st.m_sim
        (temp_scanseq rq.ctor_all_timestamps_equal st.m_cur_scanseq (f32div (F32.finite 1) rq.color_prf))
        rq.color_packet_size.toNat 0, Except.ok frames) := by
    rw [← h3]
    exact Prod.ext rfl (by simpa using h1)
  rw [e]

/-- The whole request when the `simulate_lines` call of color packet `j` throws
a runtime error after the calls of the packets before it succeeded: the color
statement logs and returns, then the B-mode statement runs. -/
theorem doSimulation_of_color_runtime_error (rq : SimRequest) (st : MainWindow) (j : Nat)
    (what : String) (hcolor : rq.enable_color = true) (hj : j < rq.color_packet_size.toNat)
    (hok : ∀ i, i < j → ∃ fr, rq.simulate_lines (st.m_sim.num_simulate_calls + i)
      (packetSequence rq st i) = Except.ok fr)
    (herr : rq.simulate_lines (st.m_sim.num_simulate_calls + j) (packetSequence rq st j) =
      Except.error (Thrown.runtime_error what)) :
    colorStage rq (newScansequence rq st rq.geometry rq.num_lines rq.all_timestamps_equal) =
      ({ newScansequence rq st rq.geometry rq.num_lines rq.all_timestamps_equal with
         m_sim := afterPackets
           (newScansequence rq st rq.geometry rq.num_lines rq.all_timestamps_equal).m_sim
           (packetSequence rq st) (j + 1) 0
         m_log_widget := st.m_log_widget ++
           [(LogLevel.WARNING, "Caught exception simulating color Doppler: " ++ what)] },
       Outcome.returned) ∧
    doSimulation rq st = bmodeStage rq
      { newScansequence rq st rq.geometry rq.num_lines rq.all_timestamps_equal with
        m_sim := afterPackets
          (newScansequence rq st rq.geometry rq.num_lines rq.all_timestamps_equal).m_sim
          (packetSequence rq st) (j + 1) 0
        m_log_widget := st.m_log_widget ++
          [(LogLevel.WARNING, "Caught exception simulating color Doppler: " ++ what)] } := by
  have h := colorStage_of_runtime_error rq
    (newScansequence rq st rq.geometry rq.num_lines rq.all_timestamps_equal) j what hcolor hj
    (by
      intro i hi
      obtain ⟨fr, hfr⟩ := hok i hi
      exact ⟨fr, hfr⟩)
    herr
  refine ⟨h, ?_⟩
  rw [doSimulation_of_returned rq st (by rw [h])]
  unfold stateBeforeBmode
  rw [h]
  rfl

/-- The tasks of a request in which color packet `j` throws a runtime error:
no color task, and the B-mode task when the B-mode statement acquires a
frame. -/
theorem requestTasks_of_color_runtime_error (rq : SimRequest) (st : MainWindow) (j : Nat)
    (what : String) (hcolor : rq.enable_color = true) (hj : j < rq.color_packet_size.toNat)
    (hok : ∀ i, i < j → ∃ fr, rq.simulate_lines (st.m_sim.num_simulate_calls + i)
      (packetSequence rq st i) = Except.ok fr)
    (herr : rq.simulate_lines (st.m_sim.num_simulate_calls + j) (packetSequence rq st j) =
      Except.error (Thrown.runtime_error what)) :
    requestTasks rq st =
      if rq.enable_bmode then
        match rq.simulate_lines (st.m_sim.num_simulate_calls + (j + 1))
            (packetSequence rq st j) with
        | Except.ok (line :: lines) =>
          [WorkTask.BMode rq.geometry (line :: lines) rq.grayscale.normalization_const
            rq.grayscale.auto_normalize rq.qimage_dots_per_meter rq.grayscale.dyn_range
            rq.grayscale.gain]
        | _ => []
      else [] := by
  obtain ⟨_, h⟩ := doSimulation_of_color_runtime_error rq st j what hcolor hj hok herr
  unfold requestTasks
  rw [h, (bmodeStage_effect rq _).1]
  have hq : ({ newScansequence rq st rq.geometry rq.num_lines rq.all_timestamps_equal with
        m_sim := afterPackets
          (newScansequence rq st rq.geometry rq.num_lines rq.all_timestamps_equal).m_sim
          (packetSequence rq st) (j + 1) 0
        m_log_widget := st.m_log_widget ++
          [(LogLevel.WARNING, "Caught exception simulating color Doppler: " ++ what)] }
      : MainWindow).m_refresh_worker = st.m_refresh_worker := rfl
  rw [hq, List.drop_left]
  unfold bmodeFrame bmodeTask
  simp only [afterPackets, newScansequence_sim, Nat.succ_ne_zero, if_false, Nat.zero_add,
    Nat.add_sub_cancel]
  by_cases hb : rq.enable_bmode = true
  · simp only [hb, if_true]
    cases hr : rq.simulate_lines (st.m_sim.num_simulate_calls + (j + 1))
        (packetSequence rq st j) with
    | error e => rfl
    | ok frame =>
      cases frame with
      | nil => rfl
      | cons line lines => rfl
  · simp [hb]

theorem bmodePath_sim_stage (rq : SimRequest) (st : MainWindow) :
    (bmodeStage rq st).1.m_sim.scan_sequence = st.m_sim.scan_sequence := by
  unfold bmodeStage
  split
  · rw [bmodePath_sim]
  · rfl

/-- The whole request when the color mode is on and no `simulate_lines` call
throws: the color statement submits its task, then the B-mode statement runs
on the engine as the last packet left it. -/
theorem doSimulation_of_all_ok (rq : SimRequest) (st : MainWindow)
    (hcolor : rq.enable_color = true)
    (hok : ∀ c seq, ∃ fr, rq.simulate_lines c seq = Except.ok fr) :
    ∃ frames, frames.length = rq.color_packet_size.toNat ∧
    doSimulation rq st = bmodeStage rq
      { newScansequence rq st rq.geometry rq.num_lines rq.all_timestamps_equal with
        m_sim := afterPackets
          (newScansequence rq st rq.geometry rq.num_lines rq.all_timestamps_equal).m_sim
          (packetSequence rq st) rq.color_packet_size.toNat 0
        m_refresh_worker := st.m_refresh_worker ++
          [WorkTask.ColorDoppler rq.geometry frames rq.qimage_dots_per_meter] } := by
  obtain ⟨frames, h1, h2⟩ := colorStage_of_ok rq
    (newScansequence rq st rq.geometry rq.num_lines rq.all_timestamps_equal) hcolor
    (fun _ _ => hok _ _)
  refine ⟨frames, h1, ?_⟩
  rw [doSimulation_of_returned rq st (by rw [h2])]
  unfold stateBeforeBmode
  rw [h2]
  rfl

/-- The state after a request whose B-mode call throws: buffer, timestamps
and queue are those the color statement left. -/
theorem doSimulation_of_bmode_error (rq : SimRequest) (st : MainWindow) (e : Thrown)
    (hfail : rq.simulate_lines (stateBeforeBmode rq st).m_sim.num_simulate_calls
      (stateBeforeBmode rq st).m_sim.scan_sequence = Except.error e) :
    (doSimulation rq st).1.m_iq_buffer = st.m_iq_buffer ∧
    (doSimulation rq st).1.m_iq_buffer_timestamps = st.m_iq_buffer_timestamps ∧
    (doSimulation rq st).1.m_refresh_worker = (stateBeforeBmode rq st).m_refresh_worker := by
  have hfr := colorStage_frame rq
    (newScansequence rq st rq.geometry rq.num_lines rq.all_timestamps_equal)
  by_cases hret : (colorStage rq (newScansequence rq st rq.geometry rq.num_lines
      rq.all_timestamps_equal)).2 = Outcome.returned
  · rw [doSimulation_of_returned rq st hret]
    obtain ⟨h1, h2, h3⟩ := bmodeStage_effect rq (stateBeforeBmode rq st)
    rw [h1, h2, h3, bmodeFrame_of_error rq _ e hfail]
    simp only [List.append_nil]
    exact ⟨hfr.1, hfr.2.1, trivial⟩
  · rw [doSimulation_of_not_returned rq st hret]
    exact ⟨hfr.1, hfr.2.1, rfl⟩

theorem doSimulation_buffer_lengths (rq : SimRequest) (st : MainWindow)
    (h : st.m_iq_buffer.length = st.m_iq_buffer_timestamps.length) :
    (doSimulation rq st).1.m_iq_buffer.length =
      (doSimulation rq st).1.m_iq_buffer_timestamps.length := by
  have hfr := colorStage_frame rq
    (newScansequence rq st rq.geometry rq.num_lines rq.all_timestamps_equal)
  have h0 : (newScansequence rq st rq.geometry rq.num_lines rq.all_timestamps_equal).m_iq_buffer =
      st.m_iq_buffer := rfl
  have h1 : (newScansequence rq st rq.geometry rq.num_lines
      rq.all_timestamps_equal).m_iq_buffer_timestamps = st.m_iq_buffer_timestamps := rfl
  by_cases hret : (colorStage rq (newScansequence rq st rq.geometry rq.num_lines
      rq.all_timestamps_equal)).2 = Outcome.returned
  · rw [doSimulation_of_returned rq st hret]
    obtain ⟨_, h2, h3⟩ := bmodeStage_effect rq (stateBeforeBmode rq st)
    rw [h2, h3]
    unfold stateBeforeBmode
    rw [hfr.1, hfr.2.1, h0, h1, List.length_append, List.length_append, h]
    cases bmodeFrame rq (colorStage rq (newScansequence rq st rq.geometry rq.num_lines
      rq.all_timestamps_equal)).1 with
    | none => rfl
    | some frame =>
      by_cases hs : rq.save_iq = true
      · simp [hs]
      · simp [hs]
  · rw [doSimulation_of_not_returned rq st hret, hfr.1, hfr.2.1, h0, h1, h]

theorem onSaveIqBufferAs_buffer_lengths (h5_file : String) (h5_ok : Bool) (st : MainWindow)
    (h : st.m_iq_buffer.length = st.m_iq_buffer_timestamps.length) :
    (onSaveIqBufferAs h5_file h5_ok st).1.m_iq_buffer.length =
      (onSaveIqBufferAs h5_file h5_ok st).1.m_iq_buffer_timestamps.length := by
  unfold onSaveIqBufferAs
  simp only
  split
  · rfl
  · split
    · exact h
    · split
      · exact h
      · split
        · exact h
        · split
          · exact h
          · split
            · exact h
            · split
              · rfl
              · exact h

theorem SessionOp.run_buffer_lengths (op : SessionOp) (st : MainWindow)
    (h : st.m_iq_buffer.length = st.m_iq_buffer_timestamps.length) :
    (op.run st).m_iq_buffer.length = (op.run st).m_iq_buffer_timestamps.length := by
  cases op with
  | simulate rq => exact doSimulation_buffer_lengths rq st h
  | saveIqBufferAs h5_file h5_ok => exact onSaveIqBufferAs_buffer_lengths h5_file h5_ok st h
  | resetIqBuffer => rfl

theorem runSession_buffer_lengths (ops : List SessionOp) (st : MainWindow)
    (h : st.m_iq_buffer.length = st.m_iq_buffer_timestamps.length) :
    (runSession ops st).m_iq_buffer.length = (runSession ops st).m_iq_buffer_timestamps.length := by
  unfold runSession
  induction ops generalizing st with
  | nil => exact h
  | cons op ops ih => exact ih (op.run st) (SessionOp.run_buffer_lengths op st h)

/-! ## export and reload of the IQ buffer -/

theorem allSome_map_some {α β : Type} (l : List α) (g : α → β) :
    allSome (l.map fun a => some (g a)) = some (l.map g) := by
  induction l with
  | nil => rfl
  | cons a l ih => simp [allSome, ih]

theorem read_iq_of_shape (buf : List IQ_Frame) (L S : Nat)
    (hshape : ∀ fr, fr ∈ buf → fr.length = L ∧ ∀ ln, ln ∈ fr → ln.length = S)
    (f l s : Nat) (hf : f < buf.length) (hl : l < L) (hs : s < S) :
    read_iq buf f l s = some (((buf.getD f []).getD l []).getD s (0, 0)) := by
  unfold read_iq
  have hfr : buf.get? f = some buf[f] := by
    rw [List.get?_eq_getElem?, List.getElem?_eq_getElem hf]
  have hmem : buf[f] ∈ buf := List.getElem_mem hf
  obtain ⟨hlen, hlines⟩ := hshape buf[f] hmem
  have hl2 : l < buf[f].length := by omega
  have hln : buf[f].get? l = some buf[f][l] := by
    rw [List.get?_eq_getElem?, List.getElem?_eq_getElem hl2]
  have hmem2 : buf[f][l] ∈ buf[f] := List.getElem_mem hl2
  have hs2 : s < buf[f][l].length := by
    rw [hlines _ hmem2]
    exact hs
  rw [hfr]
  simp only
  rw [hln]
  simp only
  rw [List.get?_eq_getElem?, List.getElem?_eq_getElem hs2]
  simp [List.getD_eq_getElem?_getD, List.getElem?_eq_getElem hf, List.getElem?_eq_getElem hl2,
    List.getElem?_eq_getElem hs2]

theorem convert_iq_of_shape (buf : List IQ_Frame) (L S : Nat)
    (hshape : ∀ fr, fr ∈ buf → fr.length = L ∧ ∀ ln, ln ∈ fr → ln.length = S) :
    convert_iq buf buf.length L S = some (cube buf buf.length L S) := by
  unfold convert_iq cube
  have inner : ∀ f l, f < buf.length → l < L →
      allSome ((List.range S).map fun s => read_iq buf f l s) =
        some ((List.range S).map fun s => ((buf.getD f []).getD l []).getD s (0, 0)) := by
    intro f l hf hl
    rw [← allSome_map_some]
    congr 1
    apply List.map_congr_left
    intro s hs
    exact read_iq_of_shape buf L S hshape f l s hf hl (List.mem_range.mp hs)
  have middle : ∀ f, f < buf.length →
      allSome ((List.range L).map fun l =>
        allSome ((List.range S).map fun s => read_iq buf f l s)) =
        some ((List.range L).map fun l =>
          (List.range S).map fun s => ((buf.getD f []).getD l []).getD s (0, 0)) := by
    intro f hf
    rw [← allSome_map_some]
    congr 1
    apply List.map_congr_left
    intro l hl
    exact inner f l hf (List.mem_range.mp hl)
  rw [← allSome_map_some]
  congr 1
  apply List.map_congr_left
  intro f hf
  exact middle f (List.mem_range.mp hf)

/-- The export of a buffer whose frames all have `L ≥ 1` lines of `S` samples. -/
theorem onSaveIqBufferAs_of_shape (h5_file : String) (st : MainWindow) (L S : Nat)
    (hF : st.m_iq_buffer ≠ []) (hL : 1 ≤ L)
    (hshape : ∀ fr, fr ∈ st.m_iq_buffer → fr.length = L ∧ ∀ ln, ln ∈ fr → ln.length = S)
    (hts : st.m_iq_buffer_timestamps.length = st.m_iq_buffer.length)
    (hname : h5_file ≠ "") :
    onSaveIqBufferAs h5_file true st =
      (onResetIqBuffer st, SaveOutcome.written h5_file (savedContainer st L S)) := by
  obtain ⟨frame, rest, hbuf⟩ : ∃ frame rest, st.m_iq_buffer = frame :: rest := by
    cases hb : st.m_iq_buffer with
    | nil => exact absurd hb hF
    | cons frame rest => exact ⟨frame, rest, rfl⟩
  obtain ⟨hlen, hlines⟩ := hshape frame (by rw [hbuf]; exact List.mem_cons_self _ _)
  obtain ⟨line0, lines, hframe⟩ : ∃ line0 lines, frame = line0 :: lines := by
    cases hfr : frame with
    | nil =>
      rw [hfr] at hlen
      simp at hlen
      omega
    | cons line0 lines => exact ⟨line0, lines, rfl⟩
  have hS : line0.length = S := hlines line0 (by rw [hframe]; exact List.mem_cons_self _ _)
  have hconv := convert_iq_of_shape st.m_iq_buffer L S hshape
  have hlen0 : st.m_iq_buffer.length ≠ 0 := by
    rw [hbuf]
    simp
  have hg0 : st.m_iq_buffer.get? 0 = some frame := by
    rw [hbuf]
    rfl
  have hg1 : frame.get? 0 = some line0 := by
    rw [hframe]
    rfl
  unfold onSaveIqBufferAs
  simp only [hts, ne_eq, not_true_eq_false, if_false, hlen0, hname, hg0, hg1, hlen, hS, hconv,
    if_true, savedContainer]

theorem load_iq_frames_no_sim_data (re im ft : H5Dataset) :
    load_iq_frames [("iq_real", re), ("iq_imag", im), ("frame_times", ft)] =
      Except.error "no dataset sim_data_real" := by
  simp [load_iq_frames, getDimensions, List.lookup, bind, Except.bind]

/-- The loader on a container that offers two rank-3 arrays of equal extents
`A x B x C` under its names: `A` frames of `C` lines of `B` samples. -/
theorem load_iq_frames_rank3 (re im : H5Dataset) (A B C : Nat) (hre : re.dims = [A, B, C])
    (him : im.dims = [A, B, C]) :
    load_iq_frames [("sim_data_real", re), ("sim_data_imag", im)] =
      Except.ok ((List.range A).map fun frame_no =>
        (List.range C).map fun i =>
          (List.range B).map fun n =>
            (re.elem [frame_no, n, i], im.elem [frame_no, n, i])) := by
  simp [load_iq_frames, getDimensions, readMultiArray, List.lookup, bind, Except.bind, hre, him,
    pure, Except.pure]

theorem elem3_cube (buf : List IQ_Frame) (F L S : Nat) (g : IQ_Sample → ℚ) (hg : g (0, 0) = 0)
    (f n i : Nat) (hf : f < F) (hn : n < L) (hi : i < S) :
    elem3 ((cube buf F L S).map fun fr => fr.map fun ln => ln.map g) [f, n, i] =
      g (((buf.getD f []).getD n []).getD i (0, 0)) := by
  have _ := hg
  simp [elem3, cube, List.getD_eq_getElem?_getD, List.getElem?_map, List.getElem?_range, hf, hn,
    hi]

/-- The loader on the two arrays written by the export, offered under the
names the loader reads: every frame comes back transposed. -/
theorem load_saved_arrays (st : MainWindow) (L S : Nat) :
    load_iq_frames
      [("sim_data_real",
          { dims := [st.m_iq_buffer.length, L, S]
            elem := elem3 ((cube st.m_iq_buffer st.m_iq_buffer.length L S).map fun fr =>
              fr.map fun ln => ln.map Prod.fst) }),
        ("sim_data_imag",
          { dims := [st.m_iq_buffer.length, L, S]
            elem := elem3 ((cube st.m_iq_buffer st.m_iq_buffer.length L S).map fun fr =>
              fr.map fun ln => ln.map Prod.snd) })] =
      Except.ok ((List.range st.m_iq_buffer.length).map fun f =>
        (List.range S).map fun i =>
          (List.range L).map fun n =>
            ((st.m_iq_buffer.getD f []).getD n []).getD i (0, 0)) := by
  rw [load_iq_frames_rank3 _ _ st.m_iq_buffer.length L S rfl rfl]
  congr 1
  apply List.map_congr_left
  intro f hf
  apply List.map_congr_left
  intro i hi
  apply List.map_congr_left
  intro n hn
  rw [List.mem_range] at hf hi hn
  simp only
  rw [elem3_cube st.m_iq_buffer _ L S Prod.fst rfl f n i hf hn hi,
    elem3_cube st.m_iq_buffer _ L S Prod.snd rfl f n i hf hn hi]

/-! ## the frames of a recorded buffer -/

theorem packetCalls_length (temp : Nat → ScanSequence) (m p : Nat) :
    (packetCalls temp m p).length = 2 * m := by
  induction m generalizing p with
  | zero => rfl
  | succ m ih =>
    simp only [packetCalls, List.length_cons, ih (p + 1)]
    omega

theorem packetCalls_get (temp : Nat → ScanSequence) (m p i : Nat) (hi : i < m) :
    (packetCalls temp m p).get? (2 * i) = some (EngineCall.set_scan_sequence (temp (p + i))) ∧
    (packetCalls temp m p).get? (2 * i + 1) =
      some (EngineCall.simulate_lines (temp (p + i))) := by
  induction m generalizing p i with
  | zero => exact absurd hi (Nat.not_lt_zero i)
  | succ m ih =>
    cases i with
    | zero => exact ⟨rfl, rfl⟩
    | succ i =>
      obtain ⟨h1, h2⟩ := ih (p + 1) i (by omega)
      have e1 : 2 * (i + 1) = 2 * i + 1 + 1 := by omega
      have e3 : p + 1 + i = p + (i + 1) := by omega
      rw [e1, packetCalls, List.get?_cons_succ, List.get?_cons_succ, List.get?_cons_succ,
        List.get?_cons_succ, h1, h2, e3]
      exact ⟨rfl, rfl⟩

/-- The packet loop without a failing call: the frames it collects are the
answers of the engine, in packet order. -/
theorem colorLoop_ok_frames (rq : SimRequest) (cur : ScanSequence) (color_prt : F32)
    (n p : Nat) (sim : Simulator) (acc : List IQ_Frame)
    (hok : ∀ i, i < n → ∃ fr, rq.simulate_lines (sim.num_simulate_calls + i)
      (temp_scanseq rq.ctor_all_timestamps_equal cur color_prt (p + i)) = Except.ok fr) :
    ∃ frames, colorLoop rq cur color_prt n p sim acc =
        (afterPackets sim (temp_scanseq rq.ctor_all_timestamps_equal cur color_prt) n p,
          Except.ok (acc ++ frames)) ∧
      frames.length = n ∧
      ∀ i fr, frames.get? i = some fr →
        rq.simulate_lines (sim.num_simulate_calls + i)
          (temp_scanseq rq.ctor_all_timestamps_equal cur color_prt (p + i)) = Except.ok fr := by
  induction n generalizing p sim acc with
  | zero =>
    refine ⟨[], ?_, rfl, ?_⟩
    · rw [afterPackets_zero, List.append_nil]
      rfl
    · intro i fr h
      simp at h
  | succ n ih =>
    obtain ⟨fr0, hfr⟩ := hok 0 (by omega)
    rw [Nat.add_zero, Nat.add_zero] at hfr
    rw [colorLoop_succ_of_ok rq cur color_prt n p sim acc fr0 hfr]
    obtain ⟨frames, h1, h2, h3⟩ := ih (p + 1)
      (afterPacket sim (temp_scanseq rq.ctor_all_timestamps_equal cur color_prt p))
      (acc ++ [fr0]) (by
        intro i hi
        obtain ⟨fr2, h⟩ := hok (i + 1) (by omega)
        refine ⟨fr2, ?_⟩
        have e1 : sim.num_simulate_calls + (i + 1) = sim.num_simulate_calls + 1 + i := by omega
        have e2 : p + (i + 1) = p + 1 + i := by omega
        rw [e1, e2] at h
        simpa [afterPacket] using h)
    refine ⟨fr0 :: frames, ?_, by simp [h2], ?_⟩
    · rw [h1, afterPackets_afterPacket]
      simp
    · intro i fr hget
      cases i with
      | zero =>
        simp only [List.get?_cons_zero, Option.some.injEq] at hget
        rw [← hget, Nat.add_zero, Nat.add_zero]
        exact hfr
      | succ i =>
        rw [List.get?_cons_succ] at hget
        have h := h3 i fr hget
        have e1 : sim.num_simulate_calls + (i + 1) = sim.num_simulate_calls + 1 + i := by omega
        have e2 : p + (i + 1) = p + 1 + i := by omega
        rw [e1, e2]
        simpa [afterPacket] using h

/-- The color statement of a request without a failing call in the loop. -/
theorem colorStage_of_ok_frames (rq : SimRequest) (st : MainWindow)
    (hcolor : rq.enable_color = true)
    (hok : ∀ i, i < rq.color_packet_size.toNat →
      ∃ fr, rq.simulate_lines (st.m_sim.num_simulate_calls + i) (packetSequence rq st i) =
        Except.ok fr) :
    ∃ frames, frames.length = rq.color_packet_size.toNat ∧
      (∀ i fr, frames.get? i = some fr →
        rq.simulate_lines (st.m_sim.num_simulate_calls + i) (packetSequence rq st i) =
          Except.ok fr) ∧
      colorStage rq (newScansequence rq st rq.geometry rq.num_lines rq.all_timestamps_equal) =
        ({ newScansequence rq st rq.geometry rq.num_lines rq.all_timestamps_equal with
           m_sim := afterPackets
             (newScansequence rq st rq.geometry rq.num_lines rq.all_timestamps_equal).m_sim
             (packetSequence rq st) rq.color_packet_size.toNat 0
           m_refresh_worker := st.m_refresh_worker ++
             [WorkTask.ColorDoppler rq.geometry frames rq.qimage_dots_per_meter] },
         Outcome.returned) := by
  obtain ⟨frames, h1, h2, h3⟩ := colorLoop_ok_frames rq (baseSequence rq st)
    (f32div (F32.finite 1) rq.color_prf) rq.color_packet_size.toNat 0
    (newScansequence rq st rq.geometry rq.num_lines rq.all_timestamps_equal).m_sim []
    (by
      intro i hi
      obtain ⟨fr, h⟩ := hok i hi
      refine ⟨fr, ?_⟩
      rw [newScansequence_sim, Nat.zero_add]
      exact h)
  refine ⟨frames, h2, ?_, ?_⟩
  · intro i fr hget
    have h := h3 i fr hget
    rw [newScansequence_sim, Nat.zero_add] at h
    exact h
  · unfold colorStage colorPath
    rw [if_pos hcolor]
    simp only
    have e : colorLoop rq
        (newScansequence rq st rq.geometry rq.num_lines rq.all_timestamps_equal).m_cur_scanseq
        (f32div (F32.finite 1) rq.color_prf) rq.color_packet_size.toNat 0
        (newScansequence rq st rq.geometry rq.num_lines rq.all_timestamps_equal).m_sim [] =
        (afterPackets
          (newScansequence rq st rq.geometry rq.num_lines rq.all_timestamps_equal).m_sim
          (packetSequence rq st) rq.color_packet_size.toNat 0, Except.ok frames) := by
      have := h1
      simpa using this
    rw [e]
    rfl

theorem doSimulation_cur_scanseq (rq : SimRequest) (st : MainWindow) :
    (doSimulation rq st).1.m_cur_scanseq = baseSequence rq st := by
  have hfr := colorStage_frame rq
    (newScansequence rq st rq.geometry rq.num_lines rq.all_timestamps_equal)
  by_cases hret : (colorStage rq (newScansequence rq st rq.geometry rq.num_lines
      rq.all_timestamps_equal)).2 = Outcome.returned
  · rw [doSimulation_of_returned rq st hret, bmodeStage_cur_scanseq]
    unfold stateBeforeBmode
    rw [hfr.2.2.1]
    rfl
  · rw [doSimulation_of_not_returned rq st hret, hfr.2.2.1]
    rfl

theorem temp_scanseq_get (ctor_flag : Bool) (cur : ScanSequence) (color_prt : F32)
    (packet_no k : Nat) (line : Scanline) (h : cur.scanlines.get? k = some line) :
    (temp_scanseq ctor_flag cur color_prt packet_no).scanlines.get? k =
      some { origin := line.origin
             direction := line.direction
             lateral_dir := line.lateral_dir
             timestamp := f32add line.timestamp (f32mul (f32ofInt packet_no) color_prt) } := by
  simp only [temp_scanseq, List.get?_eq_getElem?, List.getElem?_map]
  rw [List.get?_eq_getElem?] at h
  rw [h]
  rfl

theorem bmodeFrame_of_ok (rq : SimRequest) (st : MainWindow) (line : IQ_Line)
    (lines : List IQ_Line) (hb : rq.enable_bmode = true)
    (h : rq.simulate_lines st.m_sim.num_simulate_calls st.m_sim.scan_sequence =
      Except.ok (line :: lines)) : bmodeFrame rq st = some (line :: lines) := by
  unfold bmodeFrame
  rw [if_pos hb, h]

/-- Buffer and timestamps after a request whose color statement was left
normally: those before the request, extended by what the B-mode statement
recorded. -/
theorem doSimulation_buffer_of_returned (rq : SimRequest) (st : MainWindow)
    (hret : (colorStage rq (newScansequence rq st rq.geometry rq.num_lines
      rq.all_timestamps_equal)).2 = Outcome.returned) :
    (doSimulation rq st).1.m_iq_buffer = st.m_iq_buffer ++
      (match bmodeFrame rq (stateBeforeBmode rq st) with
        | some frame => if rq.save_iq then [frame] else []
        | none => []) ∧
    (doSimulation rq st).1.m_iq_buffer_timestamps = st.m_iq_buffer_timestamps ++
      (match bmodeFrame rq (stateBeforeBmode rq st) with
        | some _ => if rq.save_iq then [rq.cur_time] else []
        | none => []) := by
  have hfr := colorStage_frame rq
    (newScansequence rq st rq.geometry rq.num_lines rq.all_timestamps_equal)
  have hb : (stateBeforeBmode rq st).m_iq_buffer = st.m_iq_buffer := by
    unfold stateBeforeBmode
    rw [hfr.1]
    rfl
  have ht : (stateBeforeBmode rq st).m_iq_buffer_timestamps = st.m_iq_buffer_timestamps := by
    unfold stateBeforeBmode
    rw [hfr.2.1]
    rfl
  rw [doSimulation_of_returned rq st hret]
  obtain ⟨_, h2, h3⟩ := bmodeStage_effect rq (stateBeforeBmode rq st)
  rw [h2, h3, hb, ht]
  exact ⟨rfl, rfl⟩

/-- The color statement when the first `simulate_lines` call of the loop throws
something that is not a runtime error: the exception leaves the statement. -/
theorem colorStage_of_other_exception (rq : SimRequest) (st : MainWindow)
    (hcolor : rq.enable_color = true) (hN : 0 < rq.color_packet_size.toNat)
    (herr : rq.simulate_lines st.m_sim.num_simulate_calls
      (temp_scanseq rq.ctor_all_timestamps_equal st.m_cur_scanseq (f32div (F32.finite 1) rq.color_prf) 0) =
        Except.error Thrown.other_exception) :
    colorStage rq st =
      ({ st with
         m_sim := afterPackets st.m_sim
           (temp_scanseq rq.ctor_all_timestamps_equal st.m_cur_scanseq (f32div (F32.finite 1) rq.color_prf))
           1 0 },
       Outcome.escaped_exception) := by
  unfold colorStage colorPath
  rw [if_pos hcolor]
  simp only
  rw [colorLoop_error rq st.m_cur_scanseq (f32div (F32.finite 1) rq.color_prf) rq.color_packet_size.toNat 0
    st.m_sim [] 0 Thrown.other_exception hN
    (fun i hi => absurd hi (Nat.not_lt_zero i)) (by simpa using herr)]

/-- The packet loop, when it completes, has added one frame per iteration. -/
theorem colorLoop_frames_length (rq : SimRequest) (cur : ScanSequence) (color_prt : F32)
    (n p : Nat) (sim : Simulator) (acc frames : List IQ_Frame)
    (h : (colorLoop rq cur color_prt n p sim acc).2 = Except.ok frames) :
    frames.length = acc.length + n := by
  induction n generalizing p sim acc with
  | zero =>
    simp only [colorLoop, Except.ok.injEq] at h
    rw [← h]
    rfl
  | succ n ih =>
    cases hr : rq.simulate_lines sim.num_simulate_calls
        (temp_scanseq rq.ctor_all_timestamps_equal cur color_prt p) with
    | error e =>
      rw [colorLoop_succ_of_error rq cur color_prt n p sim acc e hr] at h
      simp at h
    | ok fr =>
      rw [colorLoop_succ_of_ok rq cur color_prt n p sim acc fr hr] at h
      have := ih (p + 1) _ _ h
      rw [this]
      simp
      omega

/-- The color statement either leaves the queue as it is or appends one
color-Doppler task with as many frames as the loop has iterations. -/
theorem colorStage_queue_length (rq : SimRequest) (st : MainWindow) :
    (colorStage rq st).1.m_refresh_worker = st.m_refresh_worker ∨
    ∃ frames, frames.length = rq.color_packet_size.toNat ∧
      (colorStage rq st).2 = Outcome.returned ∧
      (colorStage rq st).1.m_refresh_worker = st.m_refresh_worker ++
        [WorkTask.ColorDoppler st.m_scan_geometry frames rq.qimage_dots_per_meter] := by
  unfold colorStage
  split
  · unfold colorPath
    simp only
    split
    · rename_i sim frames heq
      right
      refine ⟨frames, ?_, rfl, rfl⟩
      have h := colorLoop_frames_length rq st.m_cur_scanseq (f32div (F32.finite 1) rq.color_prf)
        rq.color_packet_size.toNat 0 st.m_sim [] frames (by rw [heq])
      simpa using h
    · left
      rfl
    · left
      rfl
  · left
    rfl

/-- The tasks of a request: what the color statement submitted, followed by
what the B-mode statement submitted. -/
theorem requestTasks_split (rq : SimRequest) (st : MainWindow) :
    requestTasks rq st = colorTasks rq st ++
      (if (colorStage rq (newScansequence rq st rq.geometry rq.num_lines
          rq.all_timestamps_equal)).2 = Outcome.returned then
        match bmodeFrame rq (stateBeforeBmode rq st) with
        | some frame => [bmodeTask rq (stateBeforeBmode rq st) frame]
        | none => []
      else []) := by
  have hq : ∃ tasks, (stateBeforeBmode rq st).m_refresh_worker = st.m_refresh_worker ++ tasks := by
    unfold stateBeforeBmode
    rcases colorStage_queue rq
      (newScansequence rq st rq.geometry rq.num_lines rq.all_timestamps_equal) with h | ⟨fr, h⟩
    · exact ⟨[], by rw [h]; simp [newScansequence]⟩
    · exact ⟨_, by rw [h]; rfl⟩
  obtain ⟨tasks, htasks⟩ := hq
  have hct : colorTasks rq st = tasks := by
    unfold colorTasks
    rw [htasks, List.drop_left]
  by_cases hret : (colorStage rq (newScansequence rq st rq.geometry rq.num_lines
      rq.all_timestamps_equal)).2 = Outcome.returned
  · rw [if_pos hret, hct]
    unfold requestTasks
    rw [doSimulation_of_returned rq st hret, (bmodeStage_effect rq _).1, htasks,
      List.append_assoc, List.drop_left]
  · rw [if_neg hret, hct, List.append_nil]
    unfold requestTasks
    rw [doSimulation_of_not_returned rq st hret]
    have e : (colorStage rq (newScansequence rq st rq.geometry rq.num_lines
        rq.all_timestamps_equal)).1 = stateBeforeBmode rq st := rfl
    rw [e, htasks, List.drop_left]

/-- The color tasks of a request: none, or one with as many frames as the loop
has iterations. -/
theorem colorTasks_cases (rq : SimRequest) (st : MainWindow) :
    colorTasks rq st = [] ∨
    ∃ frames, frames.length = rq.color_packet_size.toNat ∧
      colorTasks rq st = [WorkTask.ColorDoppler rq.geometry frames rq.qimage_dots_per_meter] := by
  unfold colorTasks stateBeforeBmode
  rcases colorStage_queue_length rq
    (newScansequence rq st rq.geometry rq.num_lines rq.all_timestamps_equal) with h | ⟨fr, hl, _, h⟩
  · left
    rw [h]
    simp [newScansequence]
  · right
    refine ⟨fr, hl, ?_⟩
    rw [h]
    simp [newScansequence]

/-- Every color-Doppler task of a request has as many frames as the loop has
iterations. -/
theorem color_task_frames (rq : SimRequest) (st : MainWindow) (geometry : ScanGeometry)
    (frames : List IQ_Frame) (dpm : ℚ)
    (h : WorkTask.ColorDoppler geometry frames dpm ∈ requestTasks rq st) :
    frames.length = rq.color_packet_size.toNat := by
  rw [requestTasks_split, List.mem_append] at h
  rcases h with h | h
  · rcases colorTasks_cases rq st with hc | ⟨fr, hl, hc⟩
    · rw [hc] at h
      exact absurd h (List.not_mem_nil _)
    · rw [hc, List.mem_singleton] at h
      injection h with _ hfr _
      rw [hfr]
      exact hl
  · split at h
    · split at h
      · rw [List.mem_singleton] at h
        exact WorkTask.noConfusion h
      · exact absurd h (List.not_mem_nil _)
    · exact absurd h (List.not_mem_nil _)

/-! ## loading scatterers: the cases of the two loaders -/

theorem updateWithNewSplineScatterers_sets (file : ScattererFile) (ss : SplineScatterers)
    (w : ScattererWindow) :
    (updateWithNewSplineScatterers file ss w).spline_scatterers = w.spline_scatterers ++ [ss] ∧
    (updateWithNewSplineScatterers file ss w).fixed_scatterers = w.fixed_scatterers := by
  unfold updateWithNewSplineScatterers reset set_max_time set_min_time
  cases file.initializeSplineVisualization_ok <;> exact ⟨rfl, rfl⟩

theorem updateWithNewFixedScatterers_sets (file : ScattererFile) (fs : FixedScatterers)
    (w : ScattererWindow) :
    (updateWithNewFixedScatterers file fs w).fixed_scatterers = w.fixed_scatterers ++ [fs] ∧
    (updateWithNewFixedScatterers file fs w).spline_scatterers = w.spline_scatterers ∧
    (updateWithNewFixedScatterers file fs w).min_time = w.min_time ∧
    (updateWithNewFixedScatterers file fs w).max_time = w.max_time ∧
    (updateWithNewFixedScatterers file fs w).time = w.time := by
  unfold updateWithNewFixedScatterers
  cases file.initializeFixedVisualization_ok <;> exact ⟨rfl, rfl, rfl, rfl, rfl⟩

theorem loadScatterers_both_fail (file : ScattererFile) (w : ScattererWindow) (a b : String)
    (hname : file.h5_file ≠ "")
    (hfixed : file.loadFixedScatterersFromHdf = Except.error (Thrown.runtime_error a))
    (hspline : file.loadSplineScatterersFromHdf = Except.error (Thrown.runtime_error b)) :
    loadScatterers file w =
      ({ w with
         fixed_scatterers := []
         spline_scatterers := []
         m_log_widget := w.m_log_widget ++
           [(LogLevel.WARNING, "Could not read fixed scatterers from file"),
            (LogLevel.WARNING, "Could not read spline scatterers from file")] },
       Outcome.returned) := by
  unfold loadScatterers
  rw [if_neg hname]
  simp only [hfixed]
  unfold loadSplinePart
  simp only [hspline]
  simp [clear_spline_scatterers, clear_fixed_scatterers]

theorem loadScatterers_fixed_fails (file : ScattererFile) (w : ScattererWindow) (a : String)
    (ss : SplineScatterers) (hname : file.h5_file ≠ "")
    (hfixed : file.loadFixedScatterersFromHdf = Except.error (Thrown.runtime_error a))
    (hspline : file.loadSplineScatterersFromHdf = Except.ok ss) :
    loadScatterers file w =
      (updateWithNewSplineScatterers file ss
        { w with
          fixed_scatterers := []
          spline_scatterers := []
          m_log_widget := w.m_log_widget ++
            [(LogLevel.WARNING, "Could not read fixed scatterers from file")] },
       Outcome.returned) := by
  unfold loadScatterers
  rw [if_neg hname]
  simp only [hfixed]
  unfold loadSplinePart
  simp only [hspline]
  rfl

theorem loadScatterers_spline_fails (file : ScattererFile) (w : ScattererWindow)
    (fs : FixedScatterers) (b : String) (hname : file.h5_file ≠ "")
    (hfixed : file.loadFixedScatterersFromHdf = Except.ok fs)
    (hspline : file.loadSplineScatterersFromHdf = Except.error (Thrown.runtime_error b)) :
    loadScatterers file w =
      ({ updateWithNewFixedScatterers file fs
           { w with fixed_scatterers := [], spline_scatterers := [] } with
         m_log_widget :=
           (updateWithNewFixedScatterers file fs
             { w with fixed_scatterers := [], spline_scatterers := [] }).m_log_widget ++
           [(LogLevel.WARNING, "Could not read spline scatterers from file")] },
       Outcome.returned) := by
  unfold loadScatterers
  rw [if_neg hname]
  simp only [hfixed]
  unfold loadSplinePart
  simp only [hspline]
  rfl

/-! ## creating a simulator: unknown types and caught errors -/

theorem createNewSimulator_unknown_type (sim_type : String) (cr : CreateRequest)
    (w : SimulatorWindow) (hauto : sim_type ≠ "auto") (hgpu : sim_type ≠ "gpu")
    (hcpu : sim_type ≠ "cpu") :
    createNewSimulator sim_type cr w =
      ({ w with m_sim := none },
       Except.error
         (Thrown.runtime_error "This should never happen - simulator was not created!")) := by
  unfold createNewSimulator
  rw [if_neg hauto]
  unfold createBackend
  simp [hgpu, hcpu]

theorem onCreateNewSimulator_of_runtime_error (sim_type : String) (cr : CreateRequest)
    (w : SimulatorWindow) (what : String)
    (h : (createNewSimulator sim_type cr w).2 = Except.error (Thrown.runtime_error what)) :
    onCreateNewSimulator true sim_type cr w =
      ({ (createNewSimulator sim_type cr w).1 with
         m_log_widget := (createNewSimulator sim_type cr w).1.m_log_widget ++
           [(LogLevel.INFO, "onCreateNewSimulator: caught exception: " ++ what)]
         quit_requested := true },
       Outcome.returned) := by
  unfold onCreateNewSimulator
  rw [if_pos rfl]
  rcases hc : createNewSimulator sim_type cr w with ⟨w1, r⟩
  rw [hc] at h
  simp only at h
  subst h
  rfl

theorem onCreateNewSimulator_of_ok (sim_type : String) (cr : CreateRequest)
    (w : SimulatorWindow)
    (h : (createNewSimulator sim_type cr w).2 = Except.ok ()) :
    onCreateNewSimulator true sim_type cr w =
      ((createNewSimulator sim_type cr w).1, Outcome.returned) := by
  unfold onCreateNewSimulator
  rw [if_pos rfl]
  rcases hc : createNewSimulator sim_type cr w with ⟨w1, r⟩
  rw [hc] at h
  simp only at h
  subst h
  rfl

theorem createBackend_quit_requested (sim_type : String) (force_gpu force_cpu : Bool)
    (cr : CreateRequest) (w : SimulatorWindow) :
    (createBackend sim_type force_gpu force_cpu cr w).1.quit_requested = w.quit_requested := by
  rcases w with ⟨m, q, l⟩
  unfold createBackend
  split_ifs
  · cases cr.Create SimKind.gpu <;> cases cr.set_parameter SimKind.gpu <;> cases m <;> rfl
  · cases cr.Create SimKind.cpu <;> cases cr.set_parameter SimKind.cpu <;> cases m <;> rfl
  · cases m <;> rfl

theorem createNewSimulator_quit_requested (sim_type : String) (cr : CreateRequest)
    (w : SimulatorWindow) :
    (createNewSimulator sim_type cr w).1.quit_requested = w.quit_requested := by
  unfold createNewSimulator
  split_ifs
  · cases cr.get_gpu_name
    · rfl
    · exact createBackend_quit_requested _ _ _ _ _
  · exact createBackend_quit_requested _ _ _ _ _
  · exact createBackend_quit_requested _ _ _ _ _

/-! ## the read of line 0 in the B-mode statement -/

/-- The B-mode branch on a call that returns `frame`: left with `out_of_bounds`
when the frame has no line 0, normally otherwise. -/
theorem bmodePath_outcome_of_ok (rq : SimRequest) (st : MainWindow) (frame : IQ_Frame)
    (h : rq.simulate_lines st.m_sim.num_simulate_calls st.m_sim.scan_sequence =
      Except.ok frame) :
    (bmodePath rq st).2 =
      (match frame.get? 0 with
        | none => Outcome.out_of_bounds
        | some _ => Outcome.returned) := by
  unfold bmodePath
  simp only [Simulator.simulate_lines, h]
  cases frame with
  | nil => rfl
  | cons line lines => rfl

theorem bmodeFrame_of_empty (rq : SimRequest) (st : MainWindow)
    (h : rq.simulate_lines st.m_sim.num_simulate_calls st.m_sim.scan_sequence =
      Except.ok []) : bmodeFrame rq st = none := by
  unfold bmodeFrame
  rw [h]
  simp

/-! ## the exits of the export -/

/-- A call of the export that writes a file has passed the three guards with a
working HDF5 library, and ends with `onResetIqBuffer`. -/
theorem onSaveIqBufferAs_of_wrote (h5_file : String) (h5_ok : Bool) (st : MainWindow)
    (h : (onSaveIqBufferAs h5_file h5_ok st).2.wroteFile = true) :
    st.m_iq_buffer_timestamps.length = st.m_iq_buffer.length ∧ st.m_iq_buffer ≠ [] ∧
    h5_file ≠ "" ∧ h5_ok = true ∧
    (onSaveIqBufferAs h5_file h5_ok st).1 = onResetIqBuffer st := by
  unfold onSaveIqBufferAs at h ⊢
  simp only at h ⊢
  split at h
  · exact absurd h (by simp [SaveOutcome.wroteFile])
  · rename_i h1
    split at h
    · exact absurd h (by simp [SaveOutcome.wroteFile])
    · rename_i h2
      split at h
      · exact absurd h (by simp [SaveOutcome.wroteFile])
      · rename_i h3
        have hts : st.m_iq_buffer_timestamps.length = st.m_iq_buffer.length := by
          by_contra hc
          exact h1 hc
        have hF : st.m_iq_buffer ≠ [] := by
          intro hc
          apply h2
          rw [hc]
          rfl
        rw [if_neg h1, if_neg h2, if_neg h3]
        split at h
        · exact absurd h (by simp [SaveOutcome.wroteFile])
        · rename_i frame hfr
          split at h
          · exact absurd h (by simp [SaveOutcome.wroteFile])
          · rename_i line0 hl0
            split at h
            · exact absurd h (by simp [SaveOutcome.wroteFile])
            · rename_i iq hiq
              split at h
              · rename_i hok
                refine ⟨hts, hF, h3, hok, ?_⟩
                simp only [hfr, hl0, hiq, hok, if_true]
              · exact absurd h (by simp [SaveOutcome.wroteFile])

/-- The export of an empty buffer. -/
theorem onSaveIqBufferAs_of_no_frames (h5_file : String) (h5_ok : Bool) (st : MainWindow)
    (hb : st.m_iq_buffer = []) (ht : st.m_iq_buffer_timestamps = []) :
    onSaveIqBufferAs h5_file h5_ok st =
      ({ st with m_log_widget := st.m_log_widget ++
          [(LogLevel.WARNING, "No frames in buffer. Skipping")] },
        SaveOutcome.no_frames) := by
  unfold onSaveIqBufferAs
  simp [hb, ht]

/-- The export when the file dialog is shown and left without a name. -/
theorem onSaveIqBufferAs_of_no_name (h5_ok : Bool) (st : MainWindow)
    (hts : st.m_iq_buffer_timestamps.length = st.m_iq_buffer.length)
    (hF : st.m_iq_buffer ≠ []) :
    onSaveIqBufferAs "" h5_ok st =
      ({ st with m_log_widget := st.m_log_widget ++
          [(LogLevel.WARNING, "Ignoring IQ buffer save")] },
        SaveOutcome.no_file_name) := by
  have hlen : st.m_iq_buffer.length ≠ 0 := by
    intro hc
    exact hF (List.eq_nil_of_length_eq_zero hc)
  unfold onSaveIqBufferAs
  simp [hts, hlen]

/-- The loader on a container whose two datasets are rank-3 arrays of equal
extents `A x B x C`. -/
theorem load_iq_frames_of_rank3 (container : H5File) (re im : H5Dataset) (A B C : Nat)
    (hre : container.lookup "sim_data_real" = some re)
    (him : container.lookup "sim_data_imag" = some im)
    (hdre : re.dims = [A, B, C]) (hdim : im.dims = [A, B, C]) :
    load_iq_frames container =
      Except.ok ((List.range A).map fun frame_no =>
        (List.range C).map fun i =>
          (List.range B).map fun n =>
            (re.elem [frame_no, n, i], im.elem [frame_no, n, i])) := by
  simp [load_iq_frames, getDimensions, readMultiArray, bind, Except.bind, hre, him, hdre, hdim,
    pure, Except.pure]

/-- The loader on a container whose two datasets are rank-2 arrays of equal
extents `B x C`. -/
theorem load_iq_frames_of_rank2 (container : H5File) (re im : H5Dataset) (B C : Nat)
    (hre : container.lookup "sim_data_real" = some re)
    (him : container.lookup "sim_data_imag" = some im)
    (hdre : re.dims = [B, C]) (hdim : im.dims = [B, C]) :
    load_iq_frames container =
      Except.ok [(List.range C).map fun i =>
        (List.range B).map fun n => (re.elem [n, i], im.elem [n, i])] := by
  simp [load_iq_frames, getDimensions, readMultiArray, bind, Except.bind, hre, him, hdre, hdim,
    pure, Except.pure]

/-- The slot when the loader returns frames: one B-mode task per frame, in the
order of the frames, appended to the queue. -/
theorem onLoadSimulatedData_of_ok (grayscale : GrayscaleSettings) (dpm : ℚ) (h5_file : String)
    (container : H5File) (st : MainWindow) (iq_frames : List IQ_Frame) (hname : h5_file ≠ "")
    (h : load_iq_frames container = Except.ok iq_frames) :
    (onLoadSimulatedData grayscale dpm h5_file container st).2 = LoadOutcome.loaded iq_frames ∧
    (onLoadSimulatedData grayscale dpm h5_file container st).1.m_refresh_worker =
      st.m_refresh_worker ++ iq_frames.map fun frame =>
        WorkTask.BMode st.m_scan_geometry frame grayscale.normalization_const
          grayscale.auto_normalize dpm grayscale.dyn_range grayscale.gain := by
  unfold onLoadSimulatedData
  simp [hname, h]

/-- The slot when the loader raises: the exception leaves the slot before the
task loop. -/
theorem onLoadSimulatedData_of_error (grayscale : GrayscaleSettings) (dpm : ℚ)
    (h5_file : String) (container : H5File) (st : MainWindow) (what : String)
    (hname : h5_file ≠ "") (h : load_iq_frames container = Except.error what) :
    (onLoadSimulatedData grayscale dpm h5_file container st).2 = LoadOutcome.raised what ∧
    (onLoadSimulatedData grayscale dpm h5_file container st).1.m_refresh_worker =
      st.m_refresh_worker := by
  unfold onLoadSimulatedData
  simp [hname, h]

/-- The loader on datasets of different rank. -/
theorem load_iq_frames_of_rank_mismatch (container : H5File) (re im : H5Dataset)
    (hre : container.lookup "sim_data_real" = some re)
    (him : container.lookup "sim_data_imag" = some im)
    (hrank : re.dims.length ≠ im.dims.length) :
    load_iq_frames container = Except.error "real/imag rank mismatch" := by
  have hrank2 : im.dims.length ≠ re.dims.length := fun h => hrank h.symm
  simp [load_iq_frames, getDimensions, readMultiArray, bind, Except.bind, hre, him, hrank2,
    throw, throwThe, MonadExceptOf.throw]

/-- The loader on datasets of equal rank other than 2 and 3. -/
theorem load_iq_frames_of_other_rank (container : H5File) (re im : H5Dataset)
    (hre : container.lookup "sim_data_real" = some re)
    (him : container.lookup "sim_data_imag" = some im)
    (hrank : re.dims.length = im.dims.length)
    (h2 : re.dims.length ≠ 2) (h3 : re.dims.length ≠ 3) :
    load_iq_frames container = Except.error "sim_data must have rank 2 or 3" := by
  have h2i : im.dims.length ≠ 2 := hrank ▸ h2
  have h3i : im.dims.length ≠ 3 := hrank ▸ h3
  simp [load_iq_frames, getDimensions, readMultiArray, bind, Except.bind, hre, him, hrank, h2i,
    h3i, throw, throwThe, MonadExceptOf.throw, pure, Except.pure]

/-- The loader on datasets of equal rank that differ in the size of dimension
`k`: one of the runtime errors of the slot is raised. -/
theorem load_iq_frames_of_dim_mismatch (container : H5File) (re im : H5Dataset)
    (hre : container.lookup "sim_data_real" = some re)
    (him : container.lookup "sim_data_imag" = some im)
    (hrank : re.dims.length = im.dims.length) (k : Nat) (hk : k < re.dims.length)
    (hne : re.dims.getD k 0 ≠ im.dims.getD k 0) :
    ∃ what, load_iq_frames container = Except.error what ∧ what ∈ load_runtime_errors := by
  by_cases h3 : re.dims.length = 3
  · obtain ⟨a, b, c, hdre⟩ := List.length_eq_three.mp h3
    obtain ⟨a2, b2, c2, hdim⟩ := List.length_eq_three.mp (hrank ▸ h3)
    rw [hdre] at hk hne
    rw [hdim] at hne
    have hcase : a2 ≠ a ∨ b2 ≠ b ∨ c2 ≠ c := by
      have hk3 : k = 0 ∨ k = 1 ∨ k = 2 := by
        simp at hk
        omega
      rcases hk3 with rfl | rfl | rfl
      · left
        intro h
        exact hne (by simp [h])
      · right
        left
        intro h
        exact hne (by simp [h])
      · right
        right
        intro h
        exact hne (by simp [h])
    by_cases ha : a2 = a
    · by_cases hb : b2 = b
      · have hc : c2 ≠ c := by
          rcases hcase with h | h | h
          · exact absurd ha h
          · exact absurd hb h
          · exact h
        exact ⟨"real/imag mismatch in dimension 2", by
          simp [load_iq_frames, getDimensions, readMultiArray, bind, Except.bind, hre, him, hdre,
            hdim, ha, hb, hc, throw, throwThe, MonadExceptOf.throw, pure, Except.pure],
          by decide⟩
      · exact ⟨"real/imag mismatch in dimension 1", by
          simp [load_iq_frames, getDimensions, readMultiArray, bind, Except.bind, hre, him, hdre,
            hdim, ha, hb, throw, throwThe, MonadExceptOf.throw, pure, Except.pure],
          by decide⟩
    · exact ⟨"real/imag mismatch in dimension 0", by
        simp [load_iq_frames, getDimensions, readMultiArray, bind, Except.bind, hre, him, hdre,
          hdim, ha, throw, throwThe, MonadExceptOf.throw, pure, Except.pure],
        by decide⟩
  · by_cases h2 : re.dims.length = 2
    · obtain ⟨a, b, hdre⟩ := List.length_eq_two.mp h2
      obtain ⟨a2, b2, hdim⟩ := List.length_eq_two.mp (hrank ▸ h2)
      rw [hdre] at hk hne
      rw [hdim] at hne
      have hcase : a2 ≠ a ∨ b2 ≠ b := by
        have hk2 : k = 0 ∨ k = 1 := by
          simp at hk
          omega
        rcases hk2 with rfl | rfl
        · left
          intro h
          exact hne (by simp [h])
        · right
          intro h
          exact hne (by simp [h])
      by_cases ha : a2 = a
      · have hb : b2 ≠ b := by
          rcases hcase with h | h
          · exact absurd ha h
          · exact h
        exact ⟨"real/imag mismatch in dimension 1", by
          simp [load_iq_frames, getDimensions, readMultiArray, bind, Except.bind, hre, him, hdre,
            hdim, ha, hb, throw, throwThe, MonadExceptOf.throw, pure, Except.pure],
          by decide⟩
      · exact ⟨"real/imag mismatch in dimension 0", by
          simp [load_iq_frames, getDimensions, readMultiArray, bind, Except.bind, hre, him, hdre,
            hdim, ha, throw, throwThe, MonadExceptOf.throw, pure, Except.pure],
          by decide⟩
    · exact ⟨"sim_data must have rank 2 or 3",
        load_iq_frames_of_other_rank container re im hre him hrank h2 h3, by decide⟩

theorem get?_map_range {α : Type} (g : Nat → α) (n i : Nat) (h : i < n) :
    ((List.range n).map g).get? i = some (g i) := by
  simp [List.get?_eq_getElem?, List.getElem?_range, h]

/-! ## creating a simulator: which engine `m_sim` points to -/

/-- The engine after the creation statements, started with a null `m_sim`. -/
theorem createBackend_m_sim (sim_type : String) (force_gpu force_cpu : Bool)
    (cr : CreateRequest) (w : SimulatorWindow) (hw : w.m_sim = none) :
    (createBackend sim_type force_gpu force_cpu cr w).1.m_sim =
      if sim_type = "gpu" ∨ force_gpu = true then
        (match cr.Create SimKind.gpu with
          | Except.ok _ => some SimKind.gpu
          | Except.error _ => none)
      else if sim_type = "cpu" ∨ force_cpu = true then
        (match cr.Create SimKind.cpu with
          | Except.ok _ => some SimKind.cpu
          | Except.error _ => none)
      else none := by
  rcases w with ⟨m, q, l⟩
  simp only at hw
  subst hw
  unfold createBackend
  split_ifs
  · cases cr.Create SimKind.gpu <;> cases cr.set_parameter SimKind.gpu <;> rfl
  · cases cr.Create SimKind.cpu <;> cases cr.set_parameter SimKind.cpu <;> rfl
  · rfl

/-- The engine after `createNewSimulator` is a GPU engine exactly when the type
asks for one (`gpu`, or `auto` on a build with GPU support), the name query of
the `auto` case does not throw, and `bcsim::Create("gpu")` returns. -/
theorem createNewSimulator_m_sim_gpu (sim_type : String) (cr : CreateRequest)
    (w : SimulatorWindow) :
    (createNewSimulator sim_type cr w).1.m_sim = some SimKind.gpu ↔
      (sim_type = "gpu" ∨ (sim_type = "auto" ∧ cr.built_with_gpu_support = true)) ∧
      (sim_type = "auto" → ∃ name, cr.get_gpu_name = Except.ok name) ∧
      cr.Create SimKind.gpu = Except.ok () := by
  unfold createNewSimulator
  by_cases hauto : sim_type = "auto"
  · subst hauto
    cases hb : cr.built_with_gpu_support
    · simp only [if_true, Bool.false_eq_true, if_false]
      rw [createBackend_m_sim _ _ _ _ _ rfl]
      cases cr.Create SimKind.cpu <;> simp
    · simp only [if_true]
      cases hn : cr.get_gpu_name with
      | error e => simp
      | ok name =>
        simp only
        rw [createBackend_m_sim _ _ _ _ _ rfl]
        cases cr.Create SimKind.gpu <;> simp
  · rw [if_neg hauto, createBackend_m_sim _ _ _ _ _ rfl]
    by_cases hg : sim_type = "gpu"
    · subst hg
      cases cr.Create SimKind.gpu <;> simp
    · by_cases hc : sim_type = "cpu"
      · subst hc
        cases cr.Create SimKind.cpu <;> simp
      · simp [hauto, hg, hc]

/-- The engine after `createNewSimulator` is a CPU engine exactly when the type
asks for one (`cpu`, or `auto` on a build without GPU support) and
`bcsim::Create("cpu")` returns. -/
theorem createNewSimulator_m_sim_cpu (sim_type : String) (cr : CreateRequest)
    (w : SimulatorWindow) :
    (createNewSimulator sim_type cr w).1.m_sim = some SimKind.cpu ↔
      (sim_type = "cpu" ∨ (sim_type = "auto" ∧ cr.built_with_gpu_support = false)) ∧
      cr.Create SimKind.cpu = Except.ok () := by
  unfold createNewSimulator
  by_cases hauto : sim_type = "auto"
  · subst hauto
    cases hb : cr.built_with_gpu_support
    · simp only [if_true, Bool.false_eq_true, if_false]
      rw [createBackend_m_sim _ _ _ _ _ rfl]
      cases cr.Create SimKind.cpu <;> simp
    · simp only [if_true]
      cases hn : cr.get_gpu_name with
      | error e => simp
      | ok name =>
        simp only
        rw [createBackend_m_sim _ _ _ _ _ rfl]
        cases cr.Create SimKind.gpu <;> simp
  · rw [if_neg hauto, createBackend_m_sim _ _ _ _ _ rfl]
    by_cases hg : sim_type = "gpu"
    · subst hg
      cases cr.Create SimKind.gpu <;> simp
    · by_cases hc : sim_type = "cpu"
      · subst hc
        cases cr.Create SimKind.cpu <;> simp
      · simp [hauto, hg, hc]

/-- A throwing name query, made for the type `auto` on a build with GPU
support, leaves `createNewSimulator` before an engine is created. -/
theorem createNewSimulator_of_name_error (cr : CreateRequest) (w : SimulatorWindow) (e : Thrown)
    (hb : cr.built_with_gpu_support = true) (hn : cr.get_gpu_name = Except.error e) :
    createNewSimulator "auto" cr w = ({ w with m_sim := none }, Except.error e) := by
  unfold createNewSimulator
  simp only [if_true, hb, hn]

/-- A throwing `bcsim::Create("gpu")` leaves the creation statements with the
window as it was. -/
theorem createBackend_of_create_gpu_error (sim_type : String) (force_gpu force_cpu : Bool)
    (cr : CreateRequest) (w : SimulatorWindow) (e : Thrown)
    (hsel : sim_type = "gpu" ∨ force_gpu = true) (hc : cr.Create SimKind.gpu = Except.error e) :
    createBackend sim_type force_gpu force_cpu cr w = (w, Except.error e) := by
  unfold createBackend
  simp only [if_pos hsel, hc]

/-- A throwing `bcsim::Create("cpu")` leaves the creation statements with the
window as it was. -/
theorem createBackend_of_create_cpu_error (sim_type : String) (force_gpu force_cpu : Bool)
    (cr : CreateRequest) (w : SimulatorWindow) (e : Thrown)
    (hnot : ¬ (sim_type = "gpu" ∨ force_gpu = true))
    (hsel : sim_type = "cpu" ∨ force_cpu = true) (hc : cr.Create SimKind.cpu = Except.error e) :
    createBackend sim_type force_gpu force_cpu cr w = (w, Except.error e) := by
  unfold createBackend
  simp only [if_neg hnot, if_pos hsel, hc]

/-- When the type asks for a GPU engine, the name query of the `auto` case
returns and `bcsim::Create("gpu")` throws, `createNewSimulator` is left by that
exception with a null `m_sim`. -/
theorem createNewSimulator_of_create_gpu_error (sim_type : String) (cr : CreateRequest)
    (w : SimulatorWindow) (e : Thrown)
    (hsel : sim_type = "gpu" ∨ (sim_type = "auto" ∧ cr.built_with_gpu_support = true))
    (hname : sim_type = "auto" → ∃ name, cr.get_gpu_name = Except.ok name)
    (hc : cr.Create SimKind.gpu = Except.error e) :
    createNewSimulator sim_type cr w = ({ w with m_sim := none }, Except.error e) := by
  unfold createNewSimulator
  by_cases hauto : sim_type = "auto"
  · obtain ⟨name, hn⟩ := hname hauto
    have hb : cr.built_with_gpu_support = true := by
      rcases hsel with h | h
      · rw [hauto] at h
        exact absurd h (by decide)
      · exact h.2
    simp only [if_pos hauto, hb, if_true, hn]
    exact createBackend_of_create_gpu_error sim_type true false cr _ e (Or.inr rfl) hc
  · have hg : sim_type = "gpu" := by
      rcases hsel with h | h
      · exact h
      · exact absurd h.1 hauto
    rw [if_neg hauto]
    exact createBackend_of_create_gpu_error sim_type false false cr _ e (Or.inl hg) hc

/-- When the type asks for a CPU engine and `bcsim::Create("cpu")` throws,
`createNewSimulator` is left by that exception with a null `m_sim`. -/
theorem createNewSimulator_of_create_cpu_error (sim_type : String) (cr : CreateRequest)
    (w : SimulatorWindow) (e : Thrown)
    (hsel : sim_type = "cpu" ∨ (sim_type = "auto" ∧ cr.built_with_gpu_support = false))
    (hc : cr.Create SimKind.cpu = Except.error e) :
    createNewSimulator sim_type cr w = ({ w with m_sim := none }, Except.error e) := by
  unfold createNewSimulator
  by_cases hauto : sim_type = "auto"
  · have hb : cr.built_with_gpu_support = false := by
      rcases hsel with h | h
      · rw [hauto] at h
        exact absurd h (by decide)
      · exact h.2
    simp only [if_pos hauto, hb, Bool.false_eq_true, if_false]
    exact createBackend_of_create_cpu_error sim_type false true cr _ e
      (by rw [hauto]; decide) (Or.inr rfl) hc
  · have hcpu : sim_type = "cpu" := by
      rcases hsel with h | h
      · exact h
      · exact absurd h.1 hauto
    rw [if_neg hauto]
    exact createBackend_of_create_cpu_error sim_type false false cr _ e
      (by rw [hcpu]; decide) (Or.inl hcpu) hc

/-! ## the packet timestamps of the example requests -/

theorem exampleRequest_base :
    (baseSequence exampleRequest exampleWindow).scanlines = [exampleLine 0, exampleLine 0] := by
  simp [baseSequence, newScansequence, exampleRequest, List.replicate]

theorem lateRequest_base :
    (baseSequence lateRequest exampleWindow).scanlines =
      [exampleLine 8192, exampleLine 8192] := by
  simp [baseSequence, newScansequence, lateRequest, exampleRequest, List.replicate]

theorem tinyPrfRequest_base :
    (baseSequence tinyPrfRequest exampleWindow).scanlines = [exampleLine 0, exampleLine 0] := by
  simp [baseSequence, newScansequence, tinyPrfRequest, exampleRequest, List.replicate]

/-- The timestamps of packets 0 to 3 of `exampleRequest`. -/
theorem exampleRequest_timestamps :
    (packetSequence exampleRequest exampleWindow 0).scanlines.map Scanline.timestamp =
      [F32.finite 0, F32.finite 0] ∧
    (packetSequence exampleRequest exampleWindow 1).scanlines.map Scanline.timestamp =
      [F32.finite (13743895 / 34359738368), F32.finite (13743895 / 34359738368)] ∧
    (packetSequence exampleRequest exampleWindow 2).scanlines.map Scanline.timestamp =
      [F32.finite (13743895 / 17179869184), F32.finite (13743895 / 17179869184)] ∧
    (packetSequence exampleRequest exampleWindow 3).scanlines.map Scanline.timestamp =
      [F32.finite (10307921 / 8589934592), F32.finite (10307921 / 8589934592)] := by
  have hprf : exampleRequest.color_prf = F32.finite 2500 := rfl
  obtain ⟨h0, h1, h2, h3⟩ := packetTimestamp_0_2500
  refine ⟨?_, ?_, ?_, ?_⟩
  · rw [packetSequence_timestamps, hprf, exampleRequest_base]
    simp only [List.map_cons, List.map_nil, exampleLine, h0]
  · rw [packetSequence_timestamps, hprf, exampleRequest_base]
    simp only [List.map_cons, List.map_nil, exampleLine, h1]
  · rw [packetSequence_timestamps, hprf, exampleRequest_base]
    simp only [List.map_cons, List.map_nil, exampleLine, h2]
  · rw [packetSequence_timestamps, hprf, exampleRequest_base]
    simp only [List.map_cons, List.map_nil, exampleLine, h3]

/-- The timestamps of packets 0 and 1 of `lateRequest`: all 8192. -/
theorem lateRequest_timestamps :
    (packetSequence lateRequest exampleWindow 0).scanlines.map Scanline.timestamp =
      [F32.finite 8192, F32.finite 8192] ∧
    (packetSequence lateRequest exampleWindow 1).scanlines.map Scanline.timestamp =
      [F32.finite 8192, F32.finite 8192] := by
  have hprf : lateRequest.color_prf = F32.finite 2500 := rfl
  obtain ⟨h0, h1⟩ := packetTimestamp_8192_2500
  refine ⟨?_, ?_⟩
  · rw [packetSequence_timestamps, hprf, lateRequest_base]
    simp only [List.map_cons, List.map_nil, exampleLine, h0]
  · rw [packetSequence_timestamps, hprf, lateRequest_base]
    simp only [List.map_cons, List.map_nil, exampleLine, h1]

/-- The timestamps of packets 0 and 1 of `tinyPrfRequest`: NaN and `+inf`. -/
theorem tinyPrfRequest_timestamps :
    (packetSequence tinyPrfRequest exampleWindow 0).scanlines.map Scanline.timestamp =
      [F32.nan, F32.nan] ∧
    (packetSequence tinyPrfRequest exampleWindow 1).scanlines.map Scanline.timestamp =
      [F32.inf false, F32.inf false] := by
  have hprf : tinyPrfRequest.color_prf = F32.finite (1 / 2 ^ 149) := rfl
  obtain ⟨_, h0, h1⟩ := packetOffset_tiny
  refine ⟨?_, ?_⟩
  · rw [packetSequence_timestamps, hprf, tinyPrfRequest_base]
    simp only [List.map_cons, List.map_nil, exampleLine, h0]
    rfl
  · rw [packetSequence_timestamps, hprf, tinyPrfRequest_base]
    simp only [List.map_cons, List.map_nil, exampleLine, h1]
    rfl

/-- Line 0 of the sequence of packet 3 of `exampleRequest`. -/
theorem exampleRequest_packet3_line :
    (packetSequence exampleRequest exampleWindow 3).scanlines.get? 0 =
      some { exampleLine 0 with timestamp := F32.finite (10307921 / 8589934592) } := by
  have h := temp_scanseq_get exampleRequest.ctor_all_timestamps_equal
    (baseSequence exampleRequest exampleWindow)
    (f32div (F32.finite 1) exampleRequest.color_prf) 3 0 (exampleLine 0)
    (by rw [exampleRequest_base]; rfl)
  have ht : f32add (exampleLine 0).timestamp
      (f32mul (f32ofInt ((3 : ℕ) : ℤ)) (f32div (F32.finite 1) exampleRequest.color_prf)) =
      F32.finite (10307921 / 8589934592) := packetTimestamp_0_2500.2.2.2
  rw [ht] at h
  exact h

/-- The timestamp of line `k` in the sequence of packet `i`. -/
theorem packetSequence_line (rq : SimRequest) (st : MainWindow) (i k : Nat)
    (line li : Scanline) (hb : (baseSequence rq st).scanlines.get? k = some line)
    (hi : (packetSequence rq st i).scanlines.get? k = some li) :
    li.timestamp = f32add line.timestamp (packetOffset rq.color_prf i) := by
  have e := packetSequence_get rq st i k
  rw [hb, hi] at e
  simpa using e

/-- A line of a packet sequence comes from a line of the base sequence. -/
theorem packetSequence_line_base (rq : SimRequest) (st : MainWindow) (i k : Nat)
    (li : Scanline) (hi : (packetSequence rq st i).scanlines.get? k = some li) :
    ∃ line, (baseSequence rq st).scanlines.get? k = some line := by
  have e := packetSequence_get rq st i k
  rw [hi] at e
  cases hb : (baseSequence rq st).scanlines.get? k with
  | none =>
    rw [hb] at e
    simp at e
  | some line => exact ⟨line, rfl⟩

/-- C1 fails as stated.  Timestamps are `float` values, and each operation of
`base + packet_no * (1.0f / f)` is rounded.  On `lateRequest` (PRF 2500, base
timestamps 8192 s) the sequence installed for packet 1 carries the base
timestamp 8192 itself, not `8192 + 1 / 2500`.  On `exampleRequest` (PRF 2500,
base timestamps 0) the timestamp of packet 1 is the binary32 value
`13743895 / 2 ^ 35`, not 0.0004.  On `tinyPrfRequest` (the positive PRF
`2 ^ (-149)`) the quotient `1.0f / f` is `+inf`, the offset `0 * inf` of
packet 0 is NaN, and packet 0 does not keep the base timestamps. -/
theorem packet_timestamps_are_rounded :
    (installedSequences (requestCalls lateRequest exampleWindow)).get? 2 =
      some (packetSequence lateRequest exampleWindow 1) ∧
    (baseSequence lateRequest exampleWindow).scanlines.map Scanline.timestamp =
      [F32.finite 8192, F32.finite 8192] ∧
    (packetSequence lateRequest exampleWindow 1).scanlines.map Scanline.timestamp =
      [F32.finite 8192, F32.finite 8192] ∧
    F32.finite 8192 ≠ F32.finite (8192 + 1 * (1 / 2500)) ∧
    (installedSequences (requestCalls exampleRequest exampleWindow)).get? 2 =
      some (packetSequence exampleRequest exampleWindow 1) ∧
    (packetSequence exampleRequest exampleWindow 1).scanlines.map Scanline.timestamp =
      [F32.finite (13743895 / 34359738368), F32.finite (13743895 / 34359738368)] ∧
    F32.finite (13743895 / 34359738368) ≠ F32.finite (0 + 1 * (1 / 2500)) ∧
    (installedSequences (requestCalls tinyPrfRequest exampleWindow)).get? 1 =
      some (packetSequence tinyPrfRequest exampleWindow 0) ∧
    (baseSequence tinyPrfRequest exampleWindow).scanlines.map Scanline.timestamp =
      [F32.finite 0, F32.finite 0] ∧
    (packetSequence tinyPrfRequest exampleWindow 0).scanlines.map Scanline.timestamp =
      [F32.nan, F32.nan] := by
  refine ⟨?_, ?_, lateRequest_timestamps.2, ?_, ?_, exampleRequest_timestamps.2.1, ?_, ?_, ?_,
    tinyPrfRequest_timestamps.1⟩
  · exact installed_reach lateRequest exampleWindow 1 rfl (by decide) (fun _ _ => ⟨_, rfl⟩)
  · rw [lateRequest_base]
    rfl
  · intro h
    have := F32.finite.inj h
    norm_num at this
  · exact installed_reach exampleRequest exampleWindow 1 rfl (by decide) (fun _ _ => ⟨_, rfl⟩)
  · intro h
    have := F32.finite.inj h
    norm_num at this
  · exact installed_reach tinyPrfRequest exampleWindow 0 rfl (by decide)
      (fun q hq => absurd hq (Nat.not_lt_zero q))
  · rw [tinyPrfRequest_base]
    rfl

/-- C1, amended.  Color-Doppler path of `doSimulation`, packet size at least 1,
packet index `i` below the packet size.  Every scan sequence installed on the
engine for packet `i` has as many lines as the rebuilt base sequence and gives
line `k` the `float` value of `base_timestamp(k) + i * (1.0f / f)`, each of the
three operations and the conversion of `i` rounded to binary32; the sequence of
packet `i` is installed whenever the simulate calls of the packets before it
succeeded.  For a positive finite PRF `f` whose quotient `1.0f / f` is finite,
packet 0 keeps every base timestamp that is a finite `float`.  For a PRF with
`2 ^ (-126) ≤ f ≤ 2 ^ 126` and `i < 2 ^ 24`, a finite timestamp of packet `i`
differs from the exact `base_timestamp(k) + i * (1 / f)` by at most half a grid
step at the sum plus `3 * 2 ^ (-24)` of the offset `i / f`.  For `f = 2500`
the `float` offsets of packets 0 to 3 are 0 and three binary32 values within
`1e-10` of 0.0004, 0.0008 and 0.0012. -/
theorem color_packet_timestamps (rq : SimRequest) (st : MainWindow) (i : Nat)
    (hcolor : rq.enable_color = true) (hN : 1 ≤ rq.color_packet_size)
    (hi : (i : ℤ) < rq.color_packet_size) :
    (∀ seq, (installedSequences (requestCalls rq st)).get? (i + 1) = some seq →
      seq.scanlines.length = (baseSequence rq st).scanlines.length ∧
      ∀ k line, (baseSequence rq st).scanlines.get? k = some line →
        (seq.scanlines.get? k).map Scanline.timestamp =
          some (f32add line.timestamp
            (f32mul (f32ofInt i) (f32div (F32.finite 1) rq.color_prf)))) ∧
    ((∀ q, q < i → ∃ fr, rq.simulate_lines (st.m_sim.num_simulate_calls + q)
        (packetSequence rq st q) = Except.ok fr) →
      ∃ seq, (installedSequences (requestCalls rq st)).get? (i + 1) = some seq) ∧
    (∃ seq0, (installedSequences (requestCalls rq st)).get? 1 = some seq0 ∧
      ∀ f, rq.color_prf = F32.finite f → 0 < f → f32round (1 / f) ≤ FLT_MAX →
        ∀ k line b, (baseSequence rq st).scanlines.get? k = some line →
          line.timestamp = F32.finite b → f32round b = b → |b| ≤ FLT_MAX →
          (seq0.scanlines.get? k).map Scanline.timestamp = some line.timestamp) ∧
    (∀ seq f, (installedSequences (requestCalls rq st)).get? (i + 1) = some seq →
      rq.color_prf = F32.finite f → (2 : ℚ) ^ (-126 : ℤ) ≤ f → f ≤ (2 : ℚ) ^ (126 : ℤ) →
      i < 2 ^ 24 →
      ∀ k line li b t, (baseSequence rq st).scanlines.get? k = some line →
        seq.scanlines.get? k = some li → line.timestamp = F32.finite b →
        li.timestamp = F32.finite t →
        |t - (b + i * (1 / f))| ≤
          f32ulp (b + offsetValue f i) / 2 + 3 * (2 : ℚ) ^ (-24 : ℤ) * (i * (1 / f))) ∧
    (f32mul (f32ofInt 0) (f32div (F32.finite 1) (F32.finite 2500)) = F32.finite 0 ∧
      f32mul (f32ofInt 1) (f32div (F32.finite 1) (F32.finite 2500)) =
        F32.finite (13743895 / 34359738368) ∧
      f32mul (f32ofInt 2) (f32div (F32.finite 1) (F32.finite 2500)) =
        F32.finite (13743895 / 17179869184) ∧
      f32mul (f32ofInt 3) (f32div (F32.finite 1) (F32.finite 2500)) =
        F32.finite (10307921 / 8589934592) ∧
      |(13743895 / 34359738368 : ℚ) - 4 / 10000| < 1 / 10 ^ 10 ∧
      |(13743895 / 17179869184 : ℚ) - 8 / 10000| < 1 / 10 ^ 10 ∧
      |(10307921 / 8589934592 : ℚ) - 12 / 10000| < 1 / 10 ^ 10) := by
  have hpos : 0 < rq.color_packet_size.toNat := by omega
  have hlt : i < rq.color_packet_size.toNat := by omega
  refine ⟨?_, ?_, ?_, ?_, ?_⟩
  · intro seq hseq
    obtain ⟨_, _, rfl⟩ := installed_get rq st i seq hseq
    refine ⟨by simp [packetSequence, temp_scanseq], ?_⟩
    intro k line hk
    rw [packetSequence_get, hk]
    rfl
  · intro hok
    exact ⟨_, installed_reach rq st i hcolor hlt hok⟩
  · refine ⟨packetSequence rq st 0, installed_reach rq st 0 hcolor hpos
      (fun q hq => absurd hq (Nat.not_lt_zero q)), ?_⟩
    intro f hprf hf hp k line b hk hb hrep hbM
    rw [packetSequence_get, hk]
    simp only [Option.map_some', Option.some.injEq]
    rw [hprf, hb]
    exact packetTimestamp_zero hf hp hrep hbM
  · intro seq f hseq hprf h1 h2 hi24 k line li b t hk hli hb ht
    obtain ⟨_, _, rfl⟩ := installed_get rq st i seq hseq
    have e := packetSequence_line rq st i k line li hk hli
    rw [hprf, hb, ht] at e
    exact packetTimestamp_error h1 h2 i hi24 e.symm
  · obtain ⟨h0, h1, h2, h3⟩ := packetOffset_2500
    simp only [packetOffset, Nat.cast_zero, Nat.cast_one, Nat.cast_ofNat] at h0 h1 h2 h3
    refine ⟨h0, h1, h2, h3, ?_, ?_, ?_⟩
    · rw [abs_lt]
      constructor <;> norm_num
    · rw [abs_lt]
      constructor <;> norm_num
    · rw [abs_lt]
      constructor <;> norm_num

/-- The amended C1 on packet 3 of `exampleRequest` (packet size 4, PRF 2500,
two lines with base timestamp 0, no failing call): the packet is installed and
its timestamp on line 0 is within the stated bound of `0 + 3 / 2500`. -/
theorem color_packet_timestamps_witness :
    exampleRequest.enable_color = true ∧ 1 ≤ exampleRequest.color_packet_size ∧
    ((3 : ℕ) : ℤ) < exampleRequest.color_packet_size ∧
    (∃ seq, (installedSequences (requestCalls exampleRequest exampleWindow)).get? (3 + 1) =
      some seq) ∧
    |(10307921 / 8589934592 : ℚ) - (0 + ((3 : ℕ) : ℚ) * (1 / 2500))| ≤
      f32ulp (0 + offsetValue 2500 3) / 2 +
        3 * (2 : ℚ) ^ (-24 : ℤ) * (((3 : ℕ) : ℚ) * (1 / 2500)) :=
  ⟨rfl, by decide, by decide,
    (color_packet_timestamps exampleRequest exampleWindow 3 rfl (by decide)
      (by decide)).2.1 (fun _ _ => ⟨_, rfl⟩),
    (color_packet_timestamps exampleRequest exampleWindow 3 rfl (by decide)
      (by decide)).2.2.2.1 (packetSequence exampleRequest exampleWindow 3) 2500
      (installed_reach exampleRequest exampleWindow 3 rfl (by decide) (fun _ _ => ⟨_, rfl⟩))
      rfl (by norm_num) (by norm_num) (by norm_num) 0 (exampleLine 0)
      { exampleLine 0 with timestamp := F32.finite (10307921 / 8589934592) } 0
      (10307921 / 8589934592)
      (by rw [exampleRequest_base]; rfl) exampleRequest_packet3_line
      rfl rfl⟩

/-! ## C2: the sequence of the B-mode call -/

/-- C2, evaluated on `exampleRequest` (both modes on, packet size 4, PRF 2500,
no failing call).  The engine runs five `simulate_lines` calls: those of
packets 0 to 3 and the B-mode call, and the B-mode call runs on the sequence
of packet 3, which is still installed when the request ends.  That sequence is
not `m_cur_scanseq`: its timestamps are `3 * (1.0f / 2500)`, about 0.0012,
where the rebuilt sequence has 0. -/
theorem bmode_simulates_last_packet_sequence :
    simulatedSequences (requestCalls exampleRequest exampleWindow) =
      [packetSequence exampleRequest exampleWindow 0,
       packetSequence exampleRequest exampleWindow 1,
       packetSequence exampleRequest exampleWindow 2,
       packetSequence exampleRequest exampleWindow 3,
       packetSequence exampleRequest exampleWindow 3] ∧
    (doSimulation exampleRequest exampleWindow).1.m_sim.scan_sequence =
      packetSequence exampleRequest exampleWindow 3 ∧
    (doSimulation exampleRequest exampleWindow).1.m_cur_scanseq =
      baseSequence exampleRequest exampleWindow ∧
    (baseSequence exampleRequest exampleWindow).scanlines.map Scanline.timestamp =
      [F32.finite 0, F32.finite 0] ∧
    (packetSequence exampleRequest exampleWindow 3).scanlines.map Scanline.timestamp =
      [F32.finite (10307921 / 8589934592), F32.finite (10307921 / 8589934592)] ∧
    packetSequence exampleRequest exampleWindow 3 ≠ baseSequence exampleRequest exampleWindow := by
  obtain ⟨frames, _, h⟩ := doSimulation_of_all_ok exampleRequest exampleWindow rfl
    (fun _ _ => ⟨_, rfl⟩)
  have hbase : (baseSequence exampleRequest exampleWindow).scanlines.map Scanline.timestamp =
      [F32.finite 0, F32.finite 0] := by
    simp [baseSequence, newScansequence, exampleRequest, exampleLine, List.replicate]
  have hp3 : (packetSequence exampleRequest exampleWindow 3).scanlines.map Scanline.timestamp =
      [F32.finite (10307921 / 8589934592), F32.finite (10307921 / 8589934592)] := by
    rw [packetSequence_timestamps]
    have hprf : exampleRequest.color_prf = F32.finite 2500 := rfl
    have hl : (baseSequence exampleRequest exampleWindow).scanlines =
        [exampleLine 0, exampleLine 0] := by
      simp [baseSequence, newScansequence, exampleRequest, List.replicate]
    rw [hprf, hl]
    simp only [List.map_cons, List.map_nil, exampleLine, packetTimestamp_0_2500.2.2.2]
  refine ⟨?_, ?_, ?_, hbase, hp3, ?_⟩
  · unfold requestCalls
    rw [h, bmodeStage_calls]
    simp only [afterPackets, newScansequence_sim]
    have hN : exampleRequest.color_packet_size.toNat = 4 := rfl
    have hb : exampleRequest.enable_bmode = true := rfl
    rw [hN, hb]
    simp [packetCalls, simulatedSequences, exampleWindow]
  · rw [h, bmodePath_sim_stage]
    rfl
  · rw [h, bmodeStage_cur_scanseq]
    rfl
  · intro hne
    rw [hne, hbase] at hp3
    norm_num at hp3

/-! ## C3: tasks of a request whose color loop fails -/

/-- C3 fails as stated.  On `failingRequest` the engine throws a runtime error
on the 2nd of 4 color packets, and the request still hands a B-mode task to
the worker. -/
theorem color_failure_still_submits_bmode :
    failingRequest.enable_color = true ∧ failingRequest.color_packet_size = 4 ∧
    failingRequest.simulate_lines (exampleWindow.m_sim.num_simulate_calls + 1)
      (packetSequence failingRequest exampleWindow 1) =
        Except.error (Thrown.runtime_error "simulation failed") ∧
    requestTasks failingRequest exampleWindow =
      [WorkTask.BMode { id := 7 } [[(1, 2)]] 1 false 6000 60 0] ∧
    requestTasks failingRequest exampleWindow ≠ [] := by
  have h := requestTasks_of_color_runtime_error failingRequest exampleWindow 1
    "simulation failed" rfl (by decide)
    (by
      intro i hi
      obtain rfl : i = 0 := by omega
      exact ⟨_, rfl⟩)
    rfl
  have e : requestTasks failingRequest exampleWindow =
      [WorkTask.BMode { id := 7 } [[(1, 2)]] 1 false 6000 60 0] := by
    rw [h]
    rfl
  refine ⟨rfl, rfl, rfl, e, ?_⟩
  rw [e]
  exact List.cons_ne_nil _ _

/-- C3, amended.  When the `simulate_lines` call of color packet `j` throws a
runtime error (the calls of the packets before it having succeeded), the
request submits no color-Doppler task.  The B-mode statement still runs: the
tasks of the request are exactly the B-mode task when the B-mode flag is set
and the B-mode call returns a frame with a line 0, and no task at all
otherwise; in particular none when the B-mode flag is clear. -/
theorem color_failure_tasks (rq : SimRequest) (st : MainWindow) (j : Nat) (what : String)
    (hcolor : rq.enable_color = true) (hj : (j : ℤ) < rq.color_packet_size)
    (hok : ∀ i, i < j → ∃ fr, rq.simulate_lines (st.m_sim.num_simulate_calls + i)
      (packetSequence rq st i) = Except.ok fr)
    (herr : rq.simulate_lines (st.m_sim.num_simulate_calls + j) (packetSequence rq st j) =
      Except.error (Thrown.runtime_error what)) :
    (requestTasks rq st =
      if rq.enable_bmode then
        match rq.simulate_lines (st.m_sim.num_simulate_calls + (j + 1))
            (packetSequence rq st j) with
        | Except.ok (line :: lines) =>
          [WorkTask.BMode rq.geometry (line :: lines) rq.grayscale.normalization_const
            rq.grayscale.auto_normalize rq.qimage_dots_per_meter rq.grayscale.dyn_range
            rq.grayscale.gain]
        | _ => []
      else []) ∧
    (∀ t, t ∈ requestTasks rq st → t.isColor = false) ∧
    (rq.enable_bmode = false → requestTasks rq st = []) ∧
    (doSimulation rq st).1.m_refresh_worker = st.m_refresh_worker ++ requestTasks rq st := by
  have h := requestTasks_of_color_runtime_error rq st j what hcolor (by omega) hok herr
  refine ⟨h, ?_, ?_, ?_⟩
  · intro t ht
    rw [h] at ht
    split at ht
    · split at ht
      · rw [List.mem_singleton] at ht
        rw [ht]
        rfl
      · exact absurd ht (List.not_mem_nil t)
    · exact absurd ht (List.not_mem_nil t)
  · intro hb
    rw [h, hb]
    rfl
  · obtain ⟨_, h2⟩ := doSimulation_of_color_runtime_error rq st j what hcolor (by omega) hok herr
    unfold requestTasks
    rw [h2, (bmodeStage_effect rq _).1]
    have hq : ({ newScansequence rq st rq.geometry rq.num_lines rq.all_timestamps_equal with
          m_sim := afterPackets
            (newScansequence rq st rq.geometry rq.num_lines rq.all_timestamps_equal).m_sim
            (packetSequence rq st) (j + 1) 0
          m_log_widget := st.m_log_widget ++
            [(LogLevel.WARNING, "Caught exception simulating color Doppler: " ++ what)] }
        : MainWindow).m_refresh_worker = st.m_refresh_worker := rfl
    rw [hq, List.drop_left]

/-- Witness of the amended C3: packet 1 of `failingRequest`. -/
theorem color_failure_tasks_witness :
    requestTasks failingRequest exampleWindow =
      (if failingRequest.enable_bmode then
        match failingRequest.simulate_lines (exampleWindow.m_sim.num_simulate_calls + (1 + 1))
            (packetSequence failingRequest exampleWindow 1) with
        | Except.ok (line :: lines) =>
          [WorkTask.BMode failingRequest.geometry (line :: lines)
            failingRequest.grayscale.normalization_const
            failingRequest.grayscale.auto_normalize failingRequest.qimage_dots_per_meter
            failingRequest.grayscale.dyn_range failingRequest.grayscale.gain]
        | _ => []
      else []) :=
  (color_failure_tasks failingRequest exampleWindow 1 "simulation failed" rfl (by decide)
    (fun i hi => by
      obtain rfl : i = 0 := by omega
      exact ⟨_, rfl⟩)
    rfl).1

/-! ## C4: the color statement on a failing packet -/

/-- C4.  When the `simulate_lines` call of color packet `j` throws a runtime
error (the calls of the packets before it having succeeded), the color
statement returns normally after logging one warning; it leaves the worker
queue, the IQ buffer and its timestamps as they were, so the frames of the
packets before `j` are dropped; and no task of the request is a color-Doppler
task. -/
theorem color_failure_abandons_packets (rq : SimRequest) (st : MainWindow) (j : Nat)
    (what : String) (hcolor : rq.enable_color = true) (hj : (j : ℤ) < rq.color_packet_size)
    (hok : ∀ i, i < j → ∃ fr, rq.simulate_lines (st.m_sim.num_simulate_calls + i)
      (packetSequence rq st i) = Except.ok fr)
    (herr : rq.simulate_lines (st.m_sim.num_simulate_calls + j) (packetSequence rq st j) =
      Except.error (Thrown.runtime_error what)) :
    (colorStage rq (newScansequence rq st rq.geometry rq.num_lines
      rq.all_timestamps_equal)).2 = Outcome.returned ∧
    (colorStage rq (newScansequence rq st rq.geometry rq.num_lines
      rq.all_timestamps_equal)).1.m_refresh_worker = st.m_refresh_worker ∧
    (colorStage rq (newScansequence rq st rq.geometry rq.num_lines
      rq.all_timestamps_equal)).1.m_log_widget = st.m_log_widget ++
        [(LogLevel.WARNING, "Caught exception simulating color Doppler: " ++ what)] ∧
    (colorStage rq (newScansequence rq st rq.geometry rq.num_lines
      rq.all_timestamps_equal)).1.m_iq_buffer = st.m_iq_buffer ∧
    (colorStage rq (newScansequence rq st rq.geometry rq.num_lines
      rq.all_timestamps_equal)).1.m_iq_buffer_timestamps = st.m_iq_buffer_timestamps ∧
    (simulatedSequences (requestCalls rq st)).take (j + 1) =
      (List.range (j + 1)).map (packetSequence rq st) ∧
    (∀ frames dpm geometry,
      WorkTask.ColorDoppler geometry frames dpm ∉ requestTasks rq st) := by
  obtain ⟨h1, h2⟩ := doSimulation_of_color_runtime_error rq st j what hcolor (by omega) hok herr
  have h := requestTasks_of_color_runtime_error rq st j what hcolor (by omega) hok herr
  refine ⟨by rw [h1], by rw [h1]; rfl, by rw [h1], by rw [h1]; rfl, by rw [h1]; rfl, ?_, ?_⟩
  · unfold requestCalls
    rw [h2, bmodeStage_calls]
    simp only [afterPackets, newScansequence_sim]
    rw [List.append_assoc, List.append_assoc, List.drop_left]
    rw [simulatedSequences_append, simulatedSequences_append, simulatedSequences_packetCalls]
    have e : simulatedSequences [EngineCall.set_scan_sequence (baseSequence rq st)] = [] := rfl
    rw [e, List.nil_append, ← List.range_eq_range', List.take_append_of_le_length (by simp)]
    rw [List.take_of_length_le (by simp)]
  · intro frames dpm geometry hmem
    rw [h] at hmem
    split at hmem
    · split at hmem
      · rw [List.mem_singleton] at hmem
        exact WorkTask.noConfusion hmem
      · exact absurd hmem (List.not_mem_nil _)
    · exact absurd hmem (List.not_mem_nil _)

/-- Witness of C4: packet 1 of `failingRequest`. -/
theorem color_failure_abandons_packets_witness :
    (colorStage failingRequest (newScansequence failingRequest exampleWindow
      failingRequest.geometry failingRequest.num_lines
      failingRequest.all_timestamps_equal)).2 = Outcome.returned ∧
    ∀ frames dpm geometry,
      WorkTask.ColorDoppler geometry frames dpm ∉ requestTasks failingRequest exampleWindow :=
  have h := color_failure_abandons_packets failingRequest exampleWindow 1 "simulation failed"
    rfl (by decide)
    (fun i hi => by
      obtain rfl : i = 0 := by omega
      exact ⟨_, rfl⟩)
    rfl
  ⟨h.1, h.2.2.2.2.2.2⟩

/-! ## C5: export of frames of different shape -/

/-- C5, evaluated on two buffers whose frames differ in shape, with equal
counts of frames and timestamps and a file name given.  When the later frame
is larger than frame 0 the slot writes a file of extents 2 x 1 x 1 (the shape
of frame 0) and empties the buffer; when the later frame has no line the slot
reads `m_iq_buffer[1][0]`, an index that frame does not have.  Neither run
ends in a shape-mismatch outcome. -/
theorem save_does_not_check_frame_shapes :
    (onSaveIqBufferAs "iq.h5" true mixedShapeWindow).2.wroteFile = true ∧
    (∃ file, (onSaveIqBufferAs "iq.h5" true mixedShapeWindow).2 =
        SaveOutcome.written "iq.h5" file ∧
      (file.lookup "iq_real").map (fun d => d.dims) = some [2, 1, 1]) ∧
    (onSaveIqBufferAs "iq.h5" true mixedShapeWindow).1.m_iq_buffer = [] ∧
    read_iq shortFrameWindow.m_iq_buffer 1 0 0 = none ∧
    (onSaveIqBufferAs "iq.h5" true shortFrameWindow).2 = SaveOutcome.out_of_bounds := by
  refine ⟨rfl, ⟨_, rfl, rfl⟩, rfl, rfl, rfl⟩

/-! ## C6: export followed by reload -/

/-- C6 fails as stated.  The container written for `rectWindow` (one frame of
one line of two samples) has no dataset of the names `onLoadSimulatedData`
reads, so the loader raises, returns no frame and submits no task; and the
loader applied to the two written arrays under its own names returns a frame
of two lines of one sample, not the buffered frame. -/
theorem export_reload_is_no_round_trip :
    (onSaveIqBufferAs "iq.h5" true rectWindow).2 =
      SaveOutcome.written "iq.h5" (savedContainer rectWindow 1 2) ∧
    (savedContainer rectWindow 1 2).map Prod.fst = ["iq_real", "iq_imag", "frame_times"] ∧
    (onLoadSimulatedData exampleRequest.grayscale 6000 "iq.h5" (savedContainer rectWindow 1 2)
      exampleWindow).2 = LoadOutcome.raised "no dataset sim_data_real" ∧
    (onLoadSimulatedData exampleRequest.grayscale 6000 "iq.h5" (savedContainer rectWindow 1 2)
      exampleWindow).2 ≠ LoadOutcome.loaded rectWindow.m_iq_buffer ∧
    (onLoadSimulatedData exampleRequest.grayscale 6000 "iq.h5" (savedContainer rectWindow 1 2)
      exampleWindow).1.m_refresh_worker = [] ∧
    (∃ re im, (savedContainer rectWindow 1 2).lookup "iq_real" = some re ∧
      (savedContainer rectWindow 1 2).lookup "iq_imag" = some im ∧
      load_iq_frames [("sim_data_real", re), ("sim_data_imag", im)] =
        Except.ok [[[(1, 2)], [(3, 4)]]]) ∧
    rectWindow.m_iq_buffer = [[[(1, 2), (3, 4)]]] := by
  have hload : load_iq_frames (savedContainer rectWindow 1 2) =
      Except.error "no dataset sim_data_real" := load_iq_frames_no_sim_data _ _ _
  have hout : (onLoadSimulatedData exampleRequest.grayscale 6000 "iq.h5"
      (savedContainer rectWindow 1 2) exampleWindow).2 =
        LoadOutcome.raised "no dataset sim_data_real" := by
    unfold onLoadSimulatedData
    simp [hload]
  refine ⟨rfl, rfl, hout, ?_, ?_, ⟨_, _, rfl, rfl, ?_⟩, rfl⟩
  · rw [hout]
    exact LoadOutcome.noConfusion
  · unfold onLoadSimulatedData
    simp [hload, exampleWindow]
  · have h := load_saved_arrays rectWindow 1 2
    rw [h]
    rfl

/-- C6, amended.  For a buffer of `F ≥ 1` frames that all have `L ≥ 1` lines of
`S` samples, with `F` timestamps, a file name given and a working HDF5
library: `onSaveIqBufferAs` writes a container with exactly the datasets
`iq_real`, `iq_imag` (both of extents `F x L x S`) and `frame_times`.
`onLoadSimulatedData` reads the datasets `sim_data_real` and `sim_data_imag`,
so on this container it raises, returns no frame and submits no task.  When
the two written arrays are offered under the names the loader reads, the
loader returns `F` frames of `S` lines of `L` samples: sample `n` of line `i`
of loaded frame `f` is sample `i` of line `n` of buffered frame `f`. -/
theorem export_then_reload (h5_file path : String) (st st2 : MainWindow) (L S : Nat)
    (grayscale : GrayscaleSettings) (dpm : ℚ)
    (hF : st.m_iq_buffer ≠ []) (hL : 1 ≤ L)
    (hshape : ∀ fr, fr ∈ st.m_iq_buffer → fr.length = L ∧ ∀ ln, ln ∈ fr → ln.length = S)
    (hts : st.m_iq_buffer_timestamps.length = st.m_iq_buffer.length)
    (hname : h5_file ≠ "") (hpath : path ≠ "") :
    ∃ re im ft,
      (onSaveIqBufferAs h5_file true st).2 = SaveOutcome.written h5_file
        [("iq_real", re), ("iq_imag", im), ("frame_times", ft)] ∧
      re.dims = [st.m_iq_buffer.length, L, S] ∧ im.dims = [st.m_iq_buffer.length, L, S] ∧
      (onLoadSimulatedData grayscale dpm path
        [("iq_real", re), ("iq_imag", im), ("frame_times", ft)] st2).2 =
          LoadOutcome.raised "no dataset sim_data_real" ∧
      (onLoadSimulatedData grayscale dpm path
        [("iq_real", re), ("iq_imag", im), ("frame_times", ft)] st2).1.m_refresh_worker =
          st2.m_refresh_worker ∧
      load_iq_frames [("sim_data_real", re), ("sim_data_imag", im)] =
        Except.ok ((List.range st.m_iq_buffer.length).map fun f =>
          (List.range S).map fun i =>
            (List.range L).map fun n =>
              ((st.m_iq_buffer.getD f []).getD n []).getD i (0, 0)) := by
  have hsave := onSaveIqBufferAs_of_shape h5_file st L S hF hL hshape hts hname
  refine ⟨_, _, _, by rw [hsave]; rfl, rfl, rfl, ?_, ?_, load_saved_arrays st L S⟩
  · unfold onLoadSimulatedData
    simp [hpath, load_iq_frames_no_sim_data]
  · unfold onLoadSimulatedData
    simp [hpath, load_iq_frames_no_sim_data]

/-- Witness of the amended C6: `rectWindow`, one frame of one line of two
samples. -/
theorem export_then_reload_witness :
    ∃ re im ft,
      (onSaveIqBufferAs "iq.h5" true rectWindow).2 = SaveOutcome.written "iq.h5"
        [("iq_real", re), ("iq_imag", im), ("frame_times", ft)] ∧
      re.dims = [rectWindow.m_iq_buffer.length, 1, 2] ∧
      im.dims = [rectWindow.m_iq_buffer.length, 1, 2] ∧
      (onLoadSimulatedData exampleRequest.grayscale 6000 "iq.h5"
        [("iq_real", re), ("iq_imag", im), ("frame_times", ft)] exampleWindow).2 =
          LoadOutcome.raised "no dataset sim_data_real" ∧
      (onLoadSimulatedData exampleRequest.grayscale 6000 "iq.h5"
        [("iq_real", re), ("iq_imag", im), ("frame_times", ft)] exampleWindow).1.m_refresh_worker =
          exampleWindow.m_refresh_worker ∧
      load_iq_frames [("sim_data_real", re), ("sim_data_imag", im)] =
        Except.ok ((List.range rectWindow.m_iq_buffer.length).map fun f =>
          (List.range 2).map fun i =>
            (List.range 1).map fun n =>
              ((rectWindow.m_iq_buffer.getD f []).getD n []).getD i (0, 0)) :=
  export_then_reload "iq.h5" "iq.h5" rectWindow exampleWindow 1 2 exampleRequest.grayscale 6000
    (by decide) (by decide)
    (by
      intro fr hfr
      have e : fr = [[(1, 2), (3, 4)]] := by simpa [rectWindow] using hfr
      subst e
      refine ⟨rfl, ?_⟩
      intro ln hln
      have e2 : ln = [(1, 2), (3, 4)] := by simpa using hln
      subst e2
      rfl)
    rfl (by decide) (by decide)

/-! ## C7: the length invariant of the IQ buffer -/

/-- C7.  From a window whose IQ buffer and timestamp list have equal length
(in particular from one where both are empty), every operation that touches
the buffer, `doSimulation` with any request and any engine behaviour,
`onSaveIqBufferAs` with any dialog answer and any HDF5 result, and
`onResetIqBuffer`, leads to a window where the two lengths are equal again, and
so does every sequence of such operations. -/
theorem iq_buffer_lengths_invariant (st : MainWindow) (ops : List SessionOp)
    (h : st.m_iq_buffer.length = st.m_iq_buffer_timestamps.length) :
    (∀ rq, (doSimulation rq st).1.m_iq_buffer.length =
      (doSimulation rq st).1.m_iq_buffer_timestamps.length) ∧
    (∀ h5_file h5_ok, (onSaveIqBufferAs h5_file h5_ok st).1.m_iq_buffer.length =
      (onSaveIqBufferAs h5_file h5_ok st).1.m_iq_buffer_timestamps.length) ∧
    (onResetIqBuffer st).m_iq_buffer.length = (onResetIqBuffer st).m_iq_buffer_timestamps.length ∧
    (runSession ops st).m_iq_buffer.length = (runSession ops st).m_iq_buffer_timestamps.length ∧
    (∀ st0 : MainWindow, st0.m_iq_buffer = [] → st0.m_iq_buffer_timestamps = [] →
      ∀ ops0, (runSession ops0 st0).m_iq_buffer.length =
        (runSession ops0 st0).m_iq_buffer_timestamps.length) :=
  ⟨fun rq => doSimulation_buffer_lengths rq st h,
   fun h5_file h5_ok => onSaveIqBufferAs_buffer_lengths h5_file h5_ok st h,
   rfl,
   runSession_buffer_lengths ops st h,
   fun st0 hb ht ops0 => runSession_buffer_lengths ops0 st0 (by simp [hb, ht])⟩

/-- Witness of C7: the requests `exampleRequest` and `failingRequest`, both
recorded, an export and a reset, run from the empty buffer. -/
theorem iq_buffer_lengths_invariant_witness :
    (runSession
      [SessionOp.simulate exampleRequest, SessionOp.simulate failingRequest,
        SessionOp.saveIqBufferAs "iq.h5" true, SessionOp.resetIqBuffer]
      exampleWindow).m_iq_buffer.length =
    (runSession
      [SessionOp.simulate exampleRequest, SessionOp.simulate failingRequest,
        SessionOp.saveIqBufferAs "iq.h5" true, SessionOp.resetIqBuffer]
      exampleWindow).m_iq_buffer_timestamps.length :=
  (iq_buffer_lengths_invariant exampleWindow
    [SessionOp.simulate exampleRequest, SessionOp.simulate failingRequest,
      SessionOp.saveIqBufferAs "iq.h5" true, SessionOp.resetIqBuffer] rfl).2.2.2.1

/-! ## C8: export with differing counts -/

/-- C8.  When the numbers of buffered frames and of timestamps differ,
`onSaveIqBufferAs` stops at the count check, whatever the file dialog would
answer and whatever the HDF5 library would do: it writes no file and leaves
both the frame sequence and the timestamp sequence empty. -/
theorem save_aborts_on_count_mismatch (h5_file : String) (h5_ok : Bool) (st : MainWindow)
    (h : st.m_iq_buffer.length ≠ st.m_iq_buffer_timestamps.length) :
    (onSaveIqBufferAs h5_file h5_ok st).2 = SaveOutcome.mismatch_aborted ∧
    (onSaveIqBufferAs h5_file h5_ok st).2.wroteFile = false ∧
    (onSaveIqBufferAs h5_file h5_ok st).1.m_iq_buffer = [] ∧
    (onSaveIqBufferAs h5_file h5_ok st).1.m_iq_buffer_timestamps = [] := by
  have hne : st.m_iq_buffer_timestamps.length ≠ st.m_iq_buffer.length := fun e => h e.symm
  simp [onSaveIqBufferAs, hne, onResetIqBuffer, SaveOutcome.wroteFile]

/-- Witness of C8: one frame, no timestamp. -/
theorem save_aborts_on_count_mismatch_witness :
    mismatchWindow.m_iq_buffer.length ≠ mismatchWindow.m_iq_buffer_timestamps.length ∧
    (onSaveIqBufferAs "iq.h5" true mismatchWindow).2.wroteFile = false ∧
    (onSaveIqBufferAs "iq.h5" true mismatchWindow).1.m_iq_buffer = [] ∧
    (onSaveIqBufferAs "iq.h5" true mismatchWindow).1.m_iq_buffer_timestamps = [] :=
  have h := save_aborts_on_count_mismatch "iq.h5" true mismatchWindow (by decide)
  ⟨by decide, h.2.1, h.2.2.1, h.2.2.2⟩

/-! ## C9: a failing B-mode call -/

/-- C9.  When the B-mode flag is set and the B-mode `simulate_lines` call (the
call made in the state the color statement left) throws, by a runtime error or
by any other exception, the IQ buffer and its timestamp list are exactly as
before the request and no B-mode task is among the tasks of the request. -/
theorem bmode_failure_leaves_buffer (rq : SimRequest) (st : MainWindow) (e : Thrown)
    (hbmode : rq.enable_bmode = true)
    (hfail : rq.simulate_lines (stateBeforeBmode rq st).m_sim.num_simulate_calls
      (stateBeforeBmode rq st).m_sim.scan_sequence = Except.error e) :
    (doSimulation rq st).1.m_iq_buffer = st.m_iq_buffer ∧
    (doSimulation rq st).1.m_iq_buffer_timestamps = st.m_iq_buffer_timestamps ∧
    (∀ geometry data nc an dpm dr gain,
      WorkTask.BMode geometry data nc an dpm dr gain ∉ requestTasks rq st) := by
  have _ := hbmode
  obtain ⟨h1, h2, h3⟩ := doSimulation_of_bmode_error rq st e hfail
  refine ⟨h1, h2, ?_⟩
  intro geometry data nc an dpm dr gain hmem
  unfold requestTasks at hmem
  rw [h3] at hmem
  unfold stateBeforeBmode at hmem
  rcases colorStage_queue rq
    (newScansequence rq st rq.geometry rq.num_lines rq.all_timestamps_equal) with hq | ⟨frames, hq⟩
  · rw [hq] at hmem
    have hd : (newScansequence rq st rq.geometry rq.num_lines
        rq.all_timestamps_equal).m_refresh_worker = st.m_refresh_worker := rfl
    rw [hd, List.drop_length] at hmem
    exact absurd hmem (List.not_mem_nil _)
  · rw [hq] at hmem
    have hd : (newScansequence rq st rq.geometry rq.num_lines
        rq.all_timestamps_equal).m_refresh_worker = st.m_refresh_worker := rfl
    rw [hd, List.drop_left, List.mem_singleton] at hmem
    exact WorkTask.noConfusion hmem

/-- Witness of C9: `bmodeFailingRequest`, whose only call is the B-mode call. -/
theorem bmode_failure_leaves_buffer_witness :
    bmodeFailingRequest.enable_bmode = true ∧
    (doSimulation bmodeFailingRequest exampleWindow).1.m_iq_buffer = exampleWindow.m_iq_buffer ∧
    (doSimulation bmodeFailingRequest exampleWindow).1.m_iq_buffer_timestamps =
      exampleWindow.m_iq_buffer_timestamps :=
  have h := bmode_failure_leaves_buffer bmodeFailingRequest exampleWindow
    (Thrown.runtime_error "simulation failed") rfl rfl
  ⟨rfl, h.1, h.2.1⟩

/-! ## C10: order of the packet timestamps -/

/-- C11.  Color mode on, packet size `N ≥ 1`, no `simulate_lines` call of the
loop throwing.  The color statement makes exactly `2 * N` engine calls: for
every packet `i < N` a `set_scan_sequence` call with the sequence of packet `i`
directly followed by one `simulate_lines` call on that sequence, so `N` calls
of each kind.  It submits exactly one task, a color-Doppler task with exactly
`N` frames, and frame `i` is the answer of the `simulate_lines` call of
packet `i`. -/
theorem color_loop_calls_and_frames (rq : SimRequest) (st : MainWindow)
    (hcolor : rq.enable_color = true) (hN : 1 ≤ rq.color_packet_size)
    (hok : ∀ i, i < rq.color_packet_size.toNat →
      ∃ fr, rq.simulate_lines (st.m_sim.num_simulate_calls + i) (packetSequence rq st i) =
        Except.ok fr) :
    (colorCalls rq st).length = 2 * rq.color_packet_size.toNat ∧
    (∀ i, i < rq.color_packet_size.toNat →
      (colorCalls rq st).get? (2 * i) =
        some (EngineCall.set_scan_sequence (packetSequence rq st i)) ∧
      (colorCalls rq st).get? (2 * i + 1) =
        some (EngineCall.simulate_lines (packetSequence rq st i))) ∧
    (installedSequences (colorCalls rq st)).length = rq.color_packet_size.toNat ∧
    (simulatedSequences (colorCalls rq st)).length = rq.color_packet_size.toNat ∧
    (∃ frames,
      colorTasks rq st =
        [WorkTask.ColorDoppler rq.geometry frames rq.qimage_dots_per_meter] ∧
      frames.length = rq.color_packet_size.toNat ∧
      ∀ i fr, frames.get? i = some fr →
        rq.simulate_lines (st.m_sim.num_simulate_calls + i) (packetSequence rq st i) =
          Except.ok fr) := by
  have _ := hN
  obtain ⟨frames, hlen, hfr, hst⟩ := colorStage_of_ok_frames rq st hcolor hok
  have hcalls : colorCalls rq st =
      packetCalls (packetSequence rq st) rq.color_packet_size.toNat 0 := by
    unfold colorCalls stateBeforeBmode
    rw [hst]
    simp only [afterPackets, newScansequence_sim]
    rw [List.append_assoc]
    have e : (st.m_sim.calls ++ ([EngineCall.set_scan_sequence (baseSequence rq st)] ++
        packetCalls (packetSequence rq st) rq.color_packet_size.toNat 0)) =
        (st.m_sim.calls ++ [EngineCall.set_scan_sequence (baseSequence rq st)]) ++
          packetCalls (packetSequence rq st) rq.color_packet_size.toNat 0 := by
      rw [List.append_assoc]
    rw [e]
    have hl : (st.m_sim.calls ++ [EngineCall.set_scan_sequence (baseSequence rq st)]).length =
        st.m_sim.calls.length + 1 := by simp
    rw [← hl, List.drop_left]
  refine ⟨?_, ?_, ?_, ?_, frames, ?_, hlen, hfr⟩
  · rw [hcalls, packetCalls_length]
  · intro i hi
    rw [hcalls]
    have h := packetCalls_get (packetSequence rq st) rq.color_packet_size.toNat 0 i hi
    rw [Nat.zero_add] at h
    exact h
  · rw [hcalls, installedSequences_packetCalls]
    simp
  · rw [hcalls, simulatedSequences_packetCalls]
    simp
  · unfold colorTasks stateBeforeBmode
    rw [hst]
    simp only
    rw [List.drop_left]

/-- Witness of C11: `exampleRequest`, packet size 4 and no failing call. -/
theorem color_loop_calls_and_frames_witness :
    (colorCalls exampleRequest exampleWindow).length = 2 * 4 ∧
    ∃ frames,
      colorTasks exampleRequest exampleWindow =
        [WorkTask.ColorDoppler exampleRequest.geometry frames
          exampleRequest.qimage_dots_per_meter] ∧
      frames.length = 4 :=
  have h := color_loop_calls_and_frames exampleRequest exampleWindow rfl (by decide)
    (fun _ _ => ⟨_, rfl⟩)
  ⟨h.1, h.2.2.2.2.imp fun _ hf => ⟨hf.1, hf.2.1⟩⟩

/-! ## C12: what a packet sequence keeps of the base sequence -/

/-- C12.  For every packet number, the sequence the color loop builds has the
line length of the rebuilt base sequence and as many lines, and its line `k`
has the origin, the direction and the lateral direction of base line `k`;
every sequence installed for a packet is such a sequence; and the color
statement leaves `m_cur_scanseq` as it found it, so that `m_cur_scanseq` is the
rebuilt base sequence when the request ends. -/
theorem packet_sequence_keeps_lines (rq : SimRequest) (st : MainWindow) :
    (∀ packet_no,
      (packetSequence rq st packet_no).line_length = (baseSequence rq st).line_length ∧
      (packetSequence rq st packet_no).scanlines.length =
        (baseSequence rq st).scanlines.length ∧
      ∀ k line, (baseSequence rq st).scanlines.get? k = some line →
        ∃ line2, (packetSequence rq st packet_no).scanlines.get? k = some line2 ∧
          line2.origin = line.origin ∧ line2.direction = line.direction ∧
          line2.lateral_dir = line.lateral_dir) ∧
    (∀ i seq, (installedSequences (requestCalls rq st)).get? (i + 1) = some seq →
      seq = packetSequence rq st i) ∧
    (∀ s : MainWindow, (colorStage rq s).1.m_cur_scanseq = s.m_cur_scanseq) ∧
    (stateBeforeBmode rq st).m_cur_scanseq = baseSequence rq st ∧
    (doSimulation rq st).1.m_cur_scanseq = baseSequence rq st := by
  refine ⟨?_, ?_, ?_, ?_, doSimulation_cur_scanseq rq st⟩
  · intro packet_no
    refine ⟨rfl, by simp [packetSequence, temp_scanseq], ?_⟩
    intro k line hk
    exact ⟨_, temp_scanseq_get _ _ _ packet_no k line hk, rfl, rfl, rfl⟩
  · intro i seq h
    exact (installed_get rq st i seq h).2.2
  · intro s
    exact (colorStage_frame rq s).2.2.1
  · unfold stateBeforeBmode
    rw [(colorStage_frame rq _).2.2.1]
    rfl

/-- Witness of C12: line 1 of packet 3 of `exampleRequest`. -/
theorem packet_sequence_keeps_lines_witness :
    (baseSequence exampleRequest exampleWindow).scanlines.get? 1 = some (exampleLine 0) ∧
    ∃ line2, (packetSequence exampleRequest exampleWindow 3).scanlines.get? 1 = some line2 ∧
      line2.origin = (exampleLine 0).origin ∧ line2.direction = (exampleLine 0).direction ∧
      line2.lateral_dir = (exampleLine 0).lateral_dir :=
  ⟨rfl, ((packet_sequence_keeps_lines exampleRequest exampleWindow).1 3).2.2 1
    (exampleLine 0) rfl⟩

/-! ## C13: content of the exported container -/

/-- C14.  A request whose B-mode statement is reached with the B-mode flag set
and whose B-mode `simulate_lines` call returns a frame with a line 0.  With
recording on, the IQ buffer after the request is the buffer before it with
exactly that frame appended, and the timestamp list is the list before it with
exactly the current simulation time appended; with recording off both are
unchanged.  The color statement changes neither sequence, whatever happens in
it. -/
theorem bmode_success_records (rq : SimRequest) (st : MainWindow) (line : IQ_Line)
    (lines : List IQ_Line) (hbmode : rq.enable_bmode = true)
    (hret : (colorStage rq (newScansequence rq st rq.geometry rq.num_lines
      rq.all_timestamps_equal)).2 = Outcome.returned)
    (hsim : rq.simulate_lines (stateBeforeBmode rq st).m_sim.num_simulate_calls
      (stateBeforeBmode rq st).m_sim.scan_sequence = Except.ok (line :: lines)) :
    (rq.save_iq = true →
      (doSimulation rq st).1.m_iq_buffer = st.m_iq_buffer ++ [line :: lines] ∧
      (doSimulation rq st).1.m_iq_buffer_timestamps =
        st.m_iq_buffer_timestamps ++ [rq.cur_time]) ∧
    (rq.save_iq = false →
      (doSimulation rq st).1.m_iq_buffer = st.m_iq_buffer ∧
      (doSimulation rq st).1.m_iq_buffer_timestamps = st.m_iq_buffer_timestamps) ∧
    (∀ s : MainWindow, (colorStage rq s).1.m_iq_buffer = s.m_iq_buffer ∧
      (colorStage rq s).1.m_iq_buffer_timestamps = s.m_iq_buffer_timestamps) := by
  obtain ⟨h1, h2⟩ := doSimulation_buffer_of_returned rq st hret
  rw [bmodeFrame_of_ok rq _ line lines hbmode hsim] at h1 h2
  refine ⟨?_, ?_, fun s => ⟨(colorStage_frame rq s).1, (colorStage_frame rq s).2.1⟩⟩
  · intro hs
    rw [h1, h2, hs]
    exact ⟨rfl, rfl⟩
  · intro hs
    rw [h1, h2, hs]
    simp

/-- Witness of C14: `exampleRequest`, recording on, from the empty buffer. -/
theorem bmode_success_records_witness :
    exampleRequest.save_iq = true ∧
    (doSimulation exampleRequest exampleWindow).1.m_iq_buffer =
      exampleWindow.m_iq_buffer ++ [[(1, 2)] :: []] ∧
    (doSimulation exampleRequest exampleWindow).1.m_iq_buffer_timestamps =
      exampleWindow.m_iq_buffer_timestamps ++ [exampleRequest.cur_time] :=
  have hret : (colorStage exampleRequest (newScansequence exampleRequest exampleWindow
      exampleRequest.geometry exampleRequest.num_lines
      exampleRequest.all_timestamps_equal)).2 = Outcome.returned := by
    obtain ⟨frames, _, h⟩ := colorStage_of_ok exampleRequest
      (newScansequence exampleRequest exampleWindow exampleRequest.geometry
        exampleRequest.num_lines exampleRequest.all_timestamps_equal) rfl
      (fun _ _ => ⟨_, rfl⟩)
    rw [h]
  ⟨rfl, (bmode_success_records exampleRequest exampleWindow [(1, 2)] [] rfl hret rfl).1 rfl⟩

/-! ## C15: independence of the two modes -/

/-- C15, evaluated on `unknownErrorRequest`: both flags set, and the
`simulate_lines` call of color packet 0 throws something that is not a
`std::runtime_error`.  The color catch clause does not take it, the exception
leaves `doSimulation`, and the B-mode statement is not run although its flag is
set: the only calls of the request are the two `set_scan_sequence` calls and
the `simulate_lines` call of packet 0, and no task is submitted.  The same
exception thrown by the B-mode call (`unknownErrorBmodeRequest`) is caught and
logged by the B-mode statement, which returns normally. -/
theorem unknown_color_exception_skips_bmode :
    unknownErrorRequest.enable_color = true ∧ unknownErrorRequest.enable_bmode = true ∧
    (doSimulation unknownErrorRequest exampleWindow).2 = Outcome.escaped_exception ∧
    requestCalls unknownErrorRequest exampleWindow =
      [EngineCall.set_scan_sequence (baseSequence unknownErrorRequest exampleWindow),
       EngineCall.set_scan_sequence (packetSequence unknownErrorRequest exampleWindow 0),
       EngineCall.simulate_lines (packetSequence unknownErrorRequest exampleWindow 0)] ∧
    requestTasks unknownErrorRequest exampleWindow = [] ∧
    (doSimulation unknownErrorBmodeRequest exampleWindow).2 = Outcome.returned ∧
    (doSimulation unknownErrorBmodeRequest exampleWindow).1.m_log_widget =
      [(LogLevel.WARNING, "Caught unknown error")] := by
  have hc := colorStage_of_other_exception unknownErrorRequest
    (newScansequence unknownErrorRequest exampleWindow unknownErrorRequest.geometry
      unknownErrorRequest.num_lines unknownErrorRequest.all_timestamps_equal)
    rfl (by decide) rfl
  have hd := doSimulation_of_not_returned unknownErrorRequest exampleWindow (by
    rw [hc]
    exact Outcome.noConfusion)
  refine ⟨rfl, rfl, ?_, ?_, ?_, rfl, rfl⟩
  · rw [hd, hc]
  · unfold requestCalls
    rw [hd, hc]
    rfl
  · unfold requestTasks
    rw [hd, hc]
    rfl

/-! ## C19: number of frames of a color task -/

/-- C19 fails as stated.  With packet size 0 (`zeroPacketRequest`) the loop
body never runs and the request still submits a color-Doppler task; that task
carries no frame. -/
theorem zero_packet_size_submits_empty_task :
    zeroPacketRequest.color_packet_size = 0 ∧
    requestTasks zeroPacketRequest exampleWindow =
      [WorkTask.ColorDoppler { id := 7 } [] 6000,
       WorkTask.BMode { id := 7 } [[(1, 2)]] 1 false 6000 60 0] ∧
    ¬ (∀ geometry frames dpm,
        WorkTask.ColorDoppler geometry frames dpm ∈ requestTasks zeroPacketRequest exampleWindow →
        1 ≤ frames.length) := by
  have h : requestTasks zeroPacketRequest exampleWindow =
      [WorkTask.ColorDoppler { id := 7 } [] 6000,
       WorkTask.BMode { id := 7 } [[(1, 2)]] 1 false 6000 60 0] := rfl
  refine ⟨rfl, h, ?_⟩
  intro hall
  have := hall { id := 7 } [] 6000 (by rw [h]; exact List.mem_cons_self _ _)
  exact absurd this (by decide)

/-- C19, amended.  Every color-Doppler task a request submits carries exactly
as many frames as the packet loop has iterations, the packet size when it is
positive and none otherwise: at least one frame when the packet size is at
least 1, no frame when the packet size is zero or below. -/
theorem color_task_frame_count (rq : SimRequest) (st : MainWindow) (geometry : ScanGeometry)
    (frames : List IQ_Frame) (dpm : ℚ)
    (h : WorkTask.ColorDoppler geometry frames dpm ∈ requestTasks rq st) :
    (frames.length : ℤ) = max rq.color_packet_size 0 ∧
    (1 ≤ rq.color_packet_size → 1 ≤ frames.length) ∧
    (rq.color_packet_size ≤ 0 → frames = []) := by
  have hl := color_task_frames rq st geometry frames dpm h
  refine ⟨?_, ?_, ?_⟩
  · rw [hl]
    omega
  · intro hN
    omega
  · intro hN
    apply List.eq_nil_of_length_eq_zero
    omega

/-- Witness of the amended C19: the color task of `exampleRequest`, packet
size 4. -/
theorem color_task_frame_count_witness :
    WorkTask.ColorDoppler { id := 7 } [[[(1, 2)]], [[(1, 2)]], [[(1, 2)]], [[(1, 2)]]] 6000 ∈
      requestTasks exampleRequest exampleWindow ∧
    (([[[(1, 2)]], [[(1, 2)]], [[(1, 2)]], [[(1, 2)]]] : List IQ_Frame).length : ℤ) =
      max exampleRequest.color_packet_size 0 :=
  have hmem : WorkTask.ColorDoppler { id := 7 }
      [[[(1, 2)]], [[(1, 2)]], [[(1, 2)]], [[(1, 2)]]] 6000 ∈
      requestTasks exampleRequest exampleWindow := by
    have h : requestTasks exampleRequest exampleWindow =
        [WorkTask.ColorDoppler { id := 7 } [[[(1, 2)]], [[(1, 2)]], [[(1, 2)]], [[(1, 2)]]] 6000,
         WorkTask.BMode { id := 7 } [[(1, 2)]] 1 false 6000 60 0] := rfl
    rw [h]
    exact List.mem_cons_self _ _
  ⟨hmem, (color_task_frame_count exampleRequest exampleWindow { id := 7 }
    [[[(1, 2)]], [[(1, 2)]], [[(1, 2)]], [[(1, 2)]]] 6000 hmem).1⟩

/-! ## C20: the rebuilt scan sequence -/

/-- C20.  `newScansequence` builds its sequence from the probe origin and the
probe rotation sampled at the current simulation time and from a scan sequence
created for that same time, gives it the flag `all_timestamps_equal` it was
passed, and installs this one sequence both on the engine (by one
`set_scan_sequence` call) and as `m_cur_scanseq`; it also stores the geometry.
The result depends on the probe only through its origin and rotation at the
current time.  Every simulate request starts with this call: its first engine
call installs the sequence rebuilt from the geometry, the line count and the
flag of the request. -/
theorem newScansequence_installs_rebuilt_sequence (rq : SimRequest) (st : MainWindow)
    (new_geometry : ScanGeometry) (new_num_lines : Int) (equal_timestamps : Bool) :
    (newScansequence rq st new_geometry new_num_lines equal_timestamps).m_cur_scanseq =
      { rq.OrientScanSequence (rq.CreateScanSequence new_geometry new_num_lines rq.cur_time)
          (rq.get_rot_angles rq.cur_time) (rq.get_origin rq.cur_time) with
        all_timestamps_equal := equal_timestamps } ∧
    (newScansequence rq st new_geometry new_num_lines
      equal_timestamps).m_cur_scanseq.all_timestamps_equal = equal_timestamps ∧
    (newScansequence rq st new_geometry new_num_lines equal_timestamps).m_sim.scan_sequence =
      (newScansequence rq st new_geometry new_num_lines equal_timestamps).m_cur_scanseq ∧
    (newScansequence rq st new_geometry new_num_lines equal_timestamps).m_sim.calls =
      st.m_sim.calls ++ [EngineCall.set_scan_sequence
        (newScansequence rq st new_geometry new_num_lines equal_timestamps).m_cur_scanseq] ∧
    (newScansequence rq st new_geometry new_num_lines equal_timestamps).m_scan_geometry =
      new_geometry ∧
    (∀ rq2 : SimRequest, rq2.cur_time = rq.cur_time →
      rq2.get_origin rq.cur_time = rq.get_origin rq.cur_time →
      rq2.get_rot_angles rq.cur_time = rq.get_rot_angles rq.cur_time →
      rq2.CreateScanSequence = rq.CreateScanSequence →
      rq2.OrientScanSequence = rq.OrientScanSequence →
      newScansequence rq2 st new_geometry new_num_lines equal_timestamps =
        newScansequence rq st new_geometry new_num_lines equal_timestamps) ∧
    (requestCalls rq st).head? = some (EngineCall.set_scan_sequence
      (newScansequence rq st rq.geometry rq.num_lines rq.all_timestamps_equal).m_cur_scanseq) ∧
    (doSimulation rq st).1.m_cur_scanseq =
      (newScansequence rq st rq.geometry rq.num_lines rq.all_timestamps_equal).m_cur_scanseq := by
  refine ⟨rfl, rfl, rfl, rfl, rfl, ?_, ?_, doSimulation_cur_scanseq rq st⟩
  · intro rq2 h1 h2 h3 h4 h5
    unfold newScansequence
    simp only [h1, h2, h3, h4, h5]
  · obtain ⟨m, _, _, _, tail, _, h⟩ : ∃ m, m ≤ rq.color_packet_size.toNat ∧ True ∧ True ∧
        ∃ tail, installedSequences tail = [] ∧
          (doSimulation rq st).1.m_sim.calls = st.m_sim.calls ++
            (EngineCall.set_scan_sequence (baseSequence rq st) ::
              packetCalls (packetSequence rq st) m 0 ++ tail) := by
      obtain ⟨m, h1, _, _, h4⟩ := colorStage_engine rq
        (newScansequence rq st rq.geometry rq.num_lines rq.all_timestamps_equal)
      obtain ⟨tail, ht, hc⟩ := doSimulation_calls_of rq st m h4
      exact ⟨m, h1, trivial, trivial, tail, ht, hc⟩
    unfold requestCalls
    rw [h, List.drop_left]
    rfl

/-- Witness of C20: `movingProbeRequest` agrees with `exampleRequest` at the
current time 0 and so rebuilds the same window. -/
theorem newScansequence_installs_rebuilt_sequence_witness :
    newScansequence movingProbeRequest exampleWindow { id := 7 } 2 true =
      newScansequence exampleRequest exampleWindow { id := 7 } 2 true :=
  (newScansequence_installs_rebuilt_sequence exampleRequest exampleWindow { id := 7 } 2
    true).2.2.2.2.2.1 movingProbeRequest rfl rfl rfl rfl rfl

/-! ## C16: a container that lacks one or both kinds of scatterer -/

/-- C16 fails as stated in its last part.  For `emptyContainer` both loaders
throw a `std::runtime_error`, each is caught by its own catch clause, and
`loadScatterers` returns normally: its caller gets no error, only the two
warning lines are written to the log. -/
theorem empty_container_reports_no_error :
    emptyContainer.loadFixedScatterersFromHdf =
      Except.error (Thrown.runtime_error "no fixed scatterers") ∧
    emptyContainer.loadSplineScatterersFromHdf =
      Except.error (Thrown.runtime_error "no spline scatterers") ∧
    (loadScatterers emptyContainer exampleScattererWindow).2 = Outcome.returned ∧
    (loadScatterers emptyContainer exampleScattererWindow).1.m_log_widget =
      [(LogLevel.WARNING, "Could not read fixed scatterers from file"),
       (LogLevel.WARNING, "Could not read spline scatterers from file")] := by
  have h := loadScatterers_both_fail emptyContainer exampleScattererWindow
    "no fixed scatterers" "no spline scatterers" (by decide) rfl rfl
  refine ⟨rfl, rfl, ?_, ?_⟩
  · rw [h]
  · rw [h]
    rfl

/-- C16, amended: for every container with a file name, if the fixed load
fails with a runtime error and the spline load succeeds, the spline collection
is the one the engine holds afterwards and `loadScatterers` returns normally;
if the spline load fails and the fixed load succeeds, the fixed collection is
the one the engine holds and `loadScatterers` returns normally; if both loads
fail, `loadScatterers` also returns normally, with the two warnings appended to
the log and no collection on the engine. -/
theorem loadScatterers_failure_cases (file : ScattererFile) (w : ScattererWindow)
    (hname : file.h5_file ≠ "") :
    (∀ a ss, file.loadFixedScatterersFromHdf = Except.error (Thrown.runtime_error a) →
      file.loadSplineScatterersFromHdf = Except.ok ss →
      (loadScatterers file w).2 = Outcome.returned ∧
      (loadScatterers file w).1.spline_scatterers = [ss] ∧
      (loadScatterers file w).1.fixed_scatterers = []) ∧
    (∀ fs b, file.loadFixedScatterersFromHdf = Except.ok fs →
      file.loadSplineScatterersFromHdf = Except.error (Thrown.runtime_error b) →
      (loadScatterers file w).2 = Outcome.returned ∧
      (loadScatterers file w).1.fixed_scatterers = [fs] ∧
      (loadScatterers file w).1.spline_scatterers = []) ∧
    (∀ a b, file.loadFixedScatterersFromHdf = Except.error (Thrown.runtime_error a) →
      file.loadSplineScatterersFromHdf = Except.error (Thrown.runtime_error b) →
      (loadScatterers file w).2 = Outcome.returned ∧
      (loadScatterers file w).1.fixed_scatterers = [] ∧
      (loadScatterers file w).1.spline_scatterers = [] ∧
      (loadScatterers file w).1.m_log_widget = w.m_log_widget ++
        [(LogLevel.WARNING, "Could not read fixed scatterers from file"),
         (LogLevel.WARNING, "Could not read spline scatterers from file")]) := by
  refine ⟨?_, ?_, ?_⟩
  · intro a ss hfixed hspline
    rw [loadScatterers_fixed_fails file w a ss hname hfixed hspline]
    refine ⟨rfl, ?_, ?_⟩
    · exact (updateWithNewSplineScatterers_sets file ss _).1
    · exact (updateWithNewSplineScatterers_sets file ss _).2
  · intro fs b hfixed hspline
    rw [loadScatterers_spline_fails file w fs b hname hfixed hspline]
    refine ⟨rfl, ?_, ?_⟩
    · exact (updateWithNewFixedScatterers_sets file fs _).1
    · exact (updateWithNewFixedScatterers_sets file fs _).2.1
  · intro a b hfixed hspline
    rw [loadScatterers_both_fail file w a b hname hfixed hspline]
    exact ⟨rfl, rfl, rfl, rfl⟩

/-- C16, amended, on `splineContainer` (fixed load fails, spline collection 3
is installed) and on `emptyContainer` (both loads fail, normal return). -/
theorem loadScatterers_failure_cases_witness :
    splineContainer.h5_file ≠ "" ∧
    ((loadScatterers splineContainer exampleScattererWindow).2 = Outcome.returned ∧
      (loadScatterers splineContainer exampleScattererWindow).1.spline_scatterers =
        [{ id := 3, min_time := 0, max_time := 2 }] ∧
      (loadScatterers splineContainer exampleScattererWindow).1.fixed_scatterers = []) ∧
    (loadScatterers emptyContainer exampleScattererWindow).2 = Outcome.returned :=
  ⟨by decide,
   (loadScatterers_failure_cases splineContainer exampleScattererWindow (by decide)).1
     "no fixed scatterers" { id := 3, min_time := 0, max_time := 2 } rfl rfl,
   ((loadScatterers_failure_cases emptyContainer exampleScattererWindow (by decide)).2.2
     "no fixed scatterers" "no spline scatterers" rfl rfl).1⟩

/-! ## C17: the engine after a load that fails for both kinds -/

/-- C17 fails as stated.  `exampleScattererWindow` has fixed collection 1 and
spline collection 2 on the engine; `loadScatterers` clears both before it reads
`emptyContainer`, both reads fail, and the engine holds no collection
afterwards. -/
theorem failed_load_drops_installed_scatterers :
    exampleScattererWindow.fixed_scatterers = [{ id := 1 }] ∧
    exampleScattererWindow.spline_scatterers = [{ id := 2, min_time := 0, max_time := 1 }] ∧
    (loadScatterers emptyContainer exampleScattererWindow).1.fixed_scatterers = [] ∧
    (loadScatterers emptyContainer exampleScattererWindow).1.spline_scatterers = [] ∧
    (loadScatterers emptyContainer exampleScattererWindow).1.fixed_scatterers ≠
      exampleScattererWindow.fixed_scatterers ∧
    (loadScatterers emptyContainer exampleScattererWindow).1.spline_scatterers ≠
      exampleScattererWindow.spline_scatterers := by
  have h := loadScatterers_both_fail emptyContainer exampleScattererWindow
    "no fixed scatterers" "no spline scatterers" (by decide) rfl rfl
  rw [h]
  refine ⟨rfl, rfl, rfl, rfl, ?_, ?_⟩
  · intro hc
    exact List.noConfusion hc
  · intro hc
    exact List.noConfusion hc

/-- C17, amended: for every container with a file name whose read fails with a
runtime error for both kinds, `loadScatterers` returns normally and changes the
window in just two ways: the engine holds no fixed and no spline collection
afterwards, whatever it held before, and the two warnings are appended to the
log.  The time axis (minimum, maximum, current time) is as before. -/
theorem failed_load_clears_scatterers (file : ScattererFile) (w : ScattererWindow)
    (a b : String) (hname : file.h5_file ≠ "")
    (hfixed : file.loadFixedScatterersFromHdf = Except.error (Thrown.runtime_error a))
    (hspline : file.loadSplineScatterersFromHdf = Except.error (Thrown.runtime_error b)) :
    (loadScatterers file w).2 = Outcome.returned ∧
    (loadScatterers file w).1 =
      { w with
        fixed_scatterers := []
        spline_scatterers := []
        m_log_widget := w.m_log_widget ++
          [(LogLevel.WARNING, "Could not read fixed scatterers from file"),
           (LogLevel.WARNING, "Could not read spline scatterers from file")] } ∧
    (loadScatterers file w).1.min_time = w.min_time ∧
    (loadScatterers file w).1.max_time = w.max_time ∧
    (loadScatterers file w).1.time = w.time := by
  rw [loadScatterers_both_fail file w a b hname hfixed hspline]
  exact ⟨rfl, rfl, rfl, rfl, rfl⟩

/-- C17, amended, on `emptyContainer` and `exampleScattererWindow`. -/
theorem failed_load_clears_scatterers_witness :
    emptyContainer.h5_file ≠ "" ∧
    (loadScatterers emptyContainer exampleScattererWindow).2 = Outcome.returned ∧
    (loadScatterers emptyContainer exampleScattererWindow).1 =
      { exampleScattererWindow with
        fixed_scatterers := []
        spline_scatterers := []
        m_log_widget := exampleScattererWindow.m_log_widget ++
          [(LogLevel.WARNING, "Could not read fixed scatterers from file"),
           (LogLevel.WARNING, "Could not read spline scatterers from file")] } ∧
    (loadScatterers emptyContainer exampleScattererWindow).1.min_time =
      exampleScattererWindow.min_time ∧
    (loadScatterers emptyContainer exampleScattererWindow).1.max_time =
      exampleScattererWindow.max_time ∧
    (loadScatterers emptyContainer exampleScattererWindow).1.time =
      exampleScattererWindow.time :=
  ⟨by decide,
   failed_load_clears_scatterers emptyContainer exampleScattererWindow
     "no fixed scatterers" "no spline scatterers" (by decide) rfl rfl⟩

/-! ## C18: a runtime error while a simulator is created -/

/-- C18: whenever `createNewSimulator`, called from `onCreateNewSimulator`
after the dialog was accepted, throws a `std::runtime_error`, the slot catches
it, logs it, requests the application to quit and returns normally, so the
error does not leave the slot and the session is not continued; when the
creation succeeds no quit is requested by the slot.  A type other than "auto",
"gpu" and "cpu" makes `createNewSimulator` throw the runtime error of its null
check, with `m_sim` null. -/
theorem creation_error_requests_quit (sim_type : String) (cr : CreateRequest)
    (w : SimulatorWindow) :
    (∀ what, (createNewSimulator sim_type cr w).2 = Except.error (Thrown.runtime_error what) →
      (onCreateNewSimulator true sim_type cr w).2 = Outcome.returned ∧
      (onCreateNewSimulator true sim_type cr w).1.quit_requested = true ∧
      (onCreateNewSimulator true sim_type cr w).1.m_sim =
        (createNewSimulator sim_type cr w).1.m_sim ∧
      (onCreateNewSimulator true sim_type cr w).1.m_log_widget =
        (createNewSimulator sim_type cr w).1.m_log_widget ++
          [(LogLevel.INFO, "onCreateNewSimulator: caught exception: " ++ what)]) ∧
    ((createNewSimulator sim_type cr w).2 = Except.ok () →
      (onCreateNewSimulator true sim_type cr w).2 = Outcome.returned ∧
      (onCreateNewSimulator true sim_type cr w).1.quit_requested = w.quit_requested) ∧
    (sim_type ≠ "auto" → sim_type ≠ "gpu" → sim_type ≠ "cpu" →
      createNewSimulator sim_type cr w =
        ({ w with m_sim := none },
         Except.error
           (Thrown.runtime_error "This should never happen - simulator was not created!")) ∧
      (onCreateNewSimulator true sim_type cr w).1.quit_requested = true) := by
  refine ⟨?_, ?_, ?_⟩
  · intro what h
    rw [onCreateNewSimulator_of_runtime_error sim_type cr w what h]
    exact ⟨rfl, rfl, rfl, rfl⟩
  · intro h
    rw [onCreateNewSimulator_of_ok sim_type cr w h]
    exact ⟨rfl, createNewSimulator_quit_requested sim_type cr w⟩
  · intro hauto hgpu hcpu
    have hc := createNewSimulator_unknown_type sim_type cr w hauto hgpu hcpu
    refine ⟨hc, ?_⟩
    rw [onCreateNewSimulator_of_runtime_error sim_type cr w
      "This should never happen - simulator was not created!" (by rw [hc])]

/-- C18 on `gpuFailingCreate`: the user picks "gpu", `bcsim::Create` throws,
and the slot requests a quit; the type "fpga" runs into the null check. -/
theorem creation_error_requests_quit_witness :
    (createNewSimulator "gpu" gpuFailingCreate exampleSimulatorWindow).2 =
      Except.error (Thrown.runtime_error "no CUDA device") ∧
    ((onCreateNewSimulator true "gpu" gpuFailingCreate exampleSimulatorWindow).2 =
        Outcome.returned ∧
      (onCreateNewSimulator true "gpu" gpuFailingCreate exampleSimulatorWindow).1.quit_requested =
        true) ∧
    createNewSimulator "fpga" gpuFailingCreate exampleSimulatorWindow =
      ({ exampleSimulatorWindow with m_sim := none },
       Except.error
         (Thrown.runtime_error "This should never happen - simulator was not created!")) :=
  ⟨rfl,
   ⟨((creation_error_requests_quit "gpu" gpuFailingCreate exampleSimulatorWindow).1
      "no CUDA device" rfl).1,
    ((creation_error_requests_quit "gpu" gpuFailingCreate exampleSimulatorWindow).1
      "no CUDA device" rfl).2.1⟩,
   ((creation_error_requests_quit "fpga" gpuFailingCreate exampleSimulatorWindow).2.2
      (by decide) (by decide) (by decide)).1⟩

/-! ## C21: the read of line 0 of the B-mode frame -/

/-- C21.  A request whose B-mode statement is reached with the B-mode flag set
and whose B-mode `simulate_lines` call returns `frame`.  The read
`rf_lines_complex[0]` finds a line exactly when the frame has at least one
line: `doSimulation` is left with an out-of-range access iff the frame has zero
lines, and normally iff it has at least one.  In the zero-line case nothing is
recorded and no task is submitted by the B-mode statement. -/
theorem bmode_line_zero_bounds (rq : SimRequest) (st : MainWindow) (frame : IQ_Frame)
    (hbmode : rq.enable_bmode = true)
    (hret : (colorStage rq (newScansequence rq st rq.geometry rq.num_lines
      rq.all_timestamps_equal)).2 = Outcome.returned)
    (hsim : rq.simulate_lines (stateBeforeBmode rq st).m_sim.num_simulate_calls
      (stateBeforeBmode rq st).m_sim.scan_sequence = Except.ok frame) :
    ((doSimulation rq st).2 = Outcome.out_of_bounds ↔ frame.length = 0) ∧
    ((doSimulation rq st).2 = Outcome.returned ↔ 1 ≤ frame.length) ∧
    (frame.get? 0 = none ↔ frame.length = 0) ∧
    (frame.length = 0 →
      (doSimulation rq st).1.m_refresh_worker = (stateBeforeBmode rq st).m_refresh_worker ∧
      (doSimulation rq st).1.m_iq_buffer = st.m_iq_buffer ∧
      (doSimulation rq st).1.m_iq_buffer_timestamps = st.m_iq_buffer_timestamps) := by
  have hd := doSimulation_of_returned rq st hret
  have ho : (doSimulation rq st).2 =
      (match frame.get? 0 with
        | none => Outcome.out_of_bounds
        | some _ => Outcome.returned) := by
    rw [hd]
    unfold bmodeStage
    rw [if_pos hbmode]
    exact bmodePath_outcome_of_ok rq _ frame hsim
  cases frame with
  | nil =>
    refine ⟨?_, ?_, ?_, ?_⟩
    · rw [ho]
      simp
    · rw [ho]
      simp
    · simp
    · intro _
      obtain ⟨h1, h2⟩ := doSimulation_buffer_of_returned rq st hret
      rw [h1, h2, bmodeFrame_of_empty rq _ hsim, hd]
      obtain ⟨h3, _, _⟩ := bmodeStage_effect rq (stateBeforeBmode rq st)
      rw [h3, bmodeFrame_of_empty rq _ hsim]
      simp
  | cons line lines =>
    refine ⟨?_, ?_, ?_, ?_⟩
    · rw [ho]
      simp
    · rw [ho]
      simp
    · simp
    · intro h
      simp at h

/-- C21 on `emptyFrameRequest`: the engine returns a frame without lines and
the request is left with an out-of-range access; on `exampleRequest` with the
color mode off the frame has one line and the request is left normally. -/
theorem bmode_line_zero_bounds_witness :
    (doSimulation emptyFrameRequest exampleWindow).2 = Outcome.out_of_bounds ∧
    (doSimulation bmodeOnlyRequest exampleWindow).2 = Outcome.returned :=
  ⟨(bmode_line_zero_bounds emptyFrameRequest exampleWindow [] rfl rfl rfl).1.mpr rfl,
   (bmode_line_zero_bounds bmodeOnlyRequest exampleWindow [[(1, 2)]] rfl rfl rfl).2.1.mpr
     (by decide)⟩

/-! ## C22: the buffer after an export -/

/-- C23.  When the buffer holds zero frames and zero timestamps,
`onSaveIqBufferAs` stops at the `No frames in buffer` guard; when the file
dialog, shown after the count check, is left without a name, it stops at the
`Ignoring IQ buffer save` guard.  In both cases no file is written and the
frame sequence and the timestamp sequence are as before.  Without a name no
file is written on any path. -/
theorem save_without_frames_or_name (h5_file : String) (h5_ok : Bool) (st : MainWindow) :
    (st.m_iq_buffer = [] → st.m_iq_buffer_timestamps = [] →
      (onSaveIqBufferAs h5_file h5_ok st).2 = SaveOutcome.no_frames ∧
      (onSaveIqBufferAs h5_file h5_ok st).2.wroteFile = false ∧
      (onSaveIqBufferAs h5_file h5_ok st).1.m_iq_buffer = st.m_iq_buffer ∧
      (onSaveIqBufferAs h5_file h5_ok st).1.m_iq_buffer_timestamps =
        st.m_iq_buffer_timestamps) ∧
    (h5_file = "" → st.m_iq_buffer_timestamps.length = st.m_iq_buffer.length →
      st.m_iq_buffer ≠ [] →
      (onSaveIqBufferAs h5_file h5_ok st).2 = SaveOutcome.no_file_name ∧
      (onSaveIqBufferAs h5_file h5_ok st).2.wroteFile = false ∧
      (onSaveIqBufferAs h5_file h5_ok st).1.m_iq_buffer = st.m_iq_buffer ∧
      (onSaveIqBufferAs h5_file h5_ok st).1.m_iq_buffer_timestamps =
        st.m_iq_buffer_timestamps) ∧
    (h5_file = "" → (onSaveIqBufferAs h5_file h5_ok st).2.wroteFile = false) := by
  refine ⟨?_, ?_, ?_⟩
  · intro hb ht
    rw [onSaveIqBufferAs_of_no_frames h5_file h5_ok st hb ht]
    exact ⟨rfl, rfl, rfl, rfl⟩
  · intro hname hts hF
    subst hname
    rw [onSaveIqBufferAs_of_no_name h5_ok st hts hF]
    exact ⟨rfl, rfl, rfl, rfl⟩
  · intro hname
    cases hw : (onSaveIqBufferAs h5_file h5_ok st).2.wroteFile with
    | false => rfl
    | true => exact absurd hname (onSaveIqBufferAs_of_wrote h5_file h5_ok st hw).2.2.1

/-- C23 on `exampleWindow` (empty buffer, a name given) and on `rectWindow`
(one frame, no name given). -/
theorem save_without_frames_or_name_witness :
    ((onSaveIqBufferAs "iq.h5" true exampleWindow).2 = SaveOutcome.no_frames ∧
      (onSaveIqBufferAs "iq.h5" true exampleWindow).2.wroteFile = false ∧
      (onSaveIqBufferAs "iq.h5" true exampleWindow).1.m_iq_buffer =
        exampleWindow.m_iq_buffer ∧
      (onSaveIqBufferAs "iq.h5" true exampleWindow).1.m_iq_buffer_timestamps =
        exampleWindow.m_iq_buffer_timestamps) ∧
    ((onSaveIqBufferAs "" true rectWindow).2 = SaveOutcome.no_file_name ∧
      (onSaveIqBufferAs "" true rectWindow).2.wroteFile = false ∧
      (onSaveIqBufferAs "" true rectWindow).1.m_iq_buffer = rectWindow.m_iq_buffer ∧
      (onSaveIqBufferAs "" true rectWindow).1.m_iq_buffer_timestamps =
        rectWindow.m_iq_buffer_timestamps) :=
  ⟨(save_without_frames_or_name "iq.h5" true exampleWindow).1 rfl rfl,
   (save_without_frames_or_name "" true rectWindow).2.1 rfl rfl (by decide)⟩

/-! ## C24: frames and tasks of a replay -/

/-- C24.  A replay with a file chosen, from a container whose datasets
`sim_data_real` and `sim_data_imag` have the same extents.  For extents
`A x B x C` the slot produces exactly `A` frames, each of `C` lines of `B`
samples, sample `n` of line `i` of frame `f` being the pair of `real[f][n][i]`
and `imag[f][n][i]`, and it appends to the queue one B-mode task per frame, in
the order of the frames.  For extents `B x C` it produces one frame of `C`
lines of `B` samples and appends exactly one B-mode task. -/
theorem replay_frames_and_tasks (grayscale : GrayscaleSettings) (dpm : ℚ) (h5_file : String)
    (container : H5File) (st : MainWindow) (re im : H5Dataset) (hname : h5_file ≠ "")
    (hre : container.lookup "sim_data_real" = some re)
    (him : container.lookup "sim_data_imag" = some im) :
    (∀ A B C, re.dims = [A, B, C] → im.dims = [A, B, C] →
      ∃ iq_frames,
        (onLoadSimulatedData grayscale dpm h5_file container st).2 =
          LoadOutcome.loaded iq_frames ∧
        iq_frames.length = A ∧
        (∀ f, f < A → ∃ frame, iq_frames.get? f = some frame ∧ frame.length = C ∧
          ∀ i, i < C → ∃ line, frame.get? i = some line ∧ line.length = B ∧
            ∀ n, n < B → line.get? n = some (re.elem [f, n, i], im.elem [f, n, i])) ∧
        (onLoadSimulatedData grayscale dpm h5_file container st).1.m_refresh_worker =
          st.m_refresh_worker ++ iq_frames.map fun frame =>
            WorkTask.BMode st.m_scan_geometry frame grayscale.normalization_const
              grayscale.auto_normalize dpm grayscale.dyn_range grayscale.gain) ∧
    (∀ B C, re.dims = [B, C] → im.dims = [B, C] →
      ∃ frame,
        (onLoadSimulatedData grayscale dpm h5_file container st).2 =
          LoadOutcome.loaded [frame] ∧
        frame.length = C ∧
        (∀ i, i < C → ∃ line, frame.get? i = some line ∧ line.length = B ∧
          ∀ n, n < B → line.get? n = some (re.elem [n, i], im.elem [n, i])) ∧
        (onLoadSimulatedData grayscale dpm h5_file container st).1.m_refresh_worker =
          st.m_refresh_worker ++
            [WorkTask.BMode st.m_scan_geometry frame grayscale.normalization_const
              grayscale.auto_normalize dpm grayscale.dyn_range grayscale.gain]) := by
  refine ⟨?_, ?_⟩
  · intro A B C hdre hdim
    have hload := load_iq_frames_of_rank3 container re im A B C hre him hdre hdim
    obtain ⟨h1, h2⟩ := onLoadSimulatedData_of_ok grayscale dpm h5_file container st _ hname hload
    refine ⟨_, h1, by simp, ?_, h2⟩
    intro f hf
    refine ⟨_, get?_map_range _ A f hf, by simp, ?_⟩
    intro i hi
    refine ⟨_, get?_map_range _ C i hi, by simp, ?_⟩
    intro n hn
    exact get?_map_range _ B n hn
  · intro B C hdre hdim
    have hload := load_iq_frames_of_rank2 container re im B C hre him hdre hdim
    obtain ⟨h1, h2⟩ := onLoadSimulatedData_of_ok grayscale dpm h5_file container st _ hname hload
    refine ⟨_, h1, by simp, ?_, h2⟩
    intro i hi
    refine ⟨_, get?_map_range _ C i hi, by simp, ?_⟩
    intro n hn
    exact get?_map_range _ B n hn

/-- C24 on `replayContainer` (extents 2 x 3 x 1: two frames, two tasks) and on
`singleFrameContainer` (extents 3 x 1: one frame, one task). -/
theorem replay_frames_and_tasks_witness :
    (∃ iq_frames,
      (onLoadSimulatedData exampleRequest.grayscale 6000 "replay.h5" replayContainer
        exampleWindow).2 = LoadOutcome.loaded iq_frames ∧
      iq_frames.length = 2 ∧
      (onLoadSimulatedData exampleRequest.grayscale 6000 "replay.h5" replayContainer
        exampleWindow).1.m_refresh_worker.length = 2) ∧
    (∃ frame,
      (onLoadSimulatedData exampleRequest.grayscale 6000 "replay.h5" singleFrameContainer
        exampleWindow).2 = LoadOutcome.loaded [frame] ∧
      (onLoadSimulatedData exampleRequest.grayscale 6000 "replay.h5" singleFrameContainer
        exampleWindow).1.m_refresh_worker.length = 1) := by
  obtain ⟨iq_frames, h1, h2, _, h4⟩ :=
    (replay_frames_and_tasks exampleRequest.grayscale 6000 "replay.h5" replayContainer
      exampleWindow (indexDataset [2, 3, 1] 0) (indexDataset [2, 3, 1] 1000) (by decide)
      rfl rfl).1 2 3 1 rfl rfl
  obtain ⟨frame, g1, _, _, g4⟩ :=
    (replay_frames_and_tasks exampleRequest.grayscale 6000 "replay.h5" singleFrameContainer
      exampleWindow (indexDataset [3, 1] 0) (indexDataset [3, 1] 1000) (by decide)
      rfl rfl).2 3 1 rfl rfl
  refine ⟨⟨iq_frames, h1, h2, ?_⟩, ⟨frame, g1, ?_⟩⟩
  · rw [h4, List.length_append, List.length_map, h2]
    rfl
  · rw [g4]
    rfl

/-! ## C25: a replay from datasets of unfit shape -/

/-- C25.  A replay with a file chosen, from a container that has the datasets
`sim_data_real` and `sim_data_imag`.  When the two differ in rank, when they
differ in the size of some dimension, or when the rank is neither 2 nor 3, the
slot raises one of its runtime errors and the queue is as before: no task is
submitted.  A difference in rank raises `real/imag rank mismatch`, and equal
ranks other than 2 and 3 raise `sim_data must have rank 2 or 3`. -/
theorem replay_raises_on_unfit_shape (grayscale : GrayscaleSettings) (dpm : ℚ)
    (h5_file : String) (container : H5File) (st : MainWindow) (re im : H5Dataset)
    (hname : h5_file ≠ "")
    (hre : container.lookup "sim_data_real" = some re)
    (him : container.lookup "sim_data_imag" = some im)
    (hbad : re.dims.length ≠ im.dims.length ∨
      (∃ k, k < re.dims.length ∧ re.dims.getD k 0 ≠ im.dims.getD k 0) ∨
      (re.dims.length ≠ 2 ∧ re.dims.length ≠ 3)) :
    (∃ what, (onLoadSimulatedData grayscale dpm h5_file container st).2 =
        LoadOutcome.raised what ∧ what ∈ load_runtime_errors) ∧
    (onLoadSimulatedData grayscale dpm h5_file container st).1.m_refresh_worker =
      st.m_refresh_worker ∧
    (re.dims.length ≠ im.dims.length →
      (onLoadSimulatedData grayscale dpm h5_file container st).2 =
        LoadOutcome.raised "real/imag rank mismatch") ∧
    (re.dims.length = im.dims.length → re.dims.length ≠ 2 → re.dims.length ≠ 3 →
      (onLoadSimulatedData grayscale dpm h5_file container st).2 =
        LoadOutcome.raised "sim_data must have rank 2 or 3") := by
  have hload : ∃ what, load_iq_frames container = Except.error what ∧
      what ∈ load_runtime_errors := by
    by_cases hrank : re.dims.length = im.dims.length
    · rcases hbad with h | ⟨k, hk, hne⟩ | ⟨h2, h3⟩
      · exact absurd hrank h
      · exact load_iq_frames_of_dim_mismatch container re im hre him hrank k hk hne
      · exact ⟨_, load_iq_frames_of_other_rank container re im hre him hrank h2 h3, by decide⟩
    · exact ⟨_, load_iq_frames_of_rank_mismatch container re im hre him hrank, by decide⟩
  obtain ⟨what, hw, hmem⟩ := hload
  obtain ⟨h1, h2⟩ := onLoadSimulatedData_of_error grayscale dpm h5_file container st what
    hname hw
  refine ⟨⟨what, h1, hmem⟩, h2, ?_, ?_⟩
  · intro hrank
    exact (onLoadSimulatedData_of_error grayscale dpm h5_file container st _ hname
      (load_iq_frames_of_rank_mismatch container re im hre him hrank)).1
  · intro hrank h2 h3
    exact (onLoadSimulatedData_of_error grayscale dpm h5_file container st _ hname
      (load_iq_frames_of_other_rank container re im hre him hrank h2 h3)).1

/-- C25 on `rankMismatchContainer` (ranks 3 and 2), `sizeMismatchContainer`
(extents 2 x 3 x 1 and 2 x 3 x 2) and `rankFourContainer`: no task is
submitted. -/
theorem replay_raises_on_unfit_shape_witness :
    (onLoadSimulatedData exampleRequest.grayscale 6000 "replay.h5" rankMismatchContainer
      exampleWindow).2 = LoadOutcome.raised "real/imag rank mismatch" ∧
    (onLoadSimulatedData exampleRequest.grayscale 6000 "replay.h5" sizeMismatchContainer
      exampleWindow).1.m_refresh_worker = exampleWindow.m_refresh_worker ∧
    (onLoadSimulatedData exampleRequest.grayscale 6000 "replay.h5" rankFourContainer
      exampleWindow).2 = LoadOutcome.raised "sim_data must have rank 2 or 3" :=
  ⟨(replay_raises_on_unfit_shape exampleRequest.grayscale 6000 "replay.h5"
      rankMismatchContainer exampleWindow (indexDataset [2, 3, 1] 0)
      (indexDataset [3, 1] 1000) (by decide) rfl rfl (Or.inl (by decide))).2.2.1 (by decide),
   (replay_raises_on_unfit_shape exampleRequest.grayscale 6000 "replay.h5"
      sizeMismatchContainer exampleWindow (indexDataset [2, 3, 1] 0)
      (indexDataset [2, 3, 2] 1000) (by decide) rfl rfl
      (Or.inr (Or.inl ⟨2, by decide, by decide⟩))).2.1,
   (replay_raises_on_unfit_shape exampleRequest.grayscale 6000 "replay.h5"
      rankFourContainer exampleWindow (indexDataset [1, 1, 1, 1] 0)
      (indexDataset [1, 1, 1, 1] 1000) (by decide) rfl rfl
      (Or.inr (Or.inr ⟨by decide, by decide⟩))).2.2.2 rfl (by decide) (by decide)⟩

/-! ## C26: the backend chosen by `createNewSimulator` -/

/-- C26 fails as stated.  The type "gpu" is requested from `gpuFailingCreate`,
where `bcsim::Create("gpu")` throws: no engine is created, and a runtime
error is raised although the type is one of the three known ones; the same
happens for "auto", the build having GPU support.  For "auto" on the build
with GPU support of `gpuNameFailingCreate` the name query throws before
`bcsim::Create` is reached, and for "cpu" on `cpuFailingCreate` the call
`bcsim::Create("cpu")` throws: no engine is created either. -/
theorem requested_engine_not_created :
    ((createNewSimulator "gpu" gpuFailingCreate exampleSimulatorWindow).1.m_sim = none ∧
      (createNewSimulator "gpu" gpuFailingCreate exampleSimulatorWindow).2 =
        Except.error (Thrown.runtime_error "no CUDA device")) ∧
    (gpuFailingCreate.built_with_gpu_support = true ∧
      (createNewSimulator "auto" gpuFailingCreate exampleSimulatorWindow).1.m_sim = none ∧
      (createNewSimulator "auto" gpuFailingCreate exampleSimulatorWindow).2 =
        Except.error (Thrown.runtime_error "no CUDA device")) ∧
    (gpuNameFailingCreate.built_with_gpu_support = true ∧
      (createNewSimulator "auto" gpuNameFailingCreate exampleSimulatorWindow).1.m_sim = none ∧
      (createNewSimulator "auto" gpuNameFailingCreate exampleSimulatorWindow).2 =
        Except.error (Thrown.runtime_error "invalid device ordinal")) ∧
    ((createNewSimulator "cpu" cpuFailingCreate exampleSimulatorWindow).1.m_sim = none ∧
      (createNewSimulator "cpu" cpuFailingCreate exampleSimulatorWindow).2 =
        Except.error Thrown.other_exception) := by
  refine ⟨⟨rfl, rfl⟩, ⟨rfl, rfl, rfl⟩, ⟨rfl, rfl, rfl⟩, ⟨rfl, rfl⟩⟩

/-- C26, amended.  After `createNewSimulator`, `m_sim` is a GPU engine if and
only if the type is "gpu", or "auto" on a build with GPU support, and the
calls on that path return: the GPU name query, which is made for "auto" only,
and `bcsim::Create("gpu")`.  It is a CPU engine if and only if the type is
"cpu", or "auto" on a build without GPU support, and `bcsim::Create("cpu")`
returns.  When the name query or the `bcsim::Create` call of the requested
engine throws, no engine is created and `createNewSimulator` is left by the
exception thrown.  For every other type no engine is created and the runtime
error of the null check is raised.  Exactly one of the three cases (a GPU
engine requested, a CPU engine requested, another type) applies to a type
and a build. -/
theorem backend_selection (sim_type : String) (cr : CreateRequest) (w : SimulatorWindow) :
    ((createNewSimulator sim_type cr w).1.m_sim = some SimKind.gpu ↔
      (sim_type = "gpu" ∨ (sim_type = "auto" ∧ cr.built_with_gpu_support = true)) ∧
      (sim_type = "auto" → ∃ name, cr.get_gpu_name = Except.ok name) ∧
      cr.Create SimKind.gpu = Except.ok ()) ∧
    ((createNewSimulator sim_type cr w).1.m_sim = some SimKind.cpu ↔
      (sim_type = "cpu" ∨ (sim_type = "auto" ∧ cr.built_with_gpu_support = false)) ∧
      cr.Create SimKind.cpu = Except.ok ()) ∧
    (∀ e, sim_type = "auto" ∧ cr.built_with_gpu_support = true ∧
        cr.get_gpu_name = Except.error e →
      createNewSimulator sim_type cr w = ({ w with m_sim := none }, Except.error e)) ∧
    (∀ e, (sim_type = "gpu" ∨ (sim_type = "auto" ∧ cr.built_with_gpu_support = true)) ∧
        (sim_type = "auto" → ∃ name, cr.get_gpu_name = Except.ok name) ∧
        cr.Create SimKind.gpu = Except.error e →
      createNewSimulator sim_type cr w = ({ w with m_sim := none }, Except.error e)) ∧
    (∀ e, (sim_type = "cpu" ∨ (sim_type = "auto" ∧ cr.built_with_gpu_support = false)) ∧
        cr.Create SimKind.cpu = Except.error e →
      createNewSimulator sim_type cr w = ({ w with m_sim := none }, Except.error e)) ∧
    (sim_type ≠ "auto" ∧ sim_type ≠ "gpu" ∧ sim_type ≠ "cpu" →
      (createNewSimulator sim_type cr w).1.m_sim = none ∧
      (createNewSimulator sim_type cr w).2 = Except.error
        (Thrown.runtime_error "This should never happen - simulator was not created!")) ∧
    (((sim_type = "gpu" ∨ (sim_type = "auto" ∧ cr.built_with_gpu_support = true)) ∧
        ¬ (sim_type = "cpu" ∨ (sim_type = "auto" ∧ cr.built_with_gpu_support = false)) ∧
        ¬ (sim_type ≠ "auto" ∧ sim_type ≠ "gpu" ∧ sim_type ≠ "cpu")) ∨
      (¬ (sim_type = "gpu" ∨ (sim_type = "auto" ∧ cr.built_with_gpu_support = true)) ∧
        (sim_type = "cpu" ∨ (sim_type = "auto" ∧ cr.built_with_gpu_support = false)) ∧
        ¬ (sim_type ≠ "auto" ∧ sim_type ≠ "gpu" ∧ sim_type ≠ "cpu")) ∨
      (¬ (sim_type = "gpu" ∨ (sim_type = "auto" ∧ cr.built_with_gpu_support = true)) ∧
        ¬ (sim_type = "cpu" ∨ (sim_type = "auto" ∧ cr.built_with_gpu_support = false)) ∧
        (sim_type ≠ "auto" ∧ sim_type ≠ "gpu" ∧ sim_type ≠ "cpu"))) := by
  refine ⟨createNewSimulator_m_sim_gpu sim_type cr w, createNewSimulator_m_sim_cpu sim_type cr w,
    ?_, ?_, ?_, ?_, ?_⟩
  · rintro e ⟨hauto, hb, hn⟩
    rw [hauto]
    exact createNewSimulator_of_name_error cr w e hb hn
  · rintro e ⟨hsel, hname, hc⟩
    exact createNewSimulator_of_create_gpu_error sim_type cr w e hsel hname hc
  · rintro e ⟨hsel, hc⟩
    exact createNewSimulator_of_create_cpu_error sim_type cr w e hsel hc
  · intro h
    rw [createNewSimulator_unknown_type sim_type cr w h.1 h.2.1 h.2.2]
    exact ⟨rfl, rfl⟩
  · by_cases hauto : sim_type = "auto"
    · subst hauto
      cases cr.built_with_gpu_support
      · right
        left
        simp
      · left
        simp
    · by_cases hg : sim_type = "gpu"
      · subst hg
        left
        simp
      · by_cases hc : sim_type = "cpu"
        · subst hc
          right
          left
          simp
        · right
          right
          simp [hauto, hg, hc]

/-- The amended C26 on concrete collaborators: where every call returns, "auto"
gives the GPU engine on a build with GPU support (`workingCreate`) and the
CPU engine on a build without (`cpuOnlyCreate`); the type "gpu" gives the GPU
engine also where the name query would throw (`gpuNameFailingCreate`), the
query not being made; where `bcsim::Create("gpu")` throws
(`gpuFailingCreate`), "gpu" is left by that exception without an engine; and
the type "fpga" gives no engine and the runtime error of the null check. -/
theorem backend_selection_witness :
    (createNewSimulator "auto" workingCreate exampleSimulatorWindow).1.m_sim =
      some SimKind.gpu ∧
    (createNewSimulator "gpu" gpuNameFailingCreate exampleSimulatorWindow).1.m_sim =
      some SimKind.gpu ∧
    (createNewSimulator "auto" cpuOnlyCreate exampleSimulatorWindow).1.m_sim =
      some SimKind.cpu ∧
    createNewSimulator "gpu" gpuFailingCreate exampleSimulatorWindow =
      ({ exampleSimulatorWindow with m_sim := none },
        Except.error (Thrown.runtime_error "no CUDA device")) ∧
    ((createNewSimulator "fpga" workingCreate exampleSimulatorWindow).1.m_sim = none ∧
      (createNewSimulator "fpga" workingCreate exampleSimulatorWindow).2 = Except.error
        (Thrown.runtime_error "This should never happen - simulator was not created!")) :=
  ⟨(backend_selection "auto" workingCreate exampleSimulatorWindow).1.mpr
     ⟨Or.inr ⟨rfl, rfl⟩, fun _ => ⟨_, rfl⟩, rfl⟩,
   (backend_selection "gpu" gpuNameFailingCreate exampleSimulatorWindow).1.mpr
     ⟨Or.inl rfl, fun h => absurd h (by decide), rfl⟩,
   (backend_selection "auto" cpuOnlyCreate exampleSimulatorWindow).2.1.mpr
     ⟨Or.inr ⟨rfl, rfl⟩, rfl⟩,
   (backend_selection "gpu" gpuFailingCreate exampleSimulatorWindow).2.2.2.1 _
     ⟨Or.inl rfl, fun h => absurd h (by decide), rfl⟩,
   (backend_selection "fpga" workingCreate exampleSimulatorWindow).2.2.2.2.2.1
     ⟨by decide, by decide, by decide⟩⟩

end OpenBCSim
